import Mathlib

/-! Timestamp-addressable recording and playback: segment naming, scanning, resolution,
recording sessions.

A shallow embedding of the playback resolver and the seek coordinator of
`camera_media_factory.c`, of the segment naming, the rotation, the recording thread and the
manager of `recording_manager.c`, and of the file search of `playback_factory.c`.

* C strings are lists of characters (`CStr`); a `GList *` is a Lean list, `NULL` being `[]`;
  a pointer into a list (`GList *l`) is the suffix of the list that starts there.
* `gint64`, `long` and `time_t` values are integers; arithmetic that can leave the 64-bit
  range is wrapped explicitly with `wrap64`, and `int` and `gint` arithmetic with `wrap32`.
* A call that ends the program (`g_renew` on a size that overflows, the use of the `NULL`
  that `localtime` returns) gives `none`.
* A recording thread is followed up to the point where it enters its loop
  (`recording_thread_func_start`) and from the point where the loop is left
  (`recording_thread_func_finish`); threads do not interleave.
* Calls that leave the repository (`mktime`, `localtime`, the directory listing, the media
  engine's `gst_parse_launch`, `gst_element_seek` and state changes) are parameters of the
  definitions that use them; callbacks return what they send to the pipeline.
-/

namespace RtspServer

/-! ## C strings and libc helpers -/

/-- A C string: the characters before the terminating NUL. -/
abbrev CStr := List Char

/-- Two's-complement wrap of an integer into the signed 64-bit range. -/
def wrap64 (x : Int) : Int := (x + 2 ^ 63) % 2 ^ 64 - 2 ^ 63

/-- Two's-complement wrap of an integer into the range of a 32-bit `int` or `gint`. -/
def wrap32 (x : Int) : Int := (x + 2 ^ 31) % 2 ^ 32 - 2 ^ 31

/-- The value `LONG_MAX` of a 64-bit `long`. -/
def LONG_MAX : Int := 2 ^ 63 - 1

/-- The value `LONG_MIN` of a 64-bit `long`. -/
def LONG_MIN : Int := -(2 ^ 63)

/-- The value of `GST_SECOND`: nanoseconds in a second. -/
def GST_SECOND : Int := 1000000000

/-- The libc `isspace` in the C locale. -/
def isspace (c : Char) : Bool :=
  c = ' ' || c = '\t' || c = '\n' || c = '\x0b' || c = '\x0c' || c = '\r'

/-- The libc `isdigit`. -/
def isdigit (c : Char) : Bool := decide ('0' ≤ c) && decide (c ≤ '9')

/-- The libc `strchr`: the suffix starting at the first occurrence of `c`. -/
def strchr : CStr → Char → Option CStr
  | [], _ => none
  | x :: xs, c => if x = c then some (x :: xs) else strchr xs c

/-- The libc `strrchr`: the suffix starting at the last occurrence of `c`. -/
def strrchr : CStr → Char → Option CStr
  | [], _ => none
  | x :: xs, c =>
    match strrchr xs c with
    | some r => some r
    | none => if x = c then some (x :: xs) else none

/-- The libc `strcmp` on bytes: negative, zero or positive; the end of a string (its NUL)
compares below every character. -/
def strcmp : CStr → CStr → Int
  | [], [] => 0
  | [], _ :: _ => -1
  | _ :: _, [] => 1
  | a :: as, b :: bs => if a = b then strcmp as bs else (a.toNat : Int) - (b.toNat : Int)

/-- GLib `g_strcmp0` on two non-NULL strings. -/
def g_strcmp0 (a b : CStr) : Int := strcmp a b

/-- GLib `g_str_has_suffix`. -/
def g_str_has_suffix (str suffix : CStr) : Bool :=
  decide (suffix.length ≤ str.length) && decide (str.drop (str.length - suffix.length) = suffix)

/-- The decimal value of a run of digit characters. -/
def digits_value (ds : List Char) : Nat :=
  ds.foldl (fun acc c => acc * 10 + (c.toNat - 48)) 0

/-- A `scanf` integer conversion `%d` / `%ld` with an optional maximum field width:
leading white space is skipped, one optional sign and then decimal digits are read, the
sign counting towards the width; at least one digit is required.  Returns the
(mathematical) value read and the unread rest of the input. -/
def scanf_int (width : Option Nat) (s : CStr) : Option (Int × CStr) :=
  let s1 := s.dropWhile isspace
  let w := match width with
    | some w => w
    | none => s1.length
  let signed : Bool × CStr × Nat := match s1 with
    | '-' :: r => (true, r, w - 1)
    | '+' :: r => (false, r, w - 1)
    | _ => (false, s1, w)
  let ds := (signed.2.1.take signed.2.2).takeWhile isdigit
  if ds = [] then none
  else
    let n : Int := (digits_value ds : Int)
    some (if signed.1 then -n else n, signed.2.1.drop ds.length)

/-- The call `sscanf(s, "%ld", &ts)`: `some ts` when it returns 1.  A value outside the
range of `long` is stored as `LONG_MAX` / `LONG_MIN`, as glibc does. -/
def sscanf_ld (s : CStr) : Option Int :=
  match scanf_int none s with
  | none => none
  | some (v, _) => some (if v > LONG_MAX then LONG_MAX else if v < LONG_MIN then LONG_MIN else v)

/-- A literal character of a `scanf` format: the next input character must be it. -/
def scanf_lit (c : Char) : CStr → Option CStr
  | [] => none
  | x :: xs => if x = c then some xs else none

/-- The call `sscanf(p, "%4d/%2d/%2d/%2d", &year, &mon, &day, &hour)`: the four values
when it returns 4. -/
def sscanf_ymdh (p : CStr) : Option (Int × Int × Int × Int) :=
  match scanf_int (some 4) p with
  | none => none
  | some (year, r1) =>
    match scanf_lit '/' r1 with
    | none => none
    | some r2 =>
      match scanf_int (some 2) r2 with
      | none => none
      | some (mon, r3) =>
        match scanf_lit '/' r3 with
        | none => none
        | some r4 =>
          match scanf_int (some 2) r4 with
          | none => none
          | some (day, r5) =>
            match scanf_lit '/' r5 with
            | none => none
            | some r6 =>
              match scanf_int (some 2) r6 with
              | none => none
              | some (hour, _) => some (year, mon, day, hour)

/-- The fields of `struct tm`. -/
structure Tm where
  tm_sec : Int
  tm_min : Int
  tm_hour : Int
  tm_mday : Int
  tm_mon : Int
  tm_year : Int
  tm_isdst : Int
  deriving DecidableEq, Repr

/-! ## `path_to_timestamp` -/

/-- The fallback loop of `path_to_timestamp`: at every position that follows a `/`, try to
read a `YYYY/MM/DD/HH` fragment; the first that reads gives `mktime` of that hour. -/
def path_to_timestamp_dirs (mktime : Tm → Int) : CStr → Option Int
  | [] => none
  | c :: p =>
    if c = '/' then
      match sscanf_ymdh p with
      | some (year, mon, day, hour) =>
        some (mktime
          { tm_sec := 0, tm_min := 0, tm_hour := hour, tm_mday := day,
            tm_mon := mon - 1, tm_year := year - 1900, tm_isdst := -1 })
      | none => path_to_timestamp_dirs mktime p
    else path_to_timestamp_dirs mktime p

/-- The function `path_to_timestamp`: `some ts` when it returns `TRUE` with `*out_ts = ts`,
`none` when it returns `FALSE`. -/
def path_to_timestamp (mktime : Tm → Int) (path : CStr) : Option Int :=
  let base : CStr := match strrchr path '/' with
    | some r => r.tail
    | none => path
  match sscanf_ld base with
  | some ts =>
    if ts > 1500000000 ∧ ts < 2000000000 then some ts
    else path_to_timestamp_dirs mktime path
  | none => path_to_timestamp_dirs mktime path

/-! ## GLib list helpers -/

/-- GLib `g_list_insert_sorted`: `data` goes before the first element `x` with
`cmp data x <= 0`, or to the end. -/
def g_list_insert_sorted (cmp : CStr → CStr → Int) : List CStr → CStr → List CStr
  | [], data => [data]
  | x :: xs, data =>
    if cmp data x > 0 then x :: g_list_insert_sorted cmp xs data else data :: x :: xs

/-- GLib `g_list_sort`, a stable sort.  The result of a stable sort is fixed by the
comparison function, so it is computed here by stable insertion from the right. -/
def g_list_sort (cmp : CStr → CStr → Int) (l : List CStr) : List CStr :=
  l.foldr (fun x acc => g_list_insert_sorted cmp acc x) []

/-! ## The segment resolver -/

/-- The first loop of `get_recording_files_from_timestamp` (lines 304-320), started at list
position `l` with the current `best_ts` and `start_file`; returns the final `start_file`. -/
def find_start_file (mktime : Tm → Int) (start_ts : Int) :
    List CStr → Int → Option (List CStr) → Option (List CStr)
  | [], _, start_file => start_file
  | file :: rest, best_ts, start_file =>
    match path_to_timestamp mktime file with
    | none => find_start_file mktime start_ts rest best_ts start_file
    | some file_ts =>
      if file_ts ≤ start_ts ∧ (file_ts > best_ts ∨ best_ts = 0) then
        find_start_file mktime start_ts rest file_ts (some (file :: rest))
      else find_start_file mktime start_ts rest best_ts start_file

/-- The second loop of `get_recording_files_from_timestamp` (lines 335-347), started at list
position `l`: the files appended to `result`. -/
def collect_files (mktime : Tm → Int) (duration end_ts : Int) : List CStr → List CStr
  | [] => []
  | file :: rest =>
    if duration > 0 ∧
        (match path_to_timestamp mktime file with
          | some file_ts => decide (file_ts ≥ end_ts)
          | none => false) = true then
      [file]
    else file :: collect_files mktime duration end_ts rest

/-- The body of `get_recording_files_from_timestamp` after the scan (lines 291-359):
`all_files` is what `scan_recordings_recursive` produced; the result is the returned list,
`[]` standing for `NULL`. -/
def resolve_files (mktime : Tm → Int) (all_files : List CStr) (start_ts duration : Int) :
    List CStr :=
  if all_files = [] then []
  else
    let sorted := g_list_sort g_strcmp0 all_files
    match find_start_file mktime start_ts sorted 0 none with
    | none => []
    | some start_file =>
      let end_ts := wrap64 (start_ts + duration)
      collect_files mktime duration end_ts start_file

/-! ## The segment index scanner -/

/-- An entry of a directory as `g_dir_read_name` and `g_file_test` show it: a plain file,
or a directory with its own entries (`openable = false` when `g_dir_open` fails on it). -/
inductive FsNode where
  | file (name : CStr)
  | dir (name : CStr) (openable : Bool) (entries : List FsNode)

/-- Removes the trailing `/` characters of a reversed string. -/
def strip_leading_slashes : CStr → CStr
  | [] => []
  | c :: cs => if c = '/' then strip_leading_slashes cs else c :: cs

/-- GLib `g_build_filename (base_dir, name, NULL)` for a non-empty `base_dir` and a
directory entry `name`: the two parts joined by exactly one `/`. -/
def g_build_filename (base_dir name : CStr) : CStr :=
  (strip_leading_slashes base_dir.reverse).reverse ++ '/' :: name

mutual
/-- One iteration of the `while` loop of `scan_recordings_recursive` (lines 248-269) for the
entry `e` of the directory `base_dir`. -/
def scan_entry (mktime : Tm → Int) (base_dir : CStr) : FsNode → List CStr → List CStr
  | .dir name openable entries, files =>
    if openable then scan_entries mktime (g_build_filename base_dir name) entries files
    else files
  | .file name, files =>
    let full := g_build_filename base_dir name
    if !g_str_has_suffix name ".mp4".toList && !g_str_has_suffix name ".mkv".toList then files
    else
      match path_to_timestamp mktime full with
      | none => files
      | some _ => g_list_insert_sorted g_strcmp0 files full
/-- The `while` loop of `scan_recordings_recursive` over the entries that
`g_dir_read_name` returns, in the order it returns them. -/
def scan_entries (mktime : Tm → Int) (base_dir : CStr) : List FsNode → List CStr → List CStr
  | [], files => files
  | e :: es, files => scan_entries mktime base_dir es (scan_entry mktime base_dir e files)
end

/-- The function `scan_recordings_recursive (base_dir, &files)`: `dir` is what `g_dir_open`
gives for `base_dir` (`none` when it fails); returns the new value of `*files`. -/
def scan_recordings_recursive (mktime : Tm → Int) (base_dir : CStr)
    (dir : Option (List FsNode)) (files : List CStr) : List CStr :=
  match dir with
  | none => files
  | some entries => scan_entries mktime base_dir entries files

/-- The two values of `StreamType`. -/
inductive StreamType where
  | STREAM_MAIN
  | STREAM_SUB
  deriving DecidableEq, Repr

/-- The macro `RECORD_BASE_PATH`. -/
def RECORD_BASE_PATH : CStr := "/home/oryza/Oryza/recordings".toList

/-- The macro `RECORD_HI_QUALITY`. -/
def RECORD_HI_QUALITY : CStr := "hi_quality".toList

/-- The macro `RECORD_LOW_QUALITY`. -/
def RECORD_LOW_QUALITY : CStr := "low_quality".toList

/-- The directory that `get_recording_files_from_timestamp` scans (lines 281-284). -/
def playback_base_dir (camera_name : CStr) (stream_type : StreamType) : CStr :=
  "/home/oryza/Oryza/recordings/".toList ++
    (if stream_type = StreamType.STREAM_MAIN then "hi_quality".toList else "low_quality".toList) ++
    '/' :: camera_name

/-- The function `get_recording_files_from_timestamp`: `opendir` is the file system as
`g_dir_open` sees it at the scanned root; `[]` stands for `NULL`. -/
def get_recording_files_from_timestamp (mktime : Tm → Int)
    (opendir : CStr → Option (List FsNode)) (camera_name : CStr) (start_ts : Int)
    (stream_type : StreamType) (duration : Int) : List CStr :=
  let base_dir := playback_base_dir camera_name stream_type
  let all_files := scan_recordings_recursive mktime base_dir (opendir base_dir) []
  resolve_files mktime all_files start_ts duration

/-! ## Playback pipeline construction -/

/-- The record `SeekParams`. -/
structure SeekParams where
  seek_offset : Int
  duration_limit : Int
  seek_pending : Bool
  deriving DecidableEq, Repr

/-- The libc `strstr`: the suffix starting at the first occurrence of `needle`. -/
def strstr : CStr → CStr → Option CStr
  | [], needle => if needle = [] then some [] else none
  | x :: xs, needle =>
    if needle.isPrefixOf (x :: xs) then some (x :: xs) else strstr xs needle

/-- The function `parse_query_param`; `none` is `NULL`. -/
def parse_query_param (query : Option CStr) (param : CStr) : Option CStr :=
  match query with
  | none => none
  | some q =>
    let search := param ++ "=".toList
    match strstr q search with
    | none => none
    | some pos0 =>
      let pos := pos0.drop (param.length + 1)
      match strchr pos '&' with
      | some e => some (pos.take (pos.length - e.length))
      | none => some pos

/-- A handle on an element built by the media engine. -/
abbrev GstElement := Nat

/-- What `gst_parse_launch` gives back: the element (`none` for `NULL`) and whether it set
the error. -/
structure ParseLaunch where
  element : Option GstElement
  error : Bool

/-- The seek offset both branches of `create_playback_pipeline` compute from one file
(lines 370-376 and 446-452), in nanoseconds, in 64-bit arithmetic. -/
def seek_offset_ns (mktime : Tm → Int) (file : CStr) (start_ts : Int) : Int :=
  match path_to_timestamp mktime file with
  | some file_ts =>
    if start_ts > file_ts then wrap64 (wrap64 (start_ts - file_ts) * GST_SECOND) else 0
  | none => 0

/-- The value `duration > 0 ? duration * GST_SECOND : 0` (lines 398 and 455). -/
def duration_limit_ns (duration : Int) : Int :=
  if duration > 0 then wrap64 (duration * GST_SECOND) else 0

/-- The pipeline description of the single-file branch (lines 378-384). -/
def single_launch_str (file : CStr) : CStr :=
  "filesrc location=\"".toList ++ file ++ "\" ! ".toList ++
    "matroskademux ! ".toList ++
    "h264parse ! ".toList ++
    "queue max-size-time=5000000000 max-size-bytes=0 max-size-buffers=0 ! ".toList ++
    "rtph264pay name=pay0 pt=96 config-interval=-1 mtu=1400".toList

/-- The loop that fills `concat_str` (lines 408-423), started with `file_count`. -/
def concat_sources : List CStr → Nat → CStr
  | [], _ => []
  | file :: rest, file_count =>
    (if file_count > 0 then " ".toList else []) ++
      "filesrc location=\"".toList ++ file ++ "\" ! ".toList ++
      "matroskademux ! h264parse ! ".toList ++
      "queue max-size-time=3000000000 name=q".toList ++ Nat.toDigits 10 file_count ++
      " q".toList ++ Nat.toDigits 10 file_count ++ ". ! concat. ".toList ++
      concat_sources rest (file_count + 1)

/-- The pipeline description of the multi-file branch (lines 425-431). -/
def concat_launch_str (files : List CStr) : CStr :=
  concat_sources files 0 ++ " ".toList ++
    "concat name=concat ! ".toList ++
    "queue max-size-time=5000000000 max-size-bytes=0 max-size-buffers=0 ! ".toList ++
    "h264parse ! ".toList ++
    "rtph264pay name=pay0 pt=96 config-interval=-1 mtu=1400".toList

/-- The function `create_playback_pipeline`: the returned pipeline (`none` for `NULL`) and
the value left in `*out_params`, which the caller initialised to `NULL`. -/
def create_playback_pipeline (mktime : Tm → Int) (gst_parse_launch : CStr → ParseLaunch)
    (files : List CStr) (start_ts duration : Int) : Option GstElement × Option SeekParams :=
  match files with
  | [] => (none, none)
  | [file] =>
    let offset_ns := seek_offset_ns mktime file start_ts
    let launched := gst_parse_launch (single_launch_str file)
    if launched.error then (none, none)
    else
      (launched.element,
        some { seek_offset := offset_ns, duration_limit := duration_limit_ns duration,
               seek_pending := false })
  | first :: second :: rest =>
    let launched := gst_parse_launch (concat_launch_str (first :: second :: rest))
    if launched.error then (none, none)
    else
      let offset_ns := seek_offset_ns mktime first start_ts
      (launched.element,
        some { seek_offset := offset_ns, duration_limit := duration_limit_ns duration,
               seek_pending := false })

/-- The values of `CodecType`. -/
inductive CodecType where
  | CODEC_H264
  | CODEC_H265
  | CODEC_AUTO
  deriving DecidableEq, Repr

/-- The record `CameraConfig`; the two current record files may be `NULL`. -/
structure CameraConfig where
  name : CStr
  rtsp_url_main : CStr
  rtsp_url_sub : CStr
  codec_main : CodecType
  codec_sub : CodecType
  is_recording : Bool
  current_record_file_main : Option CStr
  current_record_file_sub : Option CStr

/-- The pipeline description of the live branch of `camera_media_factory_create_element`
(lines 530-582). -/
def live_launch_str (cam : CameraConfig) (rtsp_url : CStr) (codec : CodecType)
    (is_main_stream : Bool) : CStr :=
  let record_file : Option CStr :=
    if is_main_stream && cam.is_recording then cam.current_record_file_main else none
  let src := "rtspsrc location=".toList ++ rtsp_url ++
    " protocols=tcp latency=200 buffer-mode=auto ! ".toList
  match codec, record_file with
  | .CODEC_H265, some f =>
    src ++ "rtph265depay ! h265parse config-interval=-1 ! tee name=t ".toList ++
      "t. ! queue max-size-buffers=3 leaky=downstream ! ".toList ++
      "rtph265pay name=pay0 pt=96 config-interval=-1 mtu=1400 ".toList ++
      "t. ! queue ! mp4mux ! filesink location=".toList ++ f
  | .CODEC_H265, none =>
    src ++ "rtph265depay ! h265parse config-interval=-1 ! ".toList ++
      "rtph265pay name=pay0 pt=96 config-interval=-1 mtu=1400".toList
  | .CODEC_AUTO, some f =>
    src ++ "decodebin ! tee name=t ".toList ++
      "t. ! queue ! x264enc tune=zerolatency speed-preset=ultrafast ! ".toList ++
      "h264parse config-interval=-1 ! ".toList ++
      "rtph264pay name=pay0 pt=96 config-interval=-1 mtu=1400 ".toList ++
      "t. ! queue ! x264enc ! h264parse ! mp4mux ! filesink location=".toList ++ f
  | .CODEC_AUTO, none =>
    src ++ "decodebin ! x264enc tune=zerolatency speed-preset=ultrafast ! ".toList ++
      "h264parse config-interval=-1 ! ".toList ++
      "rtph264pay name=pay0 pt=96 config-interval=-1 mtu=1400".toList
  | .CODEC_H264, some f =>
    src ++ "rtph264depay ! h264parse config-interval=-1 ! tee name=t ".toList ++
      "t. ! queue max-size-buffers=3 leaky=downstream ! ".toList ++
      "rtph264pay name=pay0 pt=96 config-interval=-1 mtu=1400 ".toList ++
      "t. ! queue ! mp4mux ! filesink location=".toList ++ f
  | .CODEC_H264, none =>
    src ++ "rtph264depay ! h264parse config-interval=-1 ! ".toList ++
      "rtph264pay name=pay0 pt=96 config-interval=-1 mtu=1400".toList

/-- Whether the request selects the sub stream (lines 475-482): `stream_id` is present
and equal to `"1"`. -/
def request_is_sub (query : Option CStr) : Bool :=
  match parse_query_param query "stream".toList with
  | some id => decide (g_strcmp0 id "1".toList = 0)
  | none => false

/-- The stream the playback request scans: `is_main_stream ? STREAM_MAIN : STREAM_SUB`. -/
def request_stream_type (query : Option CStr) : StreamType :=
  if !request_is_sub query then StreamType.STREAM_MAIN else StreamType.STREAM_SUB

/-- The requested duration (line 486):
`duration_str ? g_ascii_strtoll(duration_str, NULL, 10) : 0`. -/
def request_duration (g_ascii_strtoll : CStr → Int) (query : Option CStr) : Int :=
  match parse_query_param query "duration".toList with
  | some d => g_ascii_strtoll d
  | none => 0

/-- The function `camera_media_factory_create_element`.  `factory_seek_params` is the
`"seek-params"` datum of the factory before the call; the result is the returned pipeline
(`none` for `NULL`) and that datum after the call.  `g_ascii_strtoll` is GLib's decimal
conversion to `gint64`. -/
def camera_media_factory_create_element (mktime : Tm → Int) (g_ascii_strtoll : CStr → Int)
    (gst_parse_launch : CStr → ParseLaunch) (opendir : CStr → Option (List FsNode))
    (cam : CameraConfig) (factory_seek_params : Option SeekParams) (query : Option CStr) :
    Option GstElement × Option SeekParams :=
  let timestamp_str := parse_query_param query "timestamp".toList
  let is_sub := request_is_sub query
  let rtsp_url := if is_sub then cam.rtsp_url_sub else cam.rtsp_url_main
  let codec := if is_sub then cam.codec_sub else cam.codec_main
  let is_main_stream := !is_sub
  match timestamp_str with
  | some ts_str =>
    let start_ts := g_ascii_strtoll ts_str
    let duration := request_duration g_ascii_strtoll query
    let files := get_recording_files_from_timestamp mktime opendir cam.name start_ts
      (request_stream_type query) duration
    if files = [] then (none, factory_seek_params)
    else
      match create_playback_pipeline mktime gst_parse_launch files start_ts duration with
      | (some pipeline, some seek_params) => (some pipeline, some seek_params)
      | (pipeline, _) => (pipeline, factory_seek_params)
  | none =>
    let launched := gst_parse_launch (live_launch_str cam rtsp_url codec is_main_stream)
    if launched.error then (none, factory_seek_params)
    else (launched.element, factory_seek_params)

/-! ## Segment naming (`recording_manager.c`) -/

/-- The digits `printf` writes for `%0Nd`: zero padding on the left up to `width`
characters, a minus sign counting as one of them. -/
def printf_0d (width : Nat) (v : Int) : CStr :=
  if v < 0 then
    '-' :: (List.replicate (width - 1 - (Nat.toDigits 10 v.natAbs).length) '0' ++
      Nat.toDigits 10 v.natAbs)
  else
    List.replicate (width - (Nat.toDigits 10 v.toNat).length) '0' ++ Nat.toDigits 10 v.toNat

/-- The characters `printf` writes for `%ld`. -/
def printf_ld (v : Int) : CStr :=
  if v < 0 then '-' :: Nat.toDigits 10 v.natAbs else Nat.toDigits 10 v.toNat

/-- The function `get_recording_directory`: `now` is the value `time(NULL)` returns in it
and `localtime` the C library's conversion to local calendar time, `none` standing for the
`NULL` it returns for a time whose year does not fit an `int`.  The result is `none` when
the function dereferences that `NULL`; the two sums are `int` arithmetic. -/
def get_recording_directory (localtime : Int → Option Tm) (now : Int) (camera_name : CStr)
    (stream_type : StreamType) : Option CStr :=
  match localtime now with
  | none => none
  | some tm_info =>
    let quality :=
      if stream_type = StreamType.STREAM_MAIN then RECORD_HI_QUALITY else RECORD_LOW_QUALITY
    some (RECORD_BASE_PATH ++ '/' :: quality ++ '/' :: camera_name ++
      '/' :: printf_0d 4 (wrap32 (tm_info.tm_year + 1900)) ++
      '/' :: printf_0d 2 (wrap32 (tm_info.tm_mon + 1)) ++
      '/' :: printf_0d 2 tm_info.tm_mday ++
      '/' :: printf_0d 2 tm_info.tm_hour)

/-- The function `generate_recording_filename`: `now` is its own reading of the clock and
`now_dir` the later reading inside `get_recording_directory`. -/
def generate_recording_filename (localtime : Int → Option Tm) (now now_dir : Int)
    (camera_name : CStr) (stream_type : StreamType) : Option CStr :=
  match get_recording_directory localtime now_dir camera_name stream_type with
  | none => none
  | some dir => some (dir ++ '/' :: printf_ld now ++ "_%05d.mkv".toList)

/-- The function `generate_recording_path`. -/
def generate_recording_path (localtime : Int → Option Tm) (now now_dir : Int)
    (camera_name : CStr) (stream_type : StreamType) : Option CStr :=
  generate_recording_filename localtime now now_dir camera_name stream_type

/-- The file name `create_recording_pipeline` gives its `filesink` (lines 190-203):
`now_dir` is the clock reading inside `get_recording_directory`, `now` the later one. -/
def recording_file_location (localtime : Int → Option Tm) (now_dir now : Int)
    (camera_name : CStr) (stream_type : StreamType) : Option CStr :=
  match get_recording_directory localtime now_dir camera_name stream_type with
  | none => none
  | some dir => some (dir ++ '/' :: printf_ld now ++ ".mkv".toList)

/-! ## Calendar time in the UTC time zone -/

/-- Days from 1970-01-01 to the civil date `y`-`m`-`d` of the proleptic Gregorian
calendar, for a month `m` in `1..12` and any day number `d`. -/
def days_from_civil (y m d : Int) : Int :=
  let y1 := if m ≤ 2 then y - 1 else y
  let era := y1 / 400
  let yoe := y1 - era * 400
  let mp := if m > 2 then m - 3 else m + 9
  let doy := (153 * mp + 2) / 5 + d - 1
  let doe := yoe * 365 + yoe / 4 - yoe / 100 + doy
  era * 146097 + doe - 719468

/-- The C library's `mktime` when the local time zone is UTC: fields outside their usual
range are carried over, as glibc does. -/
def mktime_utc (tm : Tm) : Int :=
  let year := tm.tm_year + 1900 + tm.tm_mon / 12
  let mon := tm.tm_mon % 12
  let days := days_from_civil year (mon + 1) 1 + (tm.tm_mday - 1)
  days * 86400 + tm.tm_hour * 3600 + tm.tm_min * 60 + tm.tm_sec

/-- The C library's `localtime` when the local time zone is UTC: `none` (the `NULL` it
returns) when the year, counted from 1900, does not fit an `int`. -/
def localtime_utc (t : Int) : Option Tm :=
  let days := t / 86400
  let rem := t % 86400
  let z := days + 719468
  let era := z / 146097
  let doe := z - era * 146097
  let yoe := (doe - doe / 1460 + doe / 36524 - doe / 146096) / 365
  let doy := doe - (365 * yoe + yoe / 4 - yoe / 100)
  let mp := (5 * doy + 2) / 153
  let d := doy - (153 * mp + 2) / 5 + 1
  let m := if mp < 10 then mp + 3 else mp - 9
  let y := yoe + era * 400 + (if m ≤ 2 then 1 else 0)
  if -2147483648 ≤ y - 1900 ∧ y - 1900 ≤ 2147483647 then
    some { tm_sec := rem % 60, tm_min := rem / 60 % 60, tm_hour := rem / 3600, tm_mday := d,
           tm_mon := m - 1, tm_year := y - 1900, tm_isdst := 0 }
  else none

/-! ## File names and the recording files of a directory tree -/

/-- The file name of a path, the `base` of `path_to_timestamp` (lines 213-214): the text
after the last `/`, or the whole path when it has none. -/
def path_base (path : CStr) : CStr :=
  match strrchr path '/' with
  | some r => r.tail
  | none => path

mutual
/-- The recording files below one directory entry: the full paths that
`scan_recordings_recursive` accepts (suffix `.mp4` or `.mkv`, time stamp parsed), in the
order in which the entries are enumerated. -/
def entry_paths (mktime : Tm → Int) (base_dir : CStr) : FsNode → List CStr
  | .dir name openable entries =>
    if openable then entries_paths mktime (g_build_filename base_dir name) entries else []
  | .file name =>
    if !g_str_has_suffix name ".mp4".toList && !g_str_has_suffix name ".mkv".toList then []
    else
      match path_to_timestamp mktime (g_build_filename base_dir name) with
      | none => []
      | some _ => [g_build_filename base_dir name]
/-- The recording files below the entries of a directory, in enumeration order. -/
def entries_paths (mktime : Tm → Int) (base_dir : CStr) : List FsNode → List CStr
  | [] => []
  | e :: es => entry_paths mktime base_dir e ++ entries_paths mktime base_dir es
end

/-- The recording files on disk below `base_dir`, in enumeration order; none when the
directory cannot be opened. -/
def tree_paths (mktime : Tm → Int) (base_dir : CStr) (dir : Option (List FsNode)) :
    List CStr :=
  match dir with
  | none => []
  | some entries => entries_paths mktime base_dir entries

/-! ## The seek coordinator -/

/-- The values of `GstState`. -/
inductive GstState where
  | GST_STATE_VOID_PENDING
  | GST_STATE_NULL
  | GST_STATE_READY
  | GST_STATE_PAUSED
  | GST_STATE_PLAYING
  deriving DecidableEq, Repr

/-- A bus message as `on_bus_message` looks at it: its type and, for a state change,
whether its source is the pipeline the watch belongs to and the three states it carries. -/
inductive GstMessage where
  | GST_MESSAGE_STATE_CHANGED (src_is_pipeline : Bool) (old_state new_state pending : GstState)
  | GST_MESSAGE_ERROR
  | GST_MESSAGE_SEGMENT_DONE
  | GST_MESSAGE_EOS
  | GST_MESSAGE_ASYNC_DONE
  | GST_MESSAGE_OTHER
  deriving DecidableEq, Repr

/-- The seek flags the coordinator uses: `GST_SEEK_FLAG_FLUSH`, `GST_SEEK_FLAG_ACCURATE`
and `GST_SEEK_FLAG_SEGMENT`. -/
structure SeekFlags where
  flush : Bool
  accurate : Bool
  segment : Bool
  deriving DecidableEq, Repr

/-- The values of `GstSeekType` that occur. -/
inductive GstSeekType where
  | GST_SEEK_TYPE_NONE
  | GST_SEEK_TYPE_SET
  deriving DecidableEq, Repr

/-- The value `GST_CLOCK_TIME_NONE` as the `gint64` argument of `gst_element_seek`. -/
def GST_CLOCK_TIME_NONE : Int := -1

/-- The arguments of one call `gst_element_seek (pipeline, 1.0, GST_FORMAT_TIME, flags,
start_type, start, stop_type, stop)`. -/
structure SeekCommand where
  flags : SeekFlags
  start_type : GstSeekType
  start : Int
  stop_type : GstSeekType
  stop : Int
  deriving DecidableEq, Repr

/-- What a bus handler sends to the pipeline. -/
inductive BusAction where
  | seek (cmd : SeekCommand)
  | send_eos
  deriving DecidableEq, Repr

/-- The outcome of one call of `on_bus_message`: its return value (`TRUE` keeps the watch,
`FALSE` removes it), the `"seek-params"` datum of the pipeline after the call, what was
sent to the pipeline, and which of the lines "Seek successful" and "Seek FAILED" was
printed, if any. -/
structure BusResult where
  keep_watching : Bool
  params : Option SeekParams
  actions : List BusAction
  seek_logged : Option Bool
  deriving DecidableEq, Repr

/-- The seek that `on_bus_message` chooses from the offset and the limit (lines 143-168);
`none` when it calls no `gst_element_seek`. -/
def seek_for (seek_offset duration_limit : Int) : Option SeekCommand :=
  if seek_offset > 0 ∧ duration_limit > 0 then
    some { flags := { flush := true, accurate := true, segment := true },
           start_type := GstSeekType.GST_SEEK_TYPE_SET, start := seek_offset,
           stop_type := GstSeekType.GST_SEEK_TYPE_SET,
           stop := wrap64 (seek_offset + duration_limit) }
  else if seek_offset > 0 then
    some { flags := { flush := true, accurate := true, segment := false },
           start_type := GstSeekType.GST_SEEK_TYPE_SET, start := seek_offset,
           stop_type := GstSeekType.GST_SEEK_TYPE_NONE, stop := GST_CLOCK_TIME_NONE }
  else if duration_limit > 0 then
    some { flags := { flush := true, accurate := true, segment := true },
           start_type := GstSeekType.GST_SEEK_TYPE_SET, start := 0,
           stop_type := GstSeekType.GST_SEEK_TYPE_SET, stop := duration_limit }
  else none

/-- The function `on_bus_message`.  `params` is the `"seek-params"` datum of the pipeline
(`none` for `NULL`) and `gst_element_seek` the engine's answer to a seek. -/
def on_bus_message (gst_element_seek : SeekCommand → Bool) (params : Option SeekParams)
    (msg : GstMessage) : BusResult :=
  match msg with
  | .GST_MESSAGE_STATE_CHANGED src_is_pipeline _ new_state _ =>
    if src_is_pipeline ∧ new_state = GstState.GST_STATE_PLAYING then
      match params with
      | some p =>
        if p.seek_pending then
          let cleared : SeekParams := { p with seek_pending := false }
          match seek_for p.seek_offset p.duration_limit with
          | some cmd =>
            { keep_watching := true, params := some cleared,
              actions := [BusAction.seek cmd], seek_logged := some (gst_element_seek cmd) }
          | none =>
            { keep_watching := true, params := some cleared, actions := [],
              seek_logged := some false }
        else { keep_watching := true, params := some p, actions := [], seek_logged := none }
      | none => { keep_watching := true, params := none, actions := [], seek_logged := none }
    else { keep_watching := true, params := params, actions := [], seek_logged := none }
  | .GST_MESSAGE_ERROR =>
    { keep_watching := true, params := params, actions := [], seek_logged := none }
  | .GST_MESSAGE_SEGMENT_DONE =>
    { keep_watching := false, params := params, actions := [BusAction.send_eos],
      seek_logged := none }
  | .GST_MESSAGE_EOS =>
    { keep_watching := false, params := params, actions := [], seek_logged := none }
  | .GST_MESSAGE_ASYNC_DONE =>
    { keep_watching := true, params := params, actions := [], seek_logged := none }
  | .GST_MESSAGE_OTHER =>
    { keep_watching := true, params := params, actions := [], seek_logged := none }

/-- The bus watch that `gst_bus_add_watch` installs: the handler is called for each message
in turn until it returns `FALSE`, which removes the watch.  Returns everything sent to the
pipeline and the final `"seek-params"` datum. -/
def bus_watch_run (gst_element_seek : SeekCommand → Bool) :
    Option SeekParams → List GstMessage → List BusAction × Option SeekParams
  | params, [] => ([], params)
  | params, msg :: rest =>
    let r := on_bus_message gst_element_seek params msg
    if r.keep_watching then
      (r.actions ++ (bus_watch_run gst_element_seek r.params rest).1,
        (bus_watch_run gst_element_seek r.params rest).2)
    else (r.actions, r.params)

/-- What `media_configure_cb` leaves behind: the `eos-shutdown` setting of the media, the
`"seek-params"` datum it puts on the media, whether it connected `on_media_prepared` to the
`prepared` signal, and the `"seek-params"` datum of the factory after the call. -/
structure MediaConfigured where
  eos_shutdown : Bool
  media_params : Option SeekParams
  prepared_connected : Bool
  factory_params : Option SeekParams
  deriving DecidableEq, Repr

/-- The function `media_configure_cb`; `factory_params` is the `"seek-params"` datum of
the factory before the call. -/
def media_configure_cb (factory_params : Option SeekParams) : MediaConfigured :=
  match factory_params with
  | some params =>
    if params.seek_offset > 0 ∨ params.duration_limit > 0 then
      { eos_shutdown := true,
        media_params := some { seek_offset := params.seek_offset,
                               duration_limit := params.duration_limit,
                               seek_pending := true },
        prepared_connected := true, factory_params := none }
    else
      { eos_shutdown := false, media_params := none, prepared_connected := false,
        factory_params := none }
  | none =>
    { eos_shutdown := false, media_params := none, prepared_connected := false,
      factory_params := none }

/-- The function `on_media_prepared`: the `"seek-params"` datum it puts on the pipeline and
whether it installs the bus watch.  `has_pipeline` and `has_bus` tell whether
`gst_rtsp_media_get_element` and `gst_pipeline_get_bus` return an object. -/
def on_media_prepared (media_params : Option SeekParams) (has_pipeline has_bus : Bool) :
    Option SeekParams × Bool :=
  match media_params with
  | none => (none, false)
  | some params =>
    if !has_pipeline then (none, false)
    else
      (some { seek_offset := params.seek_offset, duration_limit := params.duration_limit,
              seek_pending := true },
        has_bus)

/-- The seek coordinator from the factory's seek parameters to the end of the bus
messages: `media_configure_cb`, then `on_media_prepared` when the `prepared` signal is
connected, then the bus watch when it is installed.  Returns what was sent to the
pipeline. -/
def seek_coordinator (gst_element_seek : SeekCommand → Bool)
    (factory_params : Option SeekParams) (has_pipeline has_bus : Bool)
    (msgs : List GstMessage) : List BusAction :=
  let configured := media_configure_cb factory_params
  if configured.prepared_connected then
    let prepared := on_media_prepared configured.media_params has_pipeline has_bus
    if prepared.2 then (bus_watch_run gst_element_seek prepared.1 msgs).1 else []
  else []

/-- The seek commands among the things sent to the pipeline. -/
def seeks_of : List BusAction → List SeekCommand
  | [] => []
  | BusAction.seek cmd :: rest => cmd :: seeks_of rest
  | BusAction.send_eos :: rest => seeks_of rest

/-- The number of end-of-stream events among the things sent to the pipeline. -/
def eos_count : List BusAction → Nat
  | [] => 0
  | BusAction.seek _ :: rest => eos_count rest
  | BusAction.send_eos :: rest => eos_count rest + 1

/-- Whether a message is a state change of the pipeline itself to `PLAYING`. -/
def is_pipeline_playing : GstMessage → Bool
  | .GST_MESSAGE_STATE_CHANGED src_is_pipeline _ new_state _ =>
    src_is_pipeline && decide (new_state = GstState.GST_STATE_PLAYING)
  | _ => false

/-- Whether `on_bus_message` removes the watch on a message: segment done and end of
stream. -/
def removes_watch : GstMessage → Bool
  | .GST_MESSAGE_SEGMENT_DONE => true
  | .GST_MESSAGE_EOS => true
  | _ => false

/-! ## The recording session and its rotation (`recording_manager.c`) -/

/-- The record `RecordingPipeline`; a pointer field is `none` when it is `NULL`. -/
structure RecordingPipeline where
  camera_name : CStr
  rtsp_url : CStr
  stream_type : StreamType
  pipeline : Option GstElement
  source : Option GstElement
  depay : Option GstElement
  parser : Option GstElement
  tee : Option GstElement
  splitmux : Option GstElement
  is_h265 : Bool
  is_running : Bool
  thread : Option Nat
  loop : Option Nat
  deriving DecidableEq, Repr

/-- The values of `GstStateChangeReturn`. -/
inductive GstStateChangeReturn where
  | GST_STATE_CHANGE_FAILURE
  | GST_STATE_CHANGE_SUCCESS
  | GST_STATE_CHANGE_ASYNC
  | GST_STATE_CHANGE_NO_PREROLL
  deriving DecidableEq, Repr

/-- What the media engine answers while `create_recording_pipeline` builds a capture
pipeline: the results of `gst_pipeline_new`, of the six `gst_element_factory_make` calls
(`none` for `NULL`) and of `gst_element_link_many`. -/
structure PipelineBuild where
  pipeline : Option GstElement
  source : Option GstElement
  depay : Option GstElement
  parser : Option GstElement
  queue : Option GstElement
  muxer : Option GstElement
  filesink : Option GstElement
  link_ok : Bool
  deriving DecidableEq, Repr

/-- The function `create_recording_pipeline`: its return value and the session record
after the call.  The file it records to is `recording_file_location`. -/
def create_recording_pipeline (b : PipelineBuild) (rec : RecordingPipeline) :
    Bool × RecordingPipeline :=
  match b.pipeline with
  | none => (false, { rec with pipeline := none })
  | some pipeline =>
    let rec1 : RecordingPipeline :=
      { rec with pipeline := some pipeline, source := b.source, depay := b.depay,
                 parser := b.parser }
    if b.source.isNone || b.depay.isNone || b.parser.isNone || b.queue.isNone ||
        b.muxer.isNone || b.filesink.isNone then
      (false, { rec1 with pipeline := none })
    else if !b.link_ok then (false, { rec1 with pipeline := none })
    else (true, { rec1 with splitmux := b.filesink, tee := b.muxer })

/-- What the media engine answers during one rotation: the results of stopping the old
pipeline (`gst_element_set_state` to `NULL` and the bounded `gst_element_get_state`), of
building the new one, of starting it and of the bounded wait for it to play. -/
structure RotationEnv where
  old_stop : GstStateChangeReturn
  old_stop_wait : GstStateChangeReturn
  build : PipelineBuild
  start : GstStateChangeReturn
  start_wait : GstStateChangeReturn
  deriving DecidableEq, Repr

/-- The value `G_SOURCE_CONTINUE`. -/
def G_SOURCE_CONTINUE : Bool := true

/-- The value `G_SOURCE_REMOVE`. -/
def G_SOURCE_REMOVE : Bool := false

/-- The function `rotate_recording_pipeline`: the session record after the call and the
return value (`G_SOURCE_CONTINUE` or `G_SOURCE_REMOVE`). -/
def rotate_recording_pipeline (env : RotationEnv) (rec : RecordingPipeline) :
    RecordingPipeline × Bool :=
  if !rec.is_running || rec.pipeline.isNone then (rec, G_SOURCE_REMOVE)
  else
    let rec1 : RecordingPipeline := { rec with pipeline := none }
    let created := create_recording_pipeline env.build rec1
    if !created.1 then ({ created.2 with is_running := false }, G_SOURCE_REMOVE)
    else if env.start = GstStateChangeReturn.GST_STATE_CHANGE_FAILURE then
      ({ created.2 with pipeline := none, is_running := false }, G_SOURCE_REMOVE)
    else if env.start_wait = GstStateChangeReturn.GST_STATE_CHANGE_FAILURE then
      ({ created.2 with pipeline := none, is_running := false }, G_SOURCE_REMOVE)
    else (created.2, G_SOURCE_CONTINUE)

/-- A call that `rotate_recording_pipeline` makes on the media engine or on GLib, with the
pointer it passes (`none` for `NULL`) and, for a state request or a wait, the timeout and
what the call returns. -/
inductive RotationCall where
  | gst_bus_remove_watch (pipeline : Option GstElement)
  | gst_element_set_state (pipeline : Option GstElement) (state : GstState)
      (ret : GstStateChangeReturn)
  | gst_element_get_state (pipeline : Option GstElement) (timeout : Int)
      (ret : GstStateChangeReturn)
  | gst_object_unref (pipeline : Option GstElement)
  | g_usleep (microseconds : Int)
  | create_recording_pipeline (ret : Bool)
  | g_signal_connect_pad_added (source : Option GstElement)
  deriving DecidableEq, Repr

/-- The function `rotate_recording_pipeline` with the calls it makes, in the order it makes
them (lines 329-381; the calls that only read the old file name for the log are left out):
the session record after the call, the return value, and the calls.  `cleanup` is what the
engine answers to the `gst_element_set_state (rec->pipeline, GST_STATE_NULL)` of line 377. -/
def rotate_recording_pipeline_traced (env : RotationEnv) (cleanup : GstStateChangeReturn)
    (rec : RecordingPipeline) : (RecordingPipeline × Bool) × List RotationCall :=
  if !rec.is_running || rec.pipeline.isNone then ((rec, G_SOURCE_REMOVE), [])
  else
    let stopped : List RotationCall :=
      [RotationCall.gst_bus_remove_watch rec.pipeline,
       RotationCall.gst_element_set_state rec.pipeline GstState.GST_STATE_NULL env.old_stop,
       RotationCall.gst_element_get_state rec.pipeline (2 * GST_SECOND) env.old_stop_wait,
       RotationCall.gst_object_unref rec.pipeline,
       RotationCall.g_usleep 100000]
    let rec1 : RecordingPipeline := { rec with pipeline := none }
    let created := create_recording_pipeline env.build rec1
    let calls1 := stopped ++ [RotationCall.create_recording_pipeline created.1]
    if !created.1 then (({ created.2 with is_running := false }, G_SOURCE_REMOVE), calls1)
    else
      let calls2 := calls1 ++
        [RotationCall.g_signal_connect_pad_added created.2.source,
         RotationCall.gst_element_set_state created.2.pipeline GstState.GST_STATE_PLAYING
           env.start]
      if env.start = GstStateChangeReturn.GST_STATE_CHANGE_FAILURE then
        (({ created.2 with pipeline := none, is_running := false }, G_SOURCE_REMOVE),
          calls2 ++ [RotationCall.gst_object_unref created.2.pipeline])
      else
        let calls3 := calls2 ++
          [RotationCall.gst_element_get_state created.2.pipeline (5 * GST_SECOND)
            env.start_wait]
        if env.start_wait = GstStateChangeReturn.GST_STATE_CHANGE_FAILURE then
          (({ created.2 with pipeline := none, is_running := false }, G_SOURCE_REMOVE),
            calls3 ++
              [RotationCall.gst_element_set_state created.2.pipeline GstState.GST_STATE_NULL
                 cleanup,
               RotationCall.gst_object_unref created.2.pipeline])
        else ((created.2, G_SOURCE_CONTINUE), calls3)

/-- The timer that `g_timeout_add_seconds (80, rotate_recording_pipeline, rec)` installs:
at each expiry (one `RotationEnv` each) the callback runs, and the timer is removed when it
returns `G_SOURCE_REMOVE`.  Returns the session record at the end and the number of times
the callback ran. -/
def rotation_timer_run : List RotationEnv → RecordingPipeline → RecordingPipeline × Nat
  | [], rec => (rec, 0)
  | env :: later, rec =>
    let r := rotate_recording_pipeline env rec
    if r.2 = G_SOURCE_CONTINUE then
      ((rotation_timer_run later r.1).1, (rotation_timer_run later r.1).2 + 1)
    else (r.1, 1)

/-! ## The recording thread -/

/-- What the media engine and GLib answer while `recording_thread_func` starts a session:
the pipeline build, the result of the request to play, the result of the bounded wait, and
the loop that `g_main_loop_new` returns. -/
structure StartEnv where
  build : PipelineBuild
  start : GstStateChangeReturn
  start_wait : GstStateChangeReturn
  loop : Nat
  deriving DecidableEq, Repr

/-- The function `recording_thread_func` up to `g_main_loop_run` (lines 390-447): the
session record when the thread either returns early or enters its loop, and whether it
enters the loop (then the loop has been created and the rotation timer installed). -/
def recording_thread_func_start (env : StartEnv) (rec : RecordingPipeline) :
    RecordingPipeline × Bool :=
  let created := create_recording_pipeline env.build rec
  if !created.1 then ({ created.2 with is_running := false }, false)
  else if env.start = GstStateChangeReturn.GST_STATE_CHANGE_FAILURE then
    ({ created.2 with is_running := false }, false)
  else if env.start_wait = GstStateChangeReturn.GST_STATE_CHANGE_FAILURE then
    ({ created.2 with is_running := false }, false)
  else ({ created.2 with loop := some env.loop }, true)

/-- The function `recording_thread_func` after `g_main_loop_run` has returned (lines
449-462): the pipeline is stopped and released, the loop is released, and the session is
marked not running; the two pointers are left as they are. -/
def recording_thread_func_finish (rec : RecordingPipeline) : RecordingPipeline :=
  { rec with is_running := false }

/-! ## The file search of `playback_factory.c` -/

mutual
/-- One iteration of the `while` loop of `search_recordings_recursive` (lines 18-40) for
the entry `e` of `dirpath`: the path it returns from the search, `none` when the loop goes
on to the next entry. -/
def search_entry (dirpath camera_name timestamp_str : CStr) : FsNode → Option CStr
  | .dir name openable entries =>
    if openable then
      search_entries (g_build_filename dirpath name) camera_name timestamp_str entries
    else none
  | .file name =>
    let child := g_build_filename dirpath name
    if (strstr name timestamp_str).isSome then
      if (strstr dirpath camera_name).isSome || (strstr child camera_name).isSome then
        some child
      else none
    else none
/-- The `while` loop of `search_recordings_recursive` over the entries of `dirpath` in the
order `g_dir_read_name` returns them. -/
def search_entries (dirpath camera_name timestamp_str : CStr) : List FsNode → Option CStr
  | [] => none
  | e :: es =>
    match search_entry dirpath camera_name timestamp_str e with
    | some res => some res
    | none => search_entries dirpath camera_name timestamp_str es
end

/-- The function `search_recordings_recursive`: `dir` is what `g_dir_open` gives for
`dirpath` (`none` when it fails); `none` is `NULL`. -/
def search_recordings_recursive (dirpath camera_name timestamp_str : CStr)
    (dir : Option (List FsNode)) : Option CStr :=
  match dir with
  | none => none
  | some entries => search_entries dirpath camera_name timestamp_str entries

/-- The function `find_recording_file`: `opendir` is the file system as `g_dir_open` sees
it at `RECORD_BASE_PATH`; `stream_type` is not used. -/
def find_recording_file (opendir : CStr → Option (List FsNode)) (camera_name : CStr)
    (timestamp : Int) (_stream_type : Int) : Option CStr :=
  search_recordings_recursive RECORD_BASE_PATH camera_name (printf_ld timestamp)
    (opendir RECORD_BASE_PATH)

/-! ## Zero-padded decimal fields -/

/-- The four decimal digits of a number below 10000, leading zeros included. -/
def four_digits (n : Nat) : CStr :=
  [Nat.digitChar (n / 1000), Nat.digitChar (n / 100 % 10), Nat.digitChar (n / 10 % 10),
    Nat.digitChar (n % 10)]

/-- The two decimal digits of a number below 100, a leading zero included. -/
def two_digits (n : Nat) : CStr :=
  [Nat.digitChar (n / 10), Nat.digitChar (n % 10)]

/-! ## The recording manager -/

/-- One slot of the manager's array: the session record, and with it the number of threads
started for the session that are inside `g_main_loop_run` and the number of rotation timers
installed for it.  The two numbers are not fields of the C record; they keep track of what
`g_thread_new`, `g_main_loop_quit` with `g_thread_join`, and `g_timeout_add_seconds` have
done. -/
structure Session where
  record : RecordingPipeline
  live_tasks : Nat
  timers : Nat
  deriving DecidableEq, Repr

/-- The record `RecordingManager`: the array `pipelines` as a function of the index, with
`count` and `capacity`.  Slots that were never written hold the zero record. -/
structure RecordingManager where
  pipelines : Nat → Session
  count : Int
  capacity : Int

/-- A slot after `memset (rec, 0, sizeof (RecordingPipeline))` and the four assignments of
`recording_manager_add_camera`. -/
def new_session (camera_name rtsp_url : CStr) (stream_type : StreamType) (is_h265 : Bool) :
    Session :=
  { record :=
      { camera_name := camera_name, rtsp_url := rtsp_url, stream_type := stream_type,
        pipeline := none, source := none, depay := none, parser := none, tee := none,
        splitmux := none, is_h265 := is_h265, is_running := false, thread := none,
        loop := none },
    live_tasks := 0, timers := 0 }

/-- The array `a` with slot `i` replaced by `v`. -/
def set_slot (a : Nat → Session) (i : Nat) (v : Session) : Nat → Session :=
  fun j => if j = i then v else a j

/-- The function `recording_manager_new`: zeroed slots, `count = 0`, `capacity = 10`. -/
def recording_manager_new : RecordingManager :=
  { pipelines := fun _ => new_session [] [] StreamType.STREAM_MAIN false,
    count := 0, capacity := 10 }

/-- The arguments of one call of `recording_manager_add_camera`. -/
structure CameraArgs where
  camera_name : CStr
  rtsp_url_main : CStr
  rtsp_url_sub : CStr
  is_h265_main : Bool
  is_h265_sub : Bool
  deriving DecidableEq, Repr

/-- The value `G_MAXSIZE` of a 64-bit `gsize`. -/
def G_MAXSIZE : Nat := 2 ^ 64 - 1

/-- The value `sizeof (RecordingPipeline)` with 8-byte pointers and 4-byte `int`s: ten
pointers, the `StreamType` with its padding and the two `gboolean`s. -/
def sizeof_RecordingPipeline : Nat := 96

/-- Whether `g_realloc_n (mem, n_blocks, n_block_bytes)` returns: when the byte count
overflows a `gsize` it ends the program with `g_error`.  The memory asked for is taken to
be available. -/
def g_realloc_n_returns (n_blocks n_block_bytes : Nat) : Bool :=
  !(decide (n_block_bytes > 0) && decide (n_blocks > G_MAXSIZE / n_block_bytes))

/-- Whether `g_renew (RecordingPipeline, mem, n_structs)` returns: the `gint` count is
converted to `gsize` and passed to `g_realloc_n` with the size of the record. -/
def g_renew_returns (n_structs : Int) : Bool :=
  g_realloc_n_returns (n_structs % 2 ^ 64).toNat sizeof_RecordingPipeline

/-- The function `recording_manager_add_camera`: its return value and the manager after
the call, or `none` when the program is ended inside `g_renew`; `gint` arithmetic wraps at
32 bits. -/
def recording_manager_add_camera (m : RecordingManager) (c : CameraArgs) :
    Option (Bool × RecordingManager) :=
  let grow : Bool := decide (wrap32 (m.count + 2) > m.capacity)
  let capacity := if grow then wrap32 (m.capacity * 2) else m.capacity
  if grow && !g_renew_returns capacity then none
  else
    let main_index := m.count
    let count1 := wrap32 (m.count + 1)
    let pipelines1 := set_slot m.pipelines main_index.toNat
      (new_session c.camera_name c.rtsp_url_main StreamType.STREAM_MAIN c.is_h265_main)
    let sub_index := count1
    let count2 := wrap32 (count1 + 1)
    let pipelines2 := set_slot pipelines1 sub_index.toNat
      (new_session c.camera_name c.rtsp_url_sub StreamType.STREAM_SUB c.is_h265_sub)
    some (true, { pipelines := pipelines2, count := count2, capacity := capacity })

/-- A sequence of `recording_manager_add_camera` calls: the manager at the end and the
return values of the calls, or `none` when one of the calls ends the program. -/
def add_cameras : List CameraArgs → RecordingManager → Option (RecordingManager × List Bool)
  | [], m => some (m, [])
  | c :: cs, m =>
    match recording_manager_add_camera m c with
    | none => none
    | some r =>
      match add_cameras cs r.2 with
      | none => none
      | some later => some (later.1, r.1 :: later.2)

/-- The body of the loop of `recording_manager_start_all` for one slot (lines 512-518),
followed by the start of the thread it creates: `thread` is what `g_thread_new` returns
and `env` what the new thread meets in `recording_thread_func`. -/
def session_start (env : StartEnv) (thread : Nat) (s : Session) : Session :=
  if !s.record.is_running then
    let started :=
      recording_thread_func_start env { s.record with is_running := true, thread := some thread }
    { record := started.1,
      live_tasks := if started.2 then s.live_tasks + 1 else s.live_tasks,
      timers := if started.2 then s.timers + 1 else s.timers }
  else s

/-- The loop `for (i = 0; i < n; i++)` of `recording_manager_start_all` over the slots. -/
def start_loop (envs : Nat → StartEnv) (threads : Nat → Nat) :
    Nat → (Nat → Session) → (Nat → Session)
  | 0, a => a
  | n + 1, a =>
    set_slot (start_loop envs threads n a) n
      (session_start (envs n) (threads n) (start_loop envs threads n a n))

/-- The function `recording_manager_start_all`, each new thread having run up to its
loop. -/
def recording_manager_start_all (envs : Nat → StartEnv) (threads : Nat → Nat)
    (m : RecordingManager) : RecordingManager :=
  { m with pipelines := start_loop envs threads m.count.toNat m.pipelines }

/-- The body of the loop of `recording_manager_stop_all` for one slot (lines 525-531): when
the session is running and has a loop, the loop is told to quit and the thread is joined,
so `recording_thread_func` has run to its end; the result says whether that was done. -/
def session_stop (s : Session) : Session × Bool :=
  if s.record.is_running && s.record.loop.isSome then
    ({ record := recording_thread_func_finish s.record, live_tasks := s.live_tasks - 1,
       timers := s.timers }, true)
  else (s, false)

/-- The loop `for (i = 0; i < n; i++)` of `recording_manager_stop_all`: the slots after it
and the indices of the sessions that were told to quit and joined. -/
def stop_loop : Nat → (Nat → Session) → (Nat → Session) × List Nat
  | 0, a => (a, [])
  | n + 1, a =>
    let before := stop_loop n a
    let r := session_stop (before.1 n)
    (set_slot before.1 n r.1, if r.2 then before.2 ++ [n] else before.2)

/-- The function `recording_manager_stop_all`. -/
def recording_manager_stop_all (m : RecordingManager) : RecordingManager :=
  { m with pipelines := (stop_loop m.count.toNat m.pipelines).1 }

/-- The sessions that one call of `recording_manager_stop_all` tells to quit and joins. -/
def stop_all_joined (m : RecordingManager) : List Nat :=
  (stop_loop m.count.toNat m.pipelines).2

/-- One expiry of a session's rotation timer: when a timer is installed the callback
`rotate_recording_pipeline` runs, and a return value `G_SOURCE_REMOVE` removes the timer. -/
def session_timer_fire (env : RotationEnv) (s : Session) : Session :=
  if s.timers = 0 then s
  else
    let r := rotate_recording_pipeline env s.record
    { record := r.1, live_tasks := s.live_tasks,
      timers := if r.2 = G_SOURCE_CONTINUE then s.timers else s.timers - 1 }

/-- The manager after the rotation timer of slot `i` has expired once. -/
def manager_timer_fire (env : RotationEnv) (i : Nat) (m : RecordingManager) :
    RecordingManager :=
  { m with pipelines := set_slot m.pipelines i (session_timer_fire env (m.pipelines i)) }

/-! ## Byte-wise path order -/

theorem char_sub_ne_zero (x y : Char) (h : x ≠ y) : (x.toNat : Int) - y.toNat ≠ 0 := by
  intro e
  apply h
  apply Char.ext
  apply UInt32.ext
  have : x.toNat = y.toNat := by omega
  exact this

theorem strcmp_total (a b : CStr) : strcmp a b ≤ 0 ∨ strcmp b a ≤ 0 := by
  induction a generalizing b with
  | nil =>
    cases b with
    | nil => left; simp [strcmp]
    | cons y ys => left; simp [strcmp]
  | cons x xs ih =>
    cases b with
    | nil => right; simp [strcmp]
    | cons y ys =>
      by_cases h : x = y
      · subst h
        simpa [strcmp] using ih ys
      · have h2 : ¬ y = x := fun e => h e.symm
        simp only [strcmp, h, h2, if_false]
        omega

theorem strcmp_trans (a b c : CStr) (hab : strcmp a b ≤ 0) (hbc : strcmp b c ≤ 0) :
    strcmp a c ≤ 0 := by
  induction a generalizing b c with
  | nil =>
    cases c with
    | nil => simp [strcmp]
    | cons z zs => simp [strcmp]
  | cons x xs ih =>
    cases b with
    | nil => simp [strcmp] at hab
    | cons y ys =>
      cases c with
      | nil => simp [strcmp] at hbc
      | cons z zs =>
        by_cases hxy : x = y
        · subst hxy
          by_cases hxz : x = z
          · subst hxz
            simp only [strcmp, if_true] at hab hbc ⊢
            exact ih ys zs hab hbc
          · simpa only [strcmp, hxz, if_false] using hbc
        · by_cases hyz : y = z
          · subst hyz
            simpa only [strcmp, hxy, if_false] using hab
          · simp only [strcmp, hxy, hyz, if_false] at hab hbc
            have hxz : x ≠ z := by
              intro e; subst e
              have := char_sub_ne_zero x y hxy
              omega
            simp only [strcmp, hxz, if_false]; omega

theorem insert_sorted_perm (cmp : CStr → CStr → Int) (l : List CStr) (d : CStr) :
    (g_list_insert_sorted cmp l d).Perm (d :: l) := by
  induction l with
  | nil => simp [g_list_insert_sorted]
  | cons x xs ih =>
    unfold g_list_insert_sorted
    split
    · exact (List.Perm.cons x ih).trans (List.Perm.swap d x xs)
    · exact List.Perm.refl _

theorem insert_sorted_pairwise (l : List CStr) (d : CStr)
    (h : l.Pairwise (fun a b => g_strcmp0 a b ≤ 0)) :
    (g_list_insert_sorted g_strcmp0 l d).Pairwise (fun a b => g_strcmp0 a b ≤ 0) := by
  induction l with
  | nil => simp [g_list_insert_sorted]
  | cons x xs ih =>
    unfold g_list_insert_sorted
    rw [List.pairwise_cons] at h
    split
    · rename_i hgt
      rw [List.pairwise_cons]
      refine ⟨?_, ih h.2⟩
      intro y hy
      have hy2 : y ∈ d :: xs := (insert_sorted_perm g_strcmp0 xs d).subset hy
      rcases List.mem_cons.mp hy2 with rfl | hy3
      · rcases strcmp_total x y with h1 | h1
        · exact h1
        · exact absurd h1 (by simpa [g_strcmp0] using hgt)
      · exact h.1 y hy3
    · rename_i hle
      have hdx : g_strcmp0 d x ≤ 0 := by omega
      rw [List.pairwise_cons]
      refine ⟨?_, List.pairwise_cons.mpr h⟩
      intro y hy
      rcases List.mem_cons.mp hy with rfl | hy3
      · exact hdx
      · exact strcmp_trans d x y hdx (h.1 y hy3)

theorem g_list_sort_perm (cmp : CStr → CStr → Int) (l : List CStr) :
    (g_list_sort cmp l).Perm l := by
  induction l with
  | nil => simp [g_list_sort]
  | cons x xs ih =>
    have : g_list_sort cmp (x :: xs) = g_list_insert_sorted cmp (g_list_sort cmp xs) x := rfl
    rw [this]
    exact (insert_sorted_perm cmp _ x).trans (List.Perm.cons x ih)

theorem g_list_sort_pairwise (l : List CStr) :
    (g_list_sort g_strcmp0 l).Pairwise (fun a b => g_strcmp0 a b ≤ 0) := by
  induction l with
  | nil => simp [g_list_sort]
  | cons x xs ih =>
    have : g_list_sort g_strcmp0 (x :: xs)
        = g_list_insert_sorted g_strcmp0 (g_list_sort g_strcmp0 xs) x := rfl
    rw [this]
    exact insert_sorted_pairwise _ x ih

theorem g_list_sort_of_pairwise (l : List CStr)
    (h : l.Pairwise (fun a b => g_strcmp0 a b ≤ 0)) : g_list_sort g_strcmp0 l = l := by
  induction l with
  | nil => rfl
  | cons x xs ih =>
    have e : g_list_sort g_strcmp0 (x :: xs)
        = g_list_insert_sorted g_strcmp0 (g_list_sort g_strcmp0 xs) x := rfl
    rw [List.pairwise_cons] at h
    rw [e, ih h.2]
    cases xs with
    | nil => rfl
    | cons y ys =>
      have hxy := h.1 y (List.mem_cons_self _ _)
      unfold g_list_insert_sorted
      rw [if_neg (by omega)]

/-! ## The start-segment loop -/

theorem find_start_file_of_some (mktime : Tm → Int) (start_ts : Int) (l : List CStr) :
    ∀ (b : Int) (x : List CStr), ∃ y, find_start_file mktime start_ts l b (some x) = some y := by
  induction l with
  | nil => intro b x; exact ⟨x, rfl⟩
  | cons f rest ih =>
    intro b x
    unfold find_start_file
    split
    · exact ih b x
    · split
      · exact ih _ _
      · exact ih b x

theorem find_start_file_none_iff (mktime : Tm → Int) (start_ts : Int) (l : List CStr) :
    find_start_file mktime start_ts l 0 none = none ↔
      ∀ f ∈ l, ∀ ts, path_to_timestamp mktime f = some ts → ¬ ts ≤ start_ts := by
  induction l with
  | nil => simp [find_start_file]
  | cons f rest ih =>
    unfold find_start_file
    split
    · rename_i hp
      rw [ih]
      constructor
      · intro h g hg ts hts
        rcases List.mem_cons.mp hg with rfl | hg2
        · rw [hp] at hts; cases hts
        · exact h g hg2 ts hts
      · intro h g hg
        exact h g (List.mem_cons_of_mem _ hg)
    · rename_i file_ts hp
      split
      · rename_i hc
        obtain ⟨y, hy⟩ := find_start_file_of_some mktime start_ts rest file_ts (f :: rest)
        rw [hy]
        constructor
        · intro h; cases h
        · intro h
          exact absurd hc.1 (h f (List.mem_cons_self _ _) file_ts hp)
      · rename_i hc
        have hnle : ¬ file_ts ≤ start_ts := by
          intro hle
          exact hc ⟨hle, Or.inr rfl⟩
        rw [ih]
        constructor
        · intro h g hg ts hts
          rcases List.mem_cons.mp hg with rfl | hg2
          · rw [hp] at hts
            cases hts
            exact hnle
          · exact h g hg2 ts hts
        · intro h g hg
          exact h g (List.mem_cons_of_mem _ hg)

theorem find_start_file_suffix (mktime : Tm → Int) (start_ts : Int) (l : List CStr) :
    ∀ (b : Int) (s0 : Option (List CStr)) (sf : List CStr),
      find_start_file mktime start_ts l b s0 = some sf →
        s0 = some sf ∨ (sf ≠ [] ∧ sf <:+ l) := by
  induction l with
  | nil =>
    intro b s0 sf h
    left
    simpa [find_start_file] using h
  | cons f rest ih =>
    intro b s0 sf h
    have step : ∀ b2 s2, find_start_file mktime start_ts rest b2 s2 = some sf →
        s2 = some sf ∨ (sf ≠ [] ∧ sf <:+ f :: rest) := by
      intro b2 s2 h2
      rcases ih b2 s2 sf h2 with h3 | ⟨h3, h4⟩
      · exact Or.inl h3
      · exact Or.inr ⟨h3, h4.trans (List.suffix_cons f rest)⟩
    unfold find_start_file at h
    split at h
    · exact step _ _ h
    · split at h
      · rcases step _ _ h with h3 | h3
        · right
          cases h3
          exact ⟨List.cons_ne_nil _ _, List.suffix_refl _⟩
        · exact Or.inr h3
      · exact step _ _ h

/-! ## The collecting loop -/

theorem collect_files_prefix (mktime : Tm → Int) (duration end_ts : Int) (l : List CStr) :
    collect_files mktime duration end_ts l <+: l := by
  induction l with
  | nil => simp [collect_files]
  | cons f rest ih =>
    unfold collect_files
    split
    · exact ⟨rest, rfl⟩
    · exact (List.prefix_cons_inj f).mpr ih

theorem collect_files_head (mktime : Tm → Int) (duration end_ts : Int) (f : CStr)
    (rest : List CStr) :
    ∃ t, collect_files mktime duration end_ts (f :: rest) = f :: t := by
  unfold collect_files
  split
  · exact ⟨[], rfl⟩
  · exact ⟨_, rfl⟩

theorem collect_files_unbounded (mktime : Tm → Int) (duration end_ts : Int) (l : List CStr)
    (h : duration ≤ 0) : collect_files mktime duration end_ts l = l := by
  induction l with
  | nil => simp [collect_files]
  | cons f rest ih =>
    unfold collect_files
    rw [if_neg (by intro hc; omega), ih]

theorem collect_files_before_last (mktime : Tm → Int) (duration end_ts : Int) (l : List CStr) :
    ∀ f ∈ (collect_files mktime duration end_ts l).dropLast,
      ∀ ts, path_to_timestamp mktime f = some ts → 0 < duration → ts < end_ts := by
  induction l with
  | nil => simp [collect_files]
  | cons g rest ih =>
    intro f hf ts hts hd
    unfold collect_files at hf
    split at hf
    · simp at hf
    · rename_i hc
      cases rest with
      | nil => simp [collect_files] at hf
      | cons g2 rest2 =>
        obtain ⟨t, ht⟩ := collect_files_head mktime duration end_ts g2 rest2
        rw [ht, List.dropLast_cons₂] at hf
        rcases List.mem_cons.mp hf with rfl | hf2
        · by_contra hge
          apply hc
          refine ⟨hd, ?_⟩
          rw [hts]
          simp only [decide_eq_true_eq]
          omega
        · rw [← ht] at hf2
          exact ih f hf2 ts hts hd

theorem collect_files_stops (mktime : Tm → Int) (duration end_ts : Int) (l : List CStr)
    (hne : collect_files mktime duration end_ts l ≠ [])
    (hstop : collect_files mktime duration end_ts l ≠ l) :
    0 < duration ∧ ∃ ts, path_to_timestamp mktime
      ((collect_files mktime duration end_ts l).getLast hne) = some ts ∧ end_ts ≤ ts := by
  induction l with
  | nil => simp [collect_files] at hne
  | cons g rest ih =>
    have key : ∀ (r : List CStr) (hr : r ≠ []),
        r = collect_files mktime duration end_ts (g :: rest) →
        0 < duration ∧ ∃ ts, path_to_timestamp mktime (r.getLast hr) = some ts ∧ end_ts ≤ ts := by
      intro r hr er
      unfold collect_files at er
      split at er
      · rename_i hc
        subst er
        refine ⟨hc.1, ?_⟩
        simp only [List.getLast_singleton]
        have h2 := hc.2
        split at h2
        · rename_i ts hts
          exact ⟨ts, hts, by simpa using h2⟩
        · cases h2
      · rename_i hc
        have hrest : collect_files mktime duration end_ts rest ≠ rest := by
          intro e
          apply hstop
          unfold collect_files
          rw [if_neg hc, e]
        have hrne : collect_files mktime duration end_ts rest ≠ [] := by
          intro e
          cases rest with
          | nil => exact hrest e
          | cons g2 rest2 =>
            obtain ⟨t, ht⟩ := collect_files_head mktime duration end_ts g2 rest2
            rw [ht] at e
            cases e
        obtain ⟨hd, ts, hts, hle⟩ := ih hrne hrest
        refine ⟨hd, ts, ?_, hle⟩
        subst er
        rw [List.getLast_cons hrne]
        exact hts
    exact key _ hne rfl

/-! ## Resolution: failure and the walk -/

theorem resolve_files_eq_nil_iff (mktime : Tm → Int) (all_files : List CStr)
    (start_ts duration : Int) :
    resolve_files mktime all_files start_ts duration = [] ↔
      (all_files = [] ∨
        ∀ f ∈ all_files, ∀ ts, path_to_timestamp mktime f = some ts → ¬ ts ≤ start_ts) := by
  unfold resolve_files
  by_cases h0 : all_files = []
  · simp [h0]
  · rw [if_neg h0]
    have hmem : (∀ f ∈ g_list_sort g_strcmp0 all_files, ∀ ts,
          path_to_timestamp mktime f = some ts → ¬ ts ≤ start_ts) ↔
        (∀ f ∈ all_files, ∀ ts, path_to_timestamp mktime f = some ts → ¬ ts ≤ start_ts) := by
      constructor
      · intro h f hf
        exact h f ((g_list_sort_perm g_strcmp0 all_files).mem_iff.mpr hf)
      · intro h f hf
        exact h f ((g_list_sort_perm g_strcmp0 all_files).mem_iff.mp hf)
    cases hfs : find_start_file mktime start_ts (g_list_sort g_strcmp0 all_files) 0 none with
    | none =>
      simp only [hfs, true_iff]
      right
      exact hmem.mp ((find_start_file_none_iff mktime start_ts _).mp hfs)
    | some sf =>
      have hns : ¬ (∀ f ∈ all_files, ∀ ts,
          path_to_timestamp mktime f = some ts → ¬ ts ≤ start_ts) := by
        intro hall
        have := (find_start_file_none_iff mktime start_ts _).mpr (hmem.mpr hall)
        rw [hfs] at this
        cases this
      rcases find_start_file_suffix mktime start_ts _ 0 none sf hfs with h1 | ⟨h1, _⟩
      · cases h1
      · cases sf with
        | nil => exact absurd rfl h1
        | cons g rest =>
          obtain ⟨t, ht⟩ := collect_files_head mktime duration
            (wrap64 (start_ts + duration)) g rest
          simp only [hfs, ht]
          constructor
          · intro h; cases h
          · intro h
            rcases h with h | h
            · exact absurd h h0
            · exact absurd h hns

/-- C2: the resolver returns no segment (`NULL`) exactly when the scan is empty or no
scanned segment has a parsed timestamp at or before `start_ts`; and when it returns none
for a playback request, `camera_media_factory_create_element` returns no pipeline and
leaves the factory's seek parameters as they were. -/
theorem not_found_iff_no_segment_at_or_before (mktime : Tm → Int)
    (g_ascii_strtoll : CStr → Int) (gst_parse_launch : CStr → ParseLaunch)
    (opendir : CStr → Option (List FsNode)) :
    (∀ (camera_name : CStr) (start_ts : Int) (stream_type : StreamType) (duration : Int),
      get_recording_files_from_timestamp mktime opendir camera_name start_ts stream_type
          duration = [] ↔
        (scan_recordings_recursive mktime (playback_base_dir camera_name stream_type)
            (opendir (playback_base_dir camera_name stream_type)) [] = [] ∨
          ∀ f ∈ scan_recordings_recursive mktime (playback_base_dir camera_name stream_type)
              (opendir (playback_base_dir camera_name stream_type)) [],
            ∀ ts, path_to_timestamp mktime f = some ts → ¬ ts ≤ start_ts)) ∧
    (∀ (cam : CameraConfig) (factory_seek_params : Option SeekParams) (query : Option CStr)
        (ts_str : CStr),
      parse_query_param query "timestamp".toList = some ts_str →
      get_recording_files_from_timestamp mktime opendir cam.name (g_ascii_strtoll ts_str)
          (request_stream_type query) (request_duration g_ascii_strtoll query) = [] →
      camera_media_factory_create_element mktime g_ascii_strtoll gst_parse_launch opendir cam
          factory_seek_params query = (none, factory_seek_params)) := by
  constructor
  · intro camera_name start_ts stream_type duration
    exact resolve_files_eq_nil_iff mktime _ start_ts duration
  · intro cam fsp query ts_str hts hnil
    unfold camera_media_factory_create_element
    simp only [hts, hnil, if_true]

/-- C2, at a request for a camera whose recording directory cannot be opened. -/
theorem not_found_iff_no_segment_at_or_before_witness :
    camera_media_factory_create_element mktime_utc (fun _ => 1600000000)
      (fun _ => { element := some 1, error := false }) (fun _ => none)
      { name := "cam".toList, rtsp_url_main := "rtsp://m".toList,
        rtsp_url_sub := "rtsp://s".toList, codec_main := CodecType.CODEC_H264,
        codec_sub := CodecType.CODEC_H264, is_recording := false,
        current_record_file_main := none, current_record_file_sub := none }
      (some { seek_offset := 1, duration_limit := 2, seek_pending := false })
      (some "timestamp=1600000000".toList)
      = (none, some { seek_offset := 1, duration_limit := 2, seek_pending := false }) :=
  (not_found_iff_no_segment_at_or_before mktime_utc (fun _ => 1600000000)
    (fun _ => { element := some 1, error := false }) (fun _ => none)).2
    _ _ (some "timestamp=1600000000".toList) "1600000000".toList (by decide) (by decide)

/-- The shape of a successful resolution: start segment, run, and stopping rule. -/
theorem resolve_files_run (mktime : Tm → Int) (all_files : List CStr)
    (start_ts duration : Int)
    (h : resolve_files mktime all_files start_ts duration ≠ []) :
    ∃ start rest,
      find_start_file mktime start_ts (g_list_sort g_strcmp0 all_files) 0 none
        = some (start :: rest) ∧
      (start :: rest) <:+ g_list_sort g_strcmp0 all_files ∧
      resolve_files mktime all_files start_ts duration <+: start :: rest ∧
      (resolve_files mktime all_files start_ts duration).head? = some start ∧
      (duration ≤ 0 → resolve_files mktime all_files start_ts duration = start :: rest) ∧
      (0 < duration →
        (∀ f ∈ (resolve_files mktime all_files start_ts duration).dropLast,
          ∀ ts, path_to_timestamp mktime f = some ts → ts < wrap64 (start_ts + duration)) ∧
        (resolve_files mktime all_files start_ts duration ≠ start :: rest →
          ∃ ts, path_to_timestamp mktime
              ((resolve_files mktime all_files start_ts duration).getLast h) = some ts ∧
            wrap64 (start_ts + duration) ≤ ts)) ∧
      (-(2 : Int) ^ 63 ≤ start_ts + duration → start_ts + duration < (2 : Int) ^ 63 →
        wrap64 (start_ts + duration) = start_ts + duration) := by
  have hres : ∀ sf, find_start_file mktime start_ts (g_list_sort g_strcmp0 all_files) 0 none
        = some sf →
      resolve_files mktime all_files start_ts duration
        = collect_files mktime duration (wrap64 (start_ts + duration)) sf := by
    intro sf hsf
    unfold resolve_files
    have h0 : all_files ≠ [] := by
      intro e
      apply h
      simp [resolve_files, e]
    rw [if_neg h0]
    simp only [hsf]
  cases hfs : find_start_file mktime start_ts (g_list_sort g_strcmp0 all_files) 0 none with
  | none =>
    exfalso
    apply h
    unfold resolve_files
    split
    · rfl
    · simp only [hfs]
  | some sf =>
    rcases find_start_file_suffix mktime start_ts _ 0 none sf hfs with h1 | ⟨h1, h2⟩
    · cases h1
    · cases sf with
      | nil => exact absurd rfl h1
      | cons start rest =>
        have e := hres _ hfs
        refine ⟨start, rest, rfl, h2, ?_, ?_, ?_, ?_, ?_⟩
        · rw [e]; exact collect_files_prefix _ _ _ _
        · obtain ⟨t, ht⟩ := collect_files_head mktime duration
            (wrap64 (start_ts + duration)) start rest
          rw [e, ht]; rfl
        · intro hd
          rw [e]; exact collect_files_unbounded _ _ _ _ hd
        · intro hd
          constructor
          · intro f hf ts hts
            rw [e] at hf
            exact collect_files_before_last mktime duration _ _ f hf ts hts hd
          · intro hne
            have hne2 : collect_files mktime duration (wrap64 (start_ts + duration))
                (start :: rest) ≠ start :: rest := by rw [← e]; exact hne
            have hnn : collect_files mktime duration (wrap64 (start_ts + duration))
                (start :: rest) ≠ [] := by rw [← e]; exact h
            obtain ⟨_, ts, hts, hle⟩ := collect_files_stops mktime duration _ _ hnn hne2
            refine ⟨ts, ?_, hle⟩
            have : (resolve_files mktime all_files start_ts duration).getLast h
                = (collect_files mktime duration (wrap64 (start_ts + duration))
                    (start :: rest)).getLast hnn := by
              congr 1
            rw [this]; exact hts
        · intro hlo hhi
          unfold wrap64
          rw [Int.emod_eq_of_lt (by omega) (by omega)]
          omega

/-- C3 as the claim states it, refuted: four segments 120 seconds apart, `start_ts` inside
the second one and `duration = 9223372036854775807`.  No segment has a time stamp at or
past `start_ts + duration`, so the claim has the walk run to the end of the list; the code
adds the two in `gint64`, the range end comes out as -9223372035254775559, and the walk
stops right after the start segment. -/
theorem walk_stops_at_start_segment_when_range_end_wraps :
    resolve_files mktime_utc
        ["/r/1600000100.mkv".toList, "/r/1600000220.mkv".toList,
          "/r/1600000340.mkv".toList, "/r/1600000460.mkv".toList]
        1600000250 9223372036854775807
      = ["/r/1600000220.mkv".toList] ∧
    List.map (path_to_timestamp mktime_utc)
        ["/r/1600000100.mkv".toList, "/r/1600000220.mkv".toList,
          "/r/1600000340.mkv".toList, "/r/1600000460.mkv".toList]
      = [some 1600000100, some 1600000220, some 1600000340, some 1600000460] ∧
    wrap64 (1600000250 + 9223372036854775807) = -9223372035254775559 ∧
    (1600000460 : Int) < 1600000250 + 9223372036854775807 := by
  refine ⟨?_, ?_, ?_, ?_⟩ <;> decide

/-- C3, amended: on a successful resolution the result starts at the start segment and is
a run of the segments that follow it in scan order; with `duration <= 0` it runs to the end
of the scanned list; with `duration > 0` the range end is `start_ts + duration` computed in
signed 64-bit arithmetic (the plain sum whenever that fits in 64 bits): no segment before
the last returned one reaches it, and the walk ends before the end of the list only right
after a segment whose time stamp is at or past it. -/
theorem resolve_files_walk (mktime : Tm → Int) (all_files : List CStr)
    (start_ts duration : Int)
    (h : resolve_files mktime all_files start_ts duration ≠ []) :
    ∃ start rest,
      find_start_file mktime start_ts (g_list_sort g_strcmp0 all_files) 0 none
        = some (start :: rest) ∧
      (start :: rest) <:+ g_list_sort g_strcmp0 all_files ∧
      resolve_files mktime all_files start_ts duration <+: start :: rest ∧
      (resolve_files mktime all_files start_ts duration).head? = some start ∧
      (duration ≤ 0 → resolve_files mktime all_files start_ts duration = start :: rest) ∧
      (0 < duration →
        (∀ f ∈ (resolve_files mktime all_files start_ts duration).dropLast,
          ∀ ts, path_to_timestamp mktime f = some ts → ts < wrap64 (start_ts + duration)) ∧
        (resolve_files mktime all_files start_ts duration ≠ start :: rest →
          ∃ ts, path_to_timestamp mktime
              ((resolve_files mktime all_files start_ts duration).getLast h) = some ts ∧
            wrap64 (start_ts + duration) ≤ ts)) ∧
      (-(2 : Int) ^ 63 ≤ start_ts + duration → start_ts + duration < (2 : Int) ^ 63 →
        wrap64 (start_ts + duration) = start_ts + duration) :=
  resolve_files_run mktime all_files start_ts duration h

/-- C3, at three segments 120 seconds apart with a 50-second request. -/
theorem resolve_files_walk_witness :
    ∃ start rest,
      find_start_file mktime_utc 1600000250
          (g_list_sort g_strcmp0 ["/r/1600000100.mkv".toList, "/r/1600000220.mkv".toList,
            "/r/1600000340.mkv".toList, "/r/1600000460.mkv".toList]) 0 none
        = some (start :: rest) ∧
      resolve_files mktime_utc ["/r/1600000100.mkv".toList, "/r/1600000220.mkv".toList,
          "/r/1600000340.mkv".toList, "/r/1600000460.mkv".toList] 1600000250 50
        <+: start :: rest := by
  obtain ⟨start, rest, h1, _, h3, _⟩ := resolve_files_walk mktime_utc
    ["/r/1600000100.mkv".toList, "/r/1600000220.mkv".toList,
      "/r/1600000340.mkv".toList, "/r/1600000460.mkv".toList] 1600000250 50 (by decide)
  exact ⟨start, rest, h1, h3⟩

/-! ## The start segment -/

/-- C1, the code at a failing input (time zone UTC): the camera has one segment in the
hour directory `1970/01/01/00` (time stamp 0) and one in `1970/1/0/00` (time stamp -86400,
day 0 of January being 31 December 1969), which sorts after it.  For `start_ts = 5` the
returned start segment is the one at -86400, not the one at 0: the loop takes
`best_ts == 0` for "no start segment yet" and lets the later, smaller time stamp replace
the time stamp 0. -/
theorem start_segment_after_epoch_segment :
    get_recording_files_from_timestamp mktime_utc
        (fun _ => some [FsNode.dir "1970".toList true
          [FsNode.dir "01".toList true
            [FsNode.dir "01".toList true
              [FsNode.dir "00".toList true [FsNode.file "a.mkv".toList]]],
           FsNode.dir "1".toList true
            [FsNode.dir "0".toList true
              [FsNode.dir "00".toList true [FsNode.file "a.mkv".toList]]]]])
        "cam".toList 5 StreamType.STREAM_MAIN 0
      = ["/home/oryza/Oryza/recordings/hi_quality/cam/1970/1/0/00/a.mkv".toList] ∧
    path_to_timestamp mktime_utc
        "/home/oryza/Oryza/recordings/hi_quality/cam/1970/1/0/00/a.mkv".toList
      = some (-86400) ∧
    path_to_timestamp mktime_utc
        "/home/oryza/Oryza/recordings/hi_quality/cam/1970/01/01/00/a.mkv".toList
      = some 0 := by
  refine ⟨?_, ?_, ?_⟩ <;> decide


theorem find_start_file_greatest (mktime : Tm → Int) (start_ts : Int) (l : List CStr) :
    (∀ f ∈ l, path_to_timestamp mktime f ≠ some 0) →
    ∀ (b : Int) (s0 : Option (List CStr)) (sf : List CStr),
      (s0 = none → b = 0) → (s0 ≠ none → b ≠ 0) →
      find_start_file mktime start_ts l b s0 = some sf →
      (s0 = some sf ∧
        ∀ f ∈ l, ∀ t, path_to_timestamp mktime f = some t → t ≤ start_ts → t ≤ b) ∨
      (∃ g r ts, sf = g :: r ∧ sf <:+ l ∧ path_to_timestamp mktime g = some ts ∧
        ts ≤ start_ts ∧ (s0 ≠ none → b < ts) ∧
        ∀ f ∈ l, ∀ t, path_to_timestamp mktime f = some t → t ≤ start_ts → t ≤ ts) := by
  induction l with
  | nil =>
    intro _ b s0 sf _ _ h
    left
    refine ⟨by simpa [find_start_file] using h, ?_⟩
    intro f hf
    cases hf
  | cons f rest ih =>
    intro hz b s0 sf hb0 hb1 h
    have hz2 : ∀ g ∈ rest, path_to_timestamp mktime g ≠ some 0 :=
      fun g hg => hz g (List.mem_cons_of_mem _ hg)
    unfold find_start_file at h
    split at h
    · rename_i hp
      rcases ih hz2 b s0 sf hb0 hb1 h with ⟨h1, h2⟩ | ⟨g, r, ts, e, hsuf, hg, hle, hlt, hall⟩
      · left
        refine ⟨h1, ?_⟩
        intro f2 hf2 t ht hts
        rcases List.mem_cons.mp hf2 with rfl | hf3
        · rw [hp] at ht; cases ht
        · exact h2 f2 hf3 t ht hts
      · right
        refine ⟨g, r, ts, e, hsuf.trans (List.suffix_cons f rest), hg, hle, hlt, ?_⟩
        intro f2 hf2 t ht hts
        rcases List.mem_cons.mp hf2 with rfl | hf3
        · rw [hp] at ht; cases ht
        · exact hall f2 hf3 t ht hts
    · rename_i file_ts hp
      have hne0 : file_ts ≠ 0 := by
        intro e
        apply hz f (List.mem_cons_self _ _)
        rw [hp, e]
      split at h
      · rename_i hc
        have hbt : s0 ≠ none → b < file_ts := by
          intro hs
          have := hb1 hs
          rcases hc.2 with h3 | h3
          · exact h3
          · exact absurd h3 this
        right
        rcases ih hz2 file_ts (some (f :: rest)) sf (by intro e; cases e) (fun _ => hne0) h
          with ⟨h1, h2⟩ | ⟨g, r, ts, e, hsuf, hg, hle, hlt, hall⟩
        · cases h1
          refine ⟨f, rest, file_ts, rfl, List.suffix_refl _, hp, hc.1, hbt, ?_⟩
          intro f2 hf2 t ht hts
          rcases List.mem_cons.mp hf2 with rfl | hf3
          · rw [hp] at ht; cases ht; exact le_refl _
          · exact h2 f2 hf3 t ht hts
        · have hlt2 := hlt (by intro e2; cases e2)
          refine ⟨g, r, ts, e, hsuf.trans (List.suffix_cons f rest), hg, hle, ?_, ?_⟩
          · intro hs
            exact lt_trans (hbt hs) hlt2
          · intro f2 hf2 t ht hts
            rcases List.mem_cons.mp hf2 with rfl | hf3
            · rw [hp] at ht; cases ht; exact le_of_lt hlt2
            · exact hall f2 hf3 t ht hts
      · rename_i hc
        have hfb : file_ts ≤ start_ts → file_ts ≤ b ∧ b ≠ 0 := by
          intro hle
          constructor
          · by_contra hgt
            exact hc ⟨hle, Or.inl (by omega)⟩
          · intro e
            exact hc ⟨hle, Or.inr e⟩
        rcases ih hz2 b s0 sf hb0 hb1 h with ⟨h1, h2⟩ | ⟨g, r, ts, e, hsuf, hg, hle, hlt, hall⟩
        · left
          refine ⟨h1, ?_⟩
          intro f2 hf2 t ht hts
          rcases List.mem_cons.mp hf2 with rfl | hf3
          · rw [hp] at ht; cases ht; exact (hfb hts).1
          · exact h2 f2 hf3 t ht hts
        · right
          refine ⟨g, r, ts, e, hsuf.trans (List.suffix_cons f rest), hg, hle, hlt, ?_⟩
          intro f2 hf2 t ht hts
          rcases List.mem_cons.mp hf2 with rfl | hf3
          · rw [hp] at ht; cases ht
            have h4 := hfb hts
            have hs : s0 ≠ none := by
              intro e3
              exact h4.2 (hb0 e3)
            exact le_of_lt (lt_of_le_of_lt h4.1 (hlt hs))
          · exact hall f2 hf3 t ht hts

/-- When no scanned segment parses to the time stamp 0, the first returned segment has a
time stamp at or before `start_ts` that is the greatest such time stamp of the scan; a
segment at `start_ts` itself makes the chosen time stamp equal `start_ts`. -/
theorem start_segment_greatest_of_no_epoch (mktime : Tm → Int) (all_files : List CStr)
    (start_ts duration : Int)
    (hz : ∀ f ∈ all_files, path_to_timestamp mktime f ≠ some 0)
    (h : resolve_files mktime all_files start_ts duration ≠ []) :
    ∃ ts, path_to_timestamp mktime
        ((resolve_files mktime all_files start_ts duration).head h) = some ts ∧
      ts ≤ start_ts ∧
      (∀ f ∈ all_files, ∀ t, path_to_timestamp mktime f = some t → t ≤ start_ts → t ≤ ts) ∧
      ((∃ f ∈ all_files, path_to_timestamp mktime f = some start_ts) → ts = start_ts) := by
  obtain ⟨start, rest, hfs, _, _, hhead, _⟩ := resolve_files_run mktime all_files start_ts
    duration h
  have hz2 : ∀ f ∈ g_list_sort g_strcmp0 all_files, path_to_timestamp mktime f ≠ some 0 :=
    fun f hf => hz f ((g_list_sort_perm g_strcmp0 all_files).mem_iff.mp hf)
  rcases find_start_file_greatest mktime start_ts _ hz2 0 none (start :: rest)
      (fun _ => rfl) (fun hn => absurd rfl hn) hfs with ⟨h1, _⟩ | ⟨g, r, ts, e, _, hg, hle, _, hall⟩
  · cases h1
  · cases e
    have hh : (resolve_files mktime all_files start_ts duration).head h = start := by
      have := List.head?_eq_head h
      rw [hhead] at this
      exact (Option.some.inj this).symm
    have hall2 : ∀ f ∈ all_files, ∀ t, path_to_timestamp mktime f = some t →
        t ≤ start_ts → t ≤ ts :=
      fun f hf => hall f ((g_list_sort_perm g_strcmp0 all_files).mem_iff.mpr hf)
    refine ⟨ts, by rw [hh]; exact hg, hle, hall2, ?_⟩
    rintro ⟨f, hf, hfts⟩
    exact le_antisymm hle (hall2 f hf start_ts hfts (le_refl _))

/-! ## The two worked examples: segments 100, 220 and 340 seconds after a base -/

theorem sorted_ne_nil_of_sort (all_files : List CStr) (l : List CStr) (hl : l ≠ [])
    (hs : g_list_sort g_strcmp0 all_files = l) : all_files ≠ [] := by
  intro e
  apply hl
  rw [← hs, e]
  rfl

theorem wrap64_of_range (x : Int) (hlo : -(2 : Int) ^ 63 ≤ x) (hhi : x < (2 : Int) ^ 63) :
    wrap64 x = x := by
  unfold wrap64
  rw [Int.emod_eq_of_lt (by omega) (by omega)]
  omega

theorem wrap32_of_range (x : Int) (h0 : -2147483648 ≤ x) (h1 : x < 2147483648) :
    wrap32 x = x := by
  unfold wrap32
  have e : (2 : Int) ^ 31 = 2147483648 := by norm_num
  have e2 : (2 : Int) ^ 32 = 4294967296 := by norm_num
  rw [e, e2]
  omega

/-- C4 as the claim states it, refuted.  A file name carries a time stamp between
1500000000 and 2000000000 and an hour directory a whole hour, so the three segments are
taken 1600000000 seconds later, at 1600000100, 1600000220 and 1600000340, with
`start_ts = 1600000250` and `duration = 0`: the resolver returns the segment at 1600000220
and the segment at 1600000340 after it, not the segment at 1600000220 alone. -/
theorem unbounded_example_returns_two_segments :
    List.map (path_to_timestamp mktime_utc)
        ["/r/1600000100.mkv".toList, "/r/1600000220.mkv".toList,
          "/r/1600000340.mkv".toList]
      = [some 1600000100, some 1600000220, some 1600000340] ∧
    resolve_files mktime_utc
        ["/r/1600000100.mkv".toList, "/r/1600000220.mkv".toList,
          "/r/1600000340.mkv".toList] 1600000250 0
      = ["/r/1600000220.mkv".toList, "/r/1600000340.mkv".toList] ∧
    resolve_files mktime_utc
        ["/r/1600000100.mkv".toList, "/r/1600000220.mkv".toList,
          "/r/1600000340.mkv".toList] 1600000250 0
      ≠ ["/r/1600000220.mkv".toList] := by
  refine ⟨?_, ?_, ?_⟩ <;> decide

/-- C4, amended: given three scanned segments whose time stamps are `base + 100`,
`base + 220` and `base + 340` in scan order (100, 220 and 340 for `base = 0`),
`start_ts = base + 250` and `duration = 0`, the result list is the segment at `base + 220`
followed by the segment at `base + 340` (an unbounded request runs to the end of the
scan). -/
theorem unbounded_example_result (mktime : Tm → Int) (all_files : List CStr)
    (f1 f2 f3 : CStr) (base : Int)
    (hs : g_list_sort g_strcmp0 all_files = [f1, f2, f3])
    (h1 : path_to_timestamp mktime f1 = some (base + 100))
    (h2 : path_to_timestamp mktime f2 = some (base + 220))
    (h3 : path_to_timestamp mktime f3 = some (base + 340)) :
    resolve_files mktime all_files (base + 250) 0 = [f2, f3] := by
  have h0 := sorted_ne_nil_of_sort all_files _ (List.cons_ne_nil _ _) hs
  have c1 : base + 100 ≤ base + 250 ∧ (base + 100 > 0 ∨ (0 : Int) = 0) :=
    ⟨by omega, Or.inr rfl⟩
  have c2 : base + 220 ≤ base + 250 ∧ (base + 220 > base + 100 ∨ base + 100 = 0) :=
    ⟨by omega, Or.inl (by omega)⟩
  have c3 : ¬ (base + 340 ≤ base + 250 ∧ (base + 340 > base + 220 ∨ base + 220 = 0)) := by
    omega
  unfold resolve_files
  rw [if_neg h0]
  simp only [hs, find_start_file, h1, h2, h3, if_pos c1, if_pos c2, if_neg c3]
  simp [collect_files]

/-- C4 amended, at `base = 1600000000` with the time stamps in the file names. -/
theorem unbounded_example_result_witness :
    resolve_files mktime_utc
        ["/r/1600000100.mkv".toList, "/r/1600000220.mkv".toList,
          "/r/1600000340.mkv".toList] (1600000000 + 250) 0
      = ["/r/1600000220.mkv".toList, "/r/1600000340.mkv".toList] :=
  unbounded_example_result mktime_utc _ "/r/1600000100.mkv".toList
    "/r/1600000220.mkv".toList "/r/1600000340.mkv".toList 1600000000 (by decide)
    (by decide) (by decide) (by decide)

/-- C5: given three scanned segments whose time stamps are `base + 100`, `base + 220` and
`base + 340` in scan order (100, 220 and 340 for `base = 0`; the time stamps and the end of
the range being 64-bit values), `start_ts = base + 250` and `duration = 150`, the result
list is the segment at `base + 220` followed by the segment at `base + 340`, and
`create_playback_pipeline` on that list sets the seek offset to 30 seconds and the duration
limit to 150 seconds, both in nanoseconds. -/
theorem bounded_example_result (mktime : Tm → Int) (gst_parse_launch : CStr → ParseLaunch)
    (all_files : List CStr) (f1 f2 f3 : CStr) (base : Int)
    (hlo : -9223372036854775808 ≤ base) (hhi : base + 400 ≤ 9223372036854775807)
    (hs : g_list_sort g_strcmp0 all_files = [f1, f2, f3])
    (h1 : path_to_timestamp mktime f1 = some (base + 100))
    (h2 : path_to_timestamp mktime f2 = some (base + 220))
    (h3 : path_to_timestamp mktime f3 = some (base + 340))
    (hok : (gst_parse_launch (concat_launch_str [f2, f3])).error = false) :
    resolve_files mktime all_files (base + 250) 150 = [f2, f3] ∧
    (create_playback_pipeline mktime gst_parse_launch
        (resolve_files mktime all_files (base + 250) 150) (base + 250) 150).2
      = some { seek_offset := 30 * 1000000000, duration_limit := 150 * 1000000000,
               seek_pending := false } := by
  have h0 := sorted_ne_nil_of_sort all_files _ (List.cons_ne_nil _ _) hs
  have hw : wrap64 (base + 250 + 150) = base + 400 := by
    rw [wrap64_of_range _ (by norm_num; omega) (by norm_num; omega)]
    omega
  have c1 : base + 100 ≤ base + 250 ∧ (base + 100 > 0 ∨ (0 : Int) = 0) :=
    ⟨by omega, Or.inr rfl⟩
  have c2 : base + 220 ≤ base + 250 ∧ (base + 220 > base + 100 ∨ base + 100 = 0) :=
    ⟨by omega, Or.inl (by omega)⟩
  have c3 : ¬ (base + 340 ≤ base + 250 ∧ (base + 340 > base + 220 ∨ base + 220 = 0)) := by
    omega
  have c4 : ¬ (base + 220 ≥ base + 400) := by omega
  have hres : resolve_files mktime all_files (base + 250) 150 = [f2, f3] := by
    unfold resolve_files
    rw [if_neg h0]
    simp only [hs, find_start_file, h1, h2, h3, if_pos c1, if_pos c2, if_neg c3, hw]
    simp [collect_files, h2, h3, c4]
  refine ⟨hres, ?_⟩
  rw [hres]
  have ho : seek_offset_ns mktime f2 (base + 250) = 30 * 1000000000 := by
    unfold seek_offset_ns
    rw [h2]
    have hgt : base + 250 > base + 220 := by omega
    have e : base + 250 - (base + 220) = 30 := by omega
    simp only [if_pos hgt, e]
    decide
  have hd : duration_limit_ns 150 = 150 * 1000000000 := by decide
  simp only [create_playback_pipeline, hok, ho, hd]
  rfl

/-- C5, at `base = 1600000000` with the time stamps in the file names and an engine that
accepts the description. -/
theorem bounded_example_result_witness :
    resolve_files mktime_utc
        ["/r/1600000100.mkv".toList, "/r/1600000220.mkv".toList,
          "/r/1600000340.mkv".toList] (1600000000 + 250) 150
      = ["/r/1600000220.mkv".toList, "/r/1600000340.mkv".toList] ∧
    (create_playback_pipeline mktime_utc (fun _ => { element := some 1, error := false })
        (resolve_files mktime_utc
          ["/r/1600000100.mkv".toList, "/r/1600000220.mkv".toList,
            "/r/1600000340.mkv".toList] (1600000000 + 250) 150) (1600000000 + 250) 150).2
      = some { seek_offset := 30 * 1000000000, duration_limit := 150 * 1000000000,
               seek_pending := false } :=
  bounded_example_result mktime_utc (fun _ => { element := some 1, error := false }) _
    "/r/1600000100.mkv".toList "/r/1600000220.mkv".toList "/r/1600000340.mkv".toList
    1600000000 (by decide) (by decide) (by decide) (by decide) (by decide) (by decide) rfl

/-! ## The end of the requested range -/

/-- C8 as the claim states it, refuted: for segments at 1600000100, 1600000220 and
1600000340, `start_ts = 1600000250` and `duration = 50`, the range ends at 1600000300, and
the segment at 1600000340, which begins after that, is returned. -/
theorem segment_past_range_end_returned :
    resolve_files mktime_utc
        ["/r/1600000100.mkv".toList, "/r/1600000220.mkv".toList,
          "/r/1600000340.mkv".toList] 1600000250 50
      = ["/r/1600000220.mkv".toList, "/r/1600000340.mkv".toList] ∧
    path_to_timestamp mktime_utc "/r/1600000340.mkv".toList = some 1600000340 ∧
    ¬ ((1600000340 : Int) < 1600000250 + 50) := by
  refine ⟨?_, ?_, ?_⟩ <;> decide

/-- C8, amended: for every scan and every request with `duration > 0`, every returned
segment before the last has a time stamp strictly below `start_ts + duration` (the 64-bit
sum); the last returned segment may begin at or after the end of the range, and when the
result stops short of the end of the scan it does. -/
theorem segments_before_last_within_range (mktime : Tm → Int) (all_files : List CStr)
    (start_ts duration : Int) (hd : 0 < duration) :
    (∀ f ∈ (resolve_files mktime all_files start_ts duration).dropLast,
      ∀ ts, path_to_timestamp mktime f = some ts → ts < wrap64 (start_ts + duration)) ∧
    (∀ (h : resolve_files mktime all_files start_ts duration ≠ []) (sf : List CStr),
      find_start_file mktime start_ts (g_list_sort g_strcmp0 all_files) 0 none = some sf →
      resolve_files mktime all_files start_ts duration ≠ sf →
      ∃ ts, path_to_timestamp mktime
          ((resolve_files mktime all_files start_ts duration).getLast h) = some ts ∧
        wrap64 (start_ts + duration) ≤ ts) := by
  constructor
  · intro f hf ts hts
    by_cases h : resolve_files mktime all_files start_ts duration = []
    · rw [h] at hf
      cases hf
    · obtain ⟨_, _, _, _, _, _, _, hb, _⟩ :=
        resolve_files_run mktime all_files start_ts duration h
      exact (hb hd).1 f hf ts hts
  · intro h sf hsf hne
    obtain ⟨start, rest, hfs, _, _, _, _, hb, _⟩ :=
      resolve_files_run mktime all_files start_ts duration h
    rw [hfs] at hsf
    cases hsf
    exact (hb hd).2 hne

/-- C8 amended, at a 50-second request over three segments 120 seconds apart. -/
theorem segments_before_last_within_range_witness :
    (0 : Int) < 50 ∧
    ∀ f ∈ (resolve_files mktime_utc
        ["/r/1600000100.mkv".toList, "/r/1600000220.mkv".toList,
          "/r/1600000340.mkv".toList] 1600000250 50).dropLast,
      ∀ ts, path_to_timestamp mktime_utc f = some ts → ts < wrap64 (1600000250 + 50) :=
  ⟨by decide, (segments_before_last_within_range mktime_utc _ 1600000250 50 (by decide)).1⟩

/-! ## Seek offset and duration limit -/

theorem wrap64_add_mul (x k : Int) : wrap64 (x + 2 ^ 64 * k) = wrap64 x := by
  unfold wrap64
  have : x + 2 ^ 64 * k + 2 ^ 63 = x + 2 ^ 63 + 2 ^ 64 * k := by ring
  rw [this, Int.add_mul_emod_self_left]

theorem wrap64_mul_wrap64 (a b : Int) : wrap64 (wrap64 a * b) = wrap64 (a * b) := by
  have hq : wrap64 a = a + 2 ^ 64 * (-((a + 2 ^ 63) / 2 ^ 64)) := by
    unfold wrap64
    omega
  rw [hq]
  have : (a + 2 ^ 64 * (-((a + 2 ^ 63) / 2 ^ 64))) * b
      = a * b + 2 ^ 64 * (-((a + 2 ^ 63) / 2 ^ 64) * b) := by ring
  rw [this, wrap64_add_mul]

theorem seek_offset_ns_spec (mktime : Tm → Int) (file : CStr) (start_ts : Int) :
    (∀ t, path_to_timestamp mktime file = some t → t < start_ts →
      seek_offset_ns mktime file start_ts = wrap64 ((start_ts - t) * 1000000000)) ∧
    ((∀ t, path_to_timestamp mktime file = some t → start_ts ≤ t) →
      seek_offset_ns mktime file start_ts = 0) := by
  constructor
  · intro t ht hlt
    unfold seek_offset_ns
    rw [ht]
    simp only [gt_iff_lt, hlt, if_true, GST_SECOND]
    exact wrap64_mul_wrap64 _ _
  · intro h
    unfold seek_offset_ns
    split
    · rename_i t ht
      have := h t ht
      rw [if_neg (by omega)]
    · rfl

theorem create_playback_pipeline_params (mktime : Tm → Int)
    (gst_parse_launch : CStr → ParseLaunch) (first : CStr) (rest : List CStr)
    (start_ts duration : Int)
    (hok : (gst_parse_launch (if rest = [] then single_launch_str first
      else concat_launch_str (first :: rest))).error = false) :
    create_playback_pipeline mktime gst_parse_launch (first :: rest) start_ts duration
      = ((gst_parse_launch (if rest = [] then single_launch_str first
            else concat_launch_str (first :: rest))).element,
          some { seek_offset := seek_offset_ns mktime first start_ts,
                 duration_limit := duration_limit_ns duration, seek_pending := false }) := by
  cases rest with
  | nil =>
    simp only [if_true] at hok
    simp [create_playback_pipeline, hok]
  | cons second more =>
    simp only [List.cons_ne_nil, if_false, reduceCtorEq] at hok
    simp [create_playback_pipeline, hok]

/-- C6 as the claim states it, refuted: for a first file recorded at 1600000000 and
`start_ts = 11600000000`, the offset of 10^10 seconds leaves the 64-bit range when it is
multiplied by 10^9 and `seek_offset` is set to a negative number. -/
theorem seek_offset_negative_on_overflow :
    (create_playback_pipeline mktime_utc (fun _ => { element := some 1, error := false })
        ["/r/1600000000.mkv".toList] 11600000000 0).2
      = some { seek_offset := -8446744073709551616, duration_limit := 0,
               seek_pending := false } ∧
    path_to_timestamp mktime_utc "/r/1600000000.mkv".toList = some 1600000000 := by
  constructor <;> decide

/-- C6, amended: for every non-empty file list whose pipeline description the engine
accepts, `seek_offset` is computed from the first file only, in the same way in the
single-file and in the concat branch: it is `(start_ts - t) * 10^9` in 64-bit arithmetic
when the first file parses to a time stamp `t < start_ts`, and 0 otherwise; it equals
`(start_ts - t) * 10^9` and is not negative whenever that product is below 2^63. -/
theorem seek_offset_from_first_file (mktime : Tm → Int)
    (gst_parse_launch : CStr → ParseLaunch) (first : CStr) (rest : List CStr)
    (start_ts duration : Int)
    (hok : (gst_parse_launch (if rest = [] then single_launch_str first
      else concat_launch_str (first :: rest))).error = false) :
    ∃ p, (create_playback_pipeline mktime gst_parse_launch (first :: rest) start_ts
        duration).2 = some p ∧
      (∀ t, path_to_timestamp mktime first = some t → t < start_ts →
        p.seek_offset = wrap64 ((start_ts - t) * 1000000000)) ∧
      (∀ t, path_to_timestamp mktime first = some t → t < start_ts →
        (start_ts - t) * 1000000000 < 2 ^ 63 →
        p.seek_offset = (start_ts - t) * 1000000000 ∧ 0 ≤ p.seek_offset) ∧
      ((∀ t, path_to_timestamp mktime first = some t → start_ts ≤ t) →
        p.seek_offset = 0) := by
  rw [create_playback_pipeline_params mktime gst_parse_launch first rest start_ts duration hok]
  refine ⟨_, rfl, ?_, ?_, ?_⟩
  · exact (seek_offset_ns_spec mktime first start_ts).1
  · intro t ht hlt hfit
    have e := (seek_offset_ns_spec mktime first start_ts).1 t ht hlt
    have hpos : 0 ≤ (start_ts - t) * 1000000000 := by
      apply mul_nonneg <;> omega
    have hw := wrap64_of_range ((start_ts - t) * 1000000000) (by omega) hfit
    simp only [e, hw]
    exact ⟨trivial, hpos⟩
  · exact (seek_offset_ns_spec mktime first start_ts).2

/-- C6 amended, at a request 30 seconds into a single file. -/
theorem seek_offset_from_first_file_witness :
    ∃ p, (create_playback_pipeline mktime_utc (fun _ => { element := some 1, error := false })
        ["/r/1600000000.mkv".toList] 1600000030 0).2 = some p ∧
      p.seek_offset = (1600000030 - 1600000000) * 1000000000 := by
  obtain ⟨p, hp, _, h2, _⟩ := seek_offset_from_first_file mktime_utc
    (fun _ => { element := some 1, error := false }) "/r/1600000000.mkv".toList []
    1600000030 0 rfl
  exact ⟨p, hp, (h2 1600000000 (by decide) (by decide) (by decide)).1⟩

/-- C7: for a playback request that resolves to files and whose pipeline the engine builds,
the `duration_limit` stored with the seek parameters is `d * 10^9` in signed 64-bit
arithmetic when the query gives a duration `d > 0`, and 0 when `d <= 0` or the query gives
no duration. -/
theorem duration_limit_of_request (mktime : Tm → Int) (g_ascii_strtoll : CStr → Int)
    (gst_parse_launch : CStr → ParseLaunch) (opendir : CStr → Option (List FsNode))
    (cam : CameraConfig) (factory_seek_params : Option SeekParams) (query : Option CStr)
    (ts_str : CStr) (e : GstElement)
    (hts : parse_query_param query "timestamp".toList = some ts_str)
    (hfiles : get_recording_files_from_timestamp mktime opendir cam.name
      (g_ascii_strtoll ts_str) (request_stream_type query)
      (request_duration g_ascii_strtoll query) ≠ [])
    (hgst : ∀ s, gst_parse_launch s = { element := some e, error := false }) :
    ∃ p, (camera_media_factory_create_element mktime g_ascii_strtoll gst_parse_launch
        opendir cam factory_seek_params query).2 = some p ∧
      p.duration_limit =
        (match parse_query_param query "duration".toList with
          | none => 0
          | some d =>
            if g_ascii_strtoll d > 0 then wrap64 (g_ascii_strtoll d * 1000000000) else 0) := by
  unfold camera_media_factory_create_element
  simp only [hts]
  rw [if_neg hfiles]
  cases hf : get_recording_files_from_timestamp mktime opendir cam.name
      (g_ascii_strtoll ts_str) (request_stream_type query)
      (request_duration g_ascii_strtoll query) with
  | nil => exact absurd hf hfiles
  | cons first rest =>
    rw [create_playback_pipeline_params mktime gst_parse_launch first rest _ _
      (by rw [hgst])]
    simp only [hgst]
    refine ⟨_, rfl, ?_⟩
    simp only [duration_limit_ns, request_duration, GST_SECOND]
    cases parse_query_param query "duration".toList <;> simp

/-- C7, at a request for 150 seconds from 1600000250 on a camera with one segment. -/
theorem duration_limit_of_request_witness :
    ∃ p, (camera_media_factory_create_element mktime_utc
        (fun s => (sscanf_ld s).getD 0) (fun _ => { element := some 1, error := false })
        (fun _ => some [FsNode.file "1600000220.mkv".toList])
        { name := "cam".toList, rtsp_url_main := "rtsp://m".toList,
          rtsp_url_sub := "rtsp://s".toList, codec_main := CodecType.CODEC_H264,
          codec_sub := CodecType.CODEC_H264, is_recording := false,
          current_record_file_main := none, current_record_file_sub := none }
        none (some "timestamp=1600000250&duration=150".toList)).2 = some p ∧
      p.duration_limit = 150 * 1000000000 := by
  obtain ⟨p, hp, hd⟩ := duration_limit_of_request mktime_utc
    (fun s => (sscanf_ld s).getD 0) (fun _ => { element := some 1, error := false })
    (fun _ => some [FsNode.file "1600000220.mkv".toList])
    { name := "cam".toList, rtsp_url_main := "rtsp://m".toList,
      rtsp_url_sub := "rtsp://s".toList, codec_main := CodecType.CODEC_H264,
      codec_sub := CodecType.CODEC_H264, is_recording := false,
      current_record_file_main := none, current_record_file_sub := none }
    none (some "timestamp=1600000250&duration=150".toList) "1600000250".toList 1
    (by decide) (by decide) (fun _ => rfl)
  refine ⟨p, hp, ?_⟩
  rw [hd]
  decide

/-! ## The order of the scan -/

mutual
theorem scan_entry_pairwise (mktime : Tm → Int) :
    ∀ (e : FsNode) (base_dir : CStr) (files : List CStr),
      files.Pairwise (fun a b => g_strcmp0 a b ≤ 0) →
      (scan_entry mktime base_dir e files).Pairwise (fun a b => g_strcmp0 a b ≤ 0)
  | .dir name openable entries, base_dir, files, h => by
    unfold scan_entry
    split
    · exact scan_entries_pairwise mktime entries (g_build_filename base_dir name) files h
    · exact h
  | .file name, base_dir, files, h => by
    unfold scan_entry
    simp only []
    split
    · exact h
    · split
      · exact h
      · exact insert_sorted_pairwise files _ h
theorem scan_entries_pairwise (mktime : Tm → Int) :
    ∀ (es : List FsNode) (base_dir : CStr) (files : List CStr),
      files.Pairwise (fun a b => g_strcmp0 a b ≤ 0) →
      (scan_entries mktime base_dir es files).Pairwise (fun a b => g_strcmp0 a b ≤ 0)
  | [], base_dir, files, h => by
    unfold scan_entries
    exact h
  | e :: es, base_dir, files, h => by
    unfold scan_entries
    exact scan_entries_pairwise mktime es base_dir _
      (scan_entry_pairwise mktime e base_dir files h)
end

/-- C9 as the claim states it, refuted: a camera root with the directories `a`, holding
`1700000000.mkv`, and `b`, holding `1600000000.mkv`, is scanned and sorted into the list
[`a/1700000000.mkv`, `b/1600000000.mkv`], whose time stamps decrease. -/
theorem scan_not_in_timestamp_order :
    g_list_sort g_strcmp0
        (scan_recordings_recursive mktime_utc "/rec/cam".toList
          (some [FsNode.dir "b".toList true [FsNode.file "1600000000.mkv".toList],
                 FsNode.dir "a".toList true [FsNode.file "1700000000.mkv".toList]]) [])
      = ["/rec/cam/a/1700000000.mkv".toList, "/rec/cam/b/1600000000.mkv".toList] ∧
    path_to_timestamp mktime_utc "/rec/cam/a/1700000000.mkv".toList = some 1700000000 ∧
    path_to_timestamp mktime_utc "/rec/cam/b/1600000000.mkv".toList = some 1600000000 := by
  refine ⟨?_, ?_, ?_⟩ <;> decide

/-- C9, amended: for every directory tree under the camera's root, the list produced by
`scan_recordings_recursive` is in ascending byte-wise path order (`g_strcmp0`), and the
resolver's `g_list_sort` leaves it as it is: for any two entries at positions i < j,
`g_strcmp0 (path i) (path j) <= 0`. -/
theorem scan_in_path_order (mktime : Tm → Int) (base_dir : CStr)
    (dir : Option (List FsNode)) :
    (scan_recordings_recursive mktime base_dir dir []).Pairwise
        (fun a b => g_strcmp0 a b ≤ 0) ∧
    g_list_sort g_strcmp0 (scan_recordings_recursive mktime base_dir dir [])
      = scan_recordings_recursive mktime base_dir dir [] ∧
    (g_list_sort g_strcmp0 (scan_recordings_recursive mktime base_dir dir [])).Pairwise
        (fun a b => g_strcmp0 a b ≤ 0) := by
  have h : (scan_recordings_recursive mktime base_dir dir []).Pairwise
      (fun a b => g_strcmp0 a b ≤ 0) := by
    unfold scan_recordings_recursive
    cases dir with
    | none => exact List.Pairwise.nil
    | some entries => exact scan_entries_pairwise mktime entries base_dir [] List.Pairwise.nil
  refine ⟨h, g_list_sort_of_pairwise _ h, ?_⟩
  rw [g_list_sort_of_pairwise _ h]
  exact h

/-! ## Decimal printing and scanning -/

theorem digitChar_isdigit (k : Nat) (hk : k < 10) :
    isdigit (Nat.digitChar k) = true ∧ (Nat.digitChar k).toNat - 48 = k ∧
      isspace (Nat.digitChar k) = false ∧ Nat.digitChar k ≠ '-' ∧ Nat.digitChar k ≠ '+' ∧
      Nat.digitChar k ≠ '/' := by
  interval_cases k <;> decide

theorem toDigitsCore_spec (fuel : Nat) :
    ∀ (n : Nat) (ds : List Char), n < fuel →
      ∃ pre, Nat.toDigitsCore 10 fuel n ds = pre ++ ds ∧ pre ≠ [] ∧
        (∀ c ∈ pre, isdigit c = true) ∧
        ∀ a, pre.foldl (fun acc c => acc * 10 + (c.toNat - 48)) a
          = a * 10 ^ pre.length + n := by
  induction fuel with
  | zero => intro n ds h; omega
  | succ fuel ih =>
    intro n ds hn
    have hd := digitChar_isdigit (n % 10) (Nat.mod_lt _ (by decide))
    unfold Nat.toDigitsCore
    simp only []
    split
    · rename_i h0
      refine ⟨[Nat.digitChar (n % 10)], rfl, List.cons_ne_nil _ _, ?_, ?_⟩
      · intro c hc
        rw [List.mem_singleton.mp hc]
        exact hd.1
      · intro a
        simp only [List.foldl_cons, List.foldl_nil, List.length_singleton, pow_one]
        rw [hd.2.1]
        omega
    · rename_i h0
      have hlt : n / 10 < fuel := by omega
      obtain ⟨pre, e, _, hall, hval⟩ := ih (n / 10) (Nat.digitChar (n % 10) :: ds) hlt
      refine ⟨pre ++ [Nat.digitChar (n % 10)], ?_, ?_, ?_, ?_⟩
      · rw [e]; simp
      · simp
      · intro c hc
        rcases List.mem_append.mp hc with h1 | h1
        · exact hall c h1
        · rw [List.mem_singleton.mp h1]
          exact hd.1
      · intro a
        rw [List.foldl_append, hval a]
        simp only [List.foldl_cons, List.foldl_nil, List.length_append, List.length_singleton]
        rw [hd.2.1, pow_succ]
        have := Nat.div_add_mod n 10
        nlinarith [this]

theorem toDigits_spec (n : Nat) :
    Nat.toDigits 10 n ≠ [] ∧ (∀ c ∈ Nat.toDigits 10 n, isdigit c = true) ∧
      digits_value (Nat.toDigits 10 n) = n := by
  obtain ⟨pre, e, hne, hall, hval⟩ := toDigitsCore_spec (n + 1) n [] (by omega)
  have e2 : Nat.toDigits 10 n = pre := by
    unfold Nat.toDigits
    rw [e, List.append_nil]
  rw [e2]
  refine ⟨hne, hall, ?_⟩
  unfold digits_value
  rw [hval 0]
  omega

theorem isdigit_facts (c : Char) (h : isdigit c = true) :
    isspace c = false ∧ c ≠ '-' ∧ c ≠ '+' ∧ c ≠ '/' := by
  refine ⟨?_, ?_, ?_, ?_⟩
  · cases hs : isspace c
    · rfl
    · exfalso
      simp only [isspace, Bool.or_eq_true, decide_eq_true_eq] at hs
      rcases hs with ((((rfl | rfl) | rfl) | rfl) | rfl) | rfl <;> exact absurd h (by decide)
  · rintro rfl; exact absurd h (by decide)
  · rintro rfl; exact absurd h (by decide)
  · rintro rfl; exact absurd h (by decide)

theorem takeWhile_digits_append (ds rest : List Char) (hall : ∀ c ∈ ds, isdigit c = true)
    (hrest : ∀ c, rest.head? = some c → isdigit c = false) :
    (ds ++ rest).takeWhile isdigit = ds := by
  induction ds with
  | nil =>
    cases rest with
    | nil => rfl
    | cons r rs =>
      simp only [List.nil_append]
      rw [List.takeWhile_cons, hrest r rfl]
      rfl
  | cons d ds ih =>
    simp only [List.cons_append]
    rw [List.takeWhile_cons, hall d (List.mem_cons_self _ _)]
    simp only [if_true]
    rw [ih (fun c hc => hall c (List.mem_cons_of_mem _ hc))]

theorem scanf_int_digits (ds rest : List Char) (hne : ds ≠ [])
    (hall : ∀ c ∈ ds, isdigit c = true)
    (hrest : ∀ c, rest.head? = some c → isdigit c = false) :
    scanf_int none (ds ++ rest) = some ((digits_value ds : Int), rest) := by
  cases ds with
  | nil => exact absurd rfl hne
  | cons d ds2 =>
    have hd := isdigit_facts d (hall d (List.mem_cons_self _ _))
    have hdrop : (d :: ds2 ++ rest).dropWhile isspace = d :: ds2 ++ rest := by
      simp only [List.cons_append]
      rw [List.dropWhile_cons, hd.1]
      rfl
    unfold scanf_int
    simp only [hdrop]
    have hsign : (match (d :: ds2 ++ rest : List Char) with
        | '-' :: r => ((true, r, (d :: ds2 ++ rest).length - 1) : Bool × CStr × Nat)
        | '+' :: r => (false, r, (d :: ds2 ++ rest).length - 1)
        | _ => (false, d :: ds2 ++ rest, (d :: ds2 ++ rest).length))
        = (false, d :: ds2 ++ rest, (d :: ds2 ++ rest).length) := by
      simp only [List.cons_append]
      split
      · rename_i r heq
        exact absurd (List.cons.inj heq).1 hd.2.1
      · rename_i r heq
        exact absurd (List.cons.inj heq).1 hd.2.2.1
      · rfl
    rw [hsign]
    simp only [List.take_length]
    rw [takeWhile_digits_append (d :: ds2) rest hall hrest]
    simp only [List.cons_ne_nil, if_false, reduceCtorEq, Bool.false_eq_true]
    rw [List.drop_left]

theorem strrchr_none_of_not_mem (s : CStr) (c : Char) (h : c ∉ s) : strrchr s c = none := by
  induction s with
  | nil => rfl
  | cons x xs ih =>
    unfold strrchr
    rw [ih (fun hm => h (List.mem_cons_of_mem _ hm))]
    simp only []
    rw [if_neg (fun e => h (by rw [e]; exact List.mem_cons_self _ _))]

theorem strrchr_append_slash (pre name : CStr) (h : '/' ∉ name) :
    strrchr (pre ++ '/' :: name) '/' = some ('/' :: name) := by
  induction pre with
  | nil =>
    simp only [List.nil_append]
    unfold strrchr
    rw [strrchr_none_of_not_mem name '/' h]
    simp
  | cons x xs ih =>
    simp only [List.cons_append]
    unfold strrchr
    rw [ih]

/-- A path whose file name is the decimal form of `n` followed by text that starts with no
digit and holds no `/` parses to `n` when `n` lies in the accepted window. -/
theorem path_to_timestamp_of_name (mktime : Tm → Int) (dir suffix : CStr) (n : Nat)
    (hlo : 1500000000 < n) (hhi : n < 2000000000)
    (hs1 : ∀ c, suffix.head? = some c → isdigit c = false) (hs2 : '/' ∉ suffix) :
    path_to_timestamp mktime (dir ++ '/' :: (Nat.toDigits 10 n ++ suffix)) = some (n : Int) := by
  obtain ⟨hne, hall, hval⟩ := toDigits_spec n
  have hno : '/' ∉ Nat.toDigits 10 n ++ suffix := by
    intro hm
    rcases List.mem_append.mp hm with h1 | h1
    · exact (isdigit_facts _ (hall _ h1)).2.2.2 rfl
    · exact hs2 h1
  unfold path_to_timestamp
  rw [strrchr_append_slash dir _ hno]
  simp only [List.tail_cons]
  unfold sscanf_ld
  rw [scanf_int_digits _ suffix hne hall hs1, hval]
  simp only [LONG_MAX, LONG_MIN]
  have h1 : ¬ ((n : Int) > 2 ^ 63 - 1) := by omega
  have h2 : ¬ ((n : Int) < -(2 ^ 63)) := by omega
  rw [if_neg h1, if_neg h2]
  have h3 : (n : Int) > 1500000000 ∧ (n : Int) < 2000000000 := by omega
  rw [if_pos h3]

/-! ## Path round trip -/

/-- The recording directory at a time for which `localtime` returns a result. -/
theorem get_recording_directory_of_some (localtime : Int → Option Tm) (now : Int)
    (camera_name : CStr) (stream_type : StreamType) (tm : Tm) (htm : localtime now = some tm) :
    get_recording_directory localtime now camera_name stream_type
      = some (RECORD_BASE_PATH ++
          '/' :: (if stream_type = StreamType.STREAM_MAIN then RECORD_HI_QUALITY
            else RECORD_LOW_QUALITY) ++ '/' :: camera_name ++
          '/' :: printf_0d 4 (wrap32 (tm.tm_year + 1900)) ++
          '/' :: printf_0d 2 (wrap32 (tm.tm_mon + 1)) ++
          '/' :: printf_0d 2 tm.tm_mday ++
          '/' :: printf_0d 2 tm.tm_hour) := by
  unfold get_recording_directory
  rw [htm]

theorem get_recording_directory_ne_none (localtime : Int → Option Tm) (now : Int)
    (camera_name : CStr) (stream_type : StreamType) (h : localtime now ≠ none) :
    ∃ dir, get_recording_directory localtime now camera_name stream_type = some dir := by
  cases htm : localtime now with
  | none => exact absurd htm h
  | some tm => exact ⟨_, get_recording_directory_of_some localtime now _ _ tm htm⟩

/-- C10 as the claim states it, refuted (time zone UTC): the file the recorder names at
time 1500000000 lies outside the window that `path_to_timestamp` accepts for a file name,
so the hour directory `2017/07/14/02` is read instead and the result is 1499997600. -/
theorem recorded_path_outside_window :
    recording_file_location localtime_utc 1500000000 1500000000 "cam".toList
        StreamType.STREAM_MAIN
      = some
          "/home/oryza/Oryza/recordings/hi_quality/cam/2017/07/14/02/1500000000.mkv".toList ∧
    Option.bind
        (recording_file_location localtime_utc 1500000000 1500000000 "cam".toList
          StreamType.STREAM_MAIN)
        (path_to_timestamp mktime_utc)
      = some 1499997600 := by
  constructor <;> decide

/-- C10, amended: for every camera name, stream kind and time `t` with
1500000000 < t < 2000000000, the path the recorder builds for `t` (the recording directory
plus `<t>.mkv`, or `<t>_%05d.mkv` from `generate_recording_path`) is parsed by
`path_to_timestamp` successfully and yields exactly `t`, whatever the directory is
(`localtime` returning a result for the time the directory is named at). -/
theorem recorded_path_round_trip (mktime : Tm → Int) (localtime : Int → Option Tm)
    (camera_name : CStr) (stream_type : StreamType) (now now_dir : Int)
    (hlo : 1500000000 < now) (hhi : now < 2000000000) (hlt : localtime now_dir ≠ none) :
    Option.bind (recording_file_location localtime now_dir now camera_name stream_type)
        (path_to_timestamp mktime) = some now ∧
    Option.bind (generate_recording_path localtime now now_dir camera_name stream_type)
        (path_to_timestamp mktime) = some now := by
  obtain ⟨dir, hdir⟩ :=
    get_recording_directory_ne_none localtime now_dir camera_name stream_type hlt
  have hp : printf_ld now = Nat.toDigits 10 now.toNat := by
    unfold printf_ld
    rw [if_neg (by omega)]
  have hn : ((now.toNat : Nat) : Int) = now := Int.toNat_of_nonneg (by omega)
  have hlo2 : 1500000000 < now.toNat := by omega
  have hhi2 : now.toNat < 2000000000 := by omega
  constructor
  · have := path_to_timestamp_of_name mktime dir ".mkv".toList
      now.toNat hlo2 hhi2 (by decide) (by decide)
    rw [hn] at this
    rw [← this]
    unfold recording_file_location
    rw [hdir, hp]
    simp only [Option.bind, List.append_assoc, List.cons_append]
  · have := path_to_timestamp_of_name mktime dir "_%05d.mkv".toList
      now.toNat hlo2 hhi2 (by decide) (by decide)
    rw [hn] at this
    rw [← this]
    unfold generate_recording_path generate_recording_filename
    rw [hdir, hp]
    simp only [Option.bind, List.append_assoc, List.cons_append]

/-- C10 amended, at the time 1700000000 in the UTC time zone. -/
theorem recorded_path_round_trip_witness :
    Option.bind
        (recording_file_location localtime_utc 1700000000 1700000000 "cam".toList
          StreamType.STREAM_SUB)
        (path_to_timestamp mktime_utc) = some 1700000000 :=
  (recorded_path_round_trip mktime_utc localtime_utc "cam".toList StreamType.STREAM_SUB
    1700000000 1700000000 (by decide) (by decide) (by decide)).1

/-! ## What `path_to_timestamp` accepts -/

theorem path_to_timestamp_unfold (mktime : Tm → Int) (path : CStr) :
    path_to_timestamp mktime path =
      (match sscanf_ld (path_base path) with
        | some ts =>
          if ts > 1500000000 ∧ ts < 2000000000 then some ts
          else path_to_timestamp_dirs mktime path
        | none => path_to_timestamp_dirs mktime path) := rfl

theorem sscanf_ld_digits (ds rest : List Char) (hne : ds ≠ [])
    (hall : ∀ c ∈ ds, isdigit c = true)
    (hrest : ∀ c, rest.head? = some c → isdigit c = false)
    (hhi : digits_value ds < 2000000000) :
    sscanf_ld (ds ++ rest) = some (digits_value ds : Int) := by
  unfold sscanf_ld
  rw [scanf_int_digits ds rest hne hall hrest]
  simp only [LONG_MAX, LONG_MIN]
  rw [if_neg (by omega), if_neg (by omega)]

theorem path_to_timestamp_dirs_none_iff (mktime : Tm → Int) (path : CStr) :
    path_to_timestamp_dirs mktime path = none ↔
      ∀ pre suf, path = pre ++ '/' :: suf → sscanf_ymdh suf = none := by
  induction path with
  | nil =>
    constructor
    · intro _ pre suf h
      cases pre <;> cases h
    · intro _; rfl
  | cons c p ih =>
    unfold path_to_timestamp_dirs
    by_cases hc : c = '/'
    · subst hc
      simp only [if_true]
      cases hs : sscanf_ymdh p with
      | none =>
        simp only []
        rw [ih]
        constructor
        · intro h pre suf e
          cases pre with
          | nil =>
            simp only [List.nil_append, List.cons.injEq, true_and] at e
            rw [← e]; exact hs
          | cons x pre2 =>
            simp only [List.cons_append, List.cons.injEq] at e
            exact h pre2 suf e.2
        · intro h pre suf e
          exact h ('/' :: pre) suf (by rw [e]; rfl)
      | some v =>
        obtain ⟨year, mon, day, hour⟩ := v
        simp only []
        constructor
        · intro h; cases h
        · intro h
          have := h [] p rfl
          rw [hs] at this
          cases this
    · rw [if_neg hc, ih]
      constructor
      · intro h pre suf e
        cases pre with
        | nil =>
          simp only [List.nil_append, List.cons.injEq] at e
          exact absurd e.1 hc
        | cons x pre2 =>
          simp only [List.cons_append, List.cons.injEq] at e
          exact h pre2 suf e.2
      · intro h pre suf e
        exact h (c :: pre) suf (by rw [e]; rfl)

/-- C11 as the claim states it, refuted: the file name of `/rec/cam/1400000000.mkv` begins
with the decimal Unix time stamp 1400000000 (13 May 2014), and `path_to_timestamp` fails on
the path: the number is not above 1500000000 and no directory fragment follows a `/`. -/
theorem leading_timestamp_before_window_rejected :
    path_base "/rec/cam/1400000000.mkv".toList = "1400000000.mkv".toList ∧
    path_to_timestamp mktime_utc "/rec/cam/1400000000.mkv".toList = none := by
  constructor <;> decide

/-- C11, amended: for every path whose file name (the text after the last `/`) begins with
a decimal Unix time stamp `t` strictly between 1500000000 and 2000000000, followed by no
further digit, `path_to_timestamp` succeeds and returns exactly `t`, whatever the directory
components are. -/
theorem file_name_timestamp_in_window (mktime : Tm → Int) (path : CStr)
    (ds rest : List Char) (hbase : path_base path = ds ++ rest) (hne : ds ≠ [])
    (hall : ∀ c ∈ ds, isdigit c = true)
    (hrest : ∀ c, rest.head? = some c → isdigit c = false)
    (hlo : 1500000000 < digits_value ds) (hhi : digits_value ds < 2000000000) :
    path_to_timestamp mktime path = some (digits_value ds : Int) := by
  rw [path_to_timestamp_unfold, hbase, sscanf_ld_digits ds rest hne hall hrest hhi]
  simp only []
  rw [if_pos (by constructor <;> omega)]

/-- C11 amended, at a file in a directory that is no hour directory. -/
theorem file_name_timestamp_in_window_witness :
    path_to_timestamp mktime_utc "/rec/cam/1600000000.mkv".toList
      = some (digits_value "1600000000".toList : Int) :=
  file_name_timestamp_in_window mktime_utc "/rec/cam/1600000000.mkv".toList
    "1600000000".toList ".mkv".toList (by decide) (by decide) (by decide) (by decide)
    (by decide) (by decide)

/-- C12 as the claim states it, refuted: the file name of `/rec/cam/2100000000.mkv` has
the leading number 2100000000, a Unix time stamp of the year 2036, yet `path_to_timestamp`
returns failure on the path. -/
theorem leading_timestamp_after_window_fails :
    sscanf_ld (path_base "/rec/cam/2100000000.mkv".toList) = some 2100000000 ∧
    path_to_timestamp mktime_utc "/rec/cam/2100000000.mkv".toList = none := by
  constructor <;> decide

/-- C12, amended: `path_to_timestamp` returns failure if and only if the file name has no
leading number strictly between 1500000000 and 2000000000 (as `sscanf` reads `%ld`) and no
position following a `/` in the path reads as `%4d/%2d/%2d/%2d` (a year of at most four
characters, then month, day and hour of at most two characters each, separated by `/`); in
every other case it returns success. -/
theorem path_to_timestamp_fails_iff (mktime : Tm → Int) (path : CStr) :
    (path_to_timestamp mktime path = none ↔
      (∀ ts, sscanf_ld (path_base path) = some ts → ¬ (1500000000 < ts ∧ ts < 2000000000)) ∧
      (∀ pre suf, path = pre ++ '/' :: suf → sscanf_ymdh suf = none)) ∧
    (path_to_timestamp mktime path ≠ none ↔
      ∃ ts, path_to_timestamp mktime path = some ts) := by
  constructor
  · rw [path_to_timestamp_unfold, ← path_to_timestamp_dirs_none_iff mktime path]
    cases hs : sscanf_ld (path_base path) with
    | none =>
      simp only []
      constructor
      · intro h
        exact ⟨fun ts e => (by cases e), h⟩
      · intro h
        exact h.2
    | some ts =>
      simp only []
      by_cases hw : ts > 1500000000 ∧ ts < 2000000000
      · rw [if_pos hw]
        constructor
        · intro h; cases h
        · intro h
          exact absurd ⟨hw.1, hw.2⟩ (h.1 ts rfl)
      · rw [if_neg hw]
        constructor
        · intro h
          refine ⟨?_, h⟩
          intro t e
          cases e
          intro h2
          exact hw ⟨h2.1, h2.2⟩
        · intro h
          exact h.2
  · cases path_to_timestamp mktime path with
    | none => simp
    | some ts => simp

/-! ## The scan as a sorted insertion of the files on disk -/

theorem strcmp_antisymm (a b : CStr) (hab : strcmp a b ≤ 0) (hba : strcmp b a ≤ 0) :
    a = b := by
  induction a generalizing b with
  | nil =>
    cases b with
    | nil => rfl
    | cons y ys => simp [strcmp] at hba
  | cons x xs ih =>
    cases b with
    | nil => simp [strcmp] at hab
    | cons y ys =>
      by_cases h : x = y
      · subst h
        simp only [strcmp, if_true] at hab hba
        rw [ih ys hab hba]
      · have h2 : ¬ y = x := fun e => h e.symm
        simp only [strcmp, h, h2, if_false] at hab hba
        have := char_sub_ne_zero x y h
        omega

theorem sorted_perm_unique (l1 l2 : List CStr) (hp : l1.Perm l2)
    (h1 : l1.Pairwise (fun a b => g_strcmp0 a b ≤ 0))
    (h2 : l2.Pairwise (fun a b => g_strcmp0 a b ≤ 0)) : l1 = l2 := by
  haveI : IsAntisymm CStr (fun a b => g_strcmp0 a b ≤ 0) :=
    ⟨fun a b hab hba => strcmp_antisymm a b hab hba⟩
  exact List.eq_of_perm_of_sorted hp h1 h2

theorem insert_all_perm (paths : List CStr) :
    ∀ files : List CStr,
      (paths.foldl (fun acc p => g_list_insert_sorted g_strcmp0 acc p) files).Perm
        (files ++ paths) := by
  induction paths with
  | nil => intro files; simp
  | cons p ps ih =>
    intro files
    simp only [List.foldl_cons]
    refine (ih _).trans ?_
    have h1 := insert_sorted_perm g_strcmp0 files p
    have h2 : (p :: files).Perm (files ++ [p]) := by
      simpa using (List.perm_append_singleton p files).symm
    have h3 := (h1.trans h2).append_right ps
    simpa [List.append_assoc] using h3

theorem insert_all_pairwise (paths : List CStr) :
    ∀ files : List CStr, files.Pairwise (fun a b => g_strcmp0 a b ≤ 0) →
      (paths.foldl (fun acc p => g_list_insert_sorted g_strcmp0 acc p) files).Pairwise
        (fun a b => g_strcmp0 a b ≤ 0) := by
  induction paths with
  | nil => intro files h; exact h
  | cons p ps ih =>
    intro files h
    simp only [List.foldl_cons]
    exact ih _ (insert_sorted_pairwise files p h)

mutual
theorem scan_entry_eq_insert (mktime : Tm → Int) :
    ∀ (e : FsNode) (base_dir : CStr) (files : List CStr),
      scan_entry mktime base_dir e files
        = (entry_paths mktime base_dir e).foldl
            (fun acc p => g_list_insert_sorted g_strcmp0 acc p) files
  | .dir name openable entries, base_dir, files => by
    unfold scan_entry entry_paths
    split
    · exact scan_entries_eq_insert mktime entries (g_build_filename base_dir name) files
    · rfl
  | .file name, base_dir, files => by
    unfold scan_entry entry_paths
    simp only []
    split
    · rfl
    · split <;> rfl
theorem scan_entries_eq_insert (mktime : Tm → Int) :
    ∀ (es : List FsNode) (base_dir : CStr) (files : List CStr),
      scan_entries mktime base_dir es files
        = (entries_paths mktime base_dir es).foldl
            (fun acc p => g_list_insert_sorted g_strcmp0 acc p) files
  | [], base_dir, files => by
    unfold scan_entries entries_paths
    rfl
  | e :: es, base_dir, files => by
    unfold scan_entries entries_paths
    rw [List.foldl_append, ← scan_entry_eq_insert mktime e base_dir files]
    exact scan_entries_eq_insert mktime es base_dir _
end

theorem scan_eq_insert (mktime : Tm → Int) (base_dir : CStr) (dir : Option (List FsNode)) :
    scan_recordings_recursive mktime base_dir dir []
      = (tree_paths mktime base_dir dir).foldl
          (fun acc p => g_list_insert_sorted g_strcmp0 acc p) [] := by
  unfold scan_recordings_recursive tree_paths
  cases dir with
  | none => rfl
  | some entries => exact scan_entries_eq_insert mktime entries base_dir []

theorem scan_perm_tree_paths (mktime : Tm → Int) (base_dir : CStr)
    (dir : Option (List FsNode)) :
    (scan_recordings_recursive mktime base_dir dir []).Perm (tree_paths mktime base_dir dir) := by
  rw [scan_eq_insert]
  simpa using insert_all_perm (tree_paths mktime base_dir dir) []

theorem scan_pairwise (mktime : Tm → Int) (base_dir : CStr) (dir : Option (List FsNode)) :
    (scan_recordings_recursive mktime base_dir dir []).Pairwise
      (fun a b => g_strcmp0 a b ≤ 0) := by
  rw [scan_eq_insert]
  exact insert_all_pairwise _ [] List.Pairwise.nil

theorem scan_eq_of_perm (mktime : Tm → Int) (base_dir : CStr)
    (dir1 dir2 : Option (List FsNode))
    (h : (tree_paths mktime base_dir dir1).Perm (tree_paths mktime base_dir dir2)) :
    scan_recordings_recursive mktime base_dir dir1 []
      = scan_recordings_recursive mktime base_dir dir2 [] :=
  sorted_perm_unique _ _
    (((scan_perm_tree_paths mktime base_dir dir1).trans h).trans
      (scan_perm_tree_paths mktime base_dir dir2).symm)
    (scan_pairwise mktime base_dir dir1) (scan_pairwise mktime base_dir dir2)

/-- C14: for identical camera, stream kind, `start_ts` and duration, two listings of the
camera's directory tree that hold the same recording files, enumerated in any order, give
the same result of `get_recording_files_from_timestamp` and the same result of
`create_playback_pipeline` (pipeline, seek offset and duration limit). -/
theorem resolver_independent_of_enumeration (mktime : Tm → Int)
    (gst_parse_launch : CStr → ParseLaunch) (opendir1 opendir2 : CStr → Option (List FsNode))
    (camera_name : CStr) (start_ts : Int) (stream_type : StreamType) (duration : Int)
    (h : (tree_paths mktime (playback_base_dir camera_name stream_type)
          (opendir1 (playback_base_dir camera_name stream_type))).Perm
        (tree_paths mktime (playback_base_dir camera_name stream_type)
          (opendir2 (playback_base_dir camera_name stream_type)))) :
    get_recording_files_from_timestamp mktime opendir1 camera_name start_ts stream_type
        duration
      = get_recording_files_from_timestamp mktime opendir2 camera_name start_ts stream_type
        duration ∧
    create_playback_pipeline mktime gst_parse_launch
        (get_recording_files_from_timestamp mktime opendir1 camera_name start_ts stream_type
          duration) start_ts duration
      = create_playback_pipeline mktime gst_parse_launch
        (get_recording_files_from_timestamp mktime opendir2 camera_name start_ts stream_type
          duration) start_ts duration := by
  have e : get_recording_files_from_timestamp mktime opendir1 camera_name start_ts
        stream_type duration
      = get_recording_files_from_timestamp mktime opendir2 camera_name start_ts stream_type
        duration := by
    unfold get_recording_files_from_timestamp
    simp only []
    rw [scan_eq_of_perm mktime _ _ _ h]
  exact ⟨e, by rw [e]⟩

/-- C14, at a camera directory with two segments listed in the two possible orders. -/
theorem resolver_independent_of_enumeration_witness :
    get_recording_files_from_timestamp mktime_utc
        (fun _ => some [FsNode.file "1600000220.mkv".toList,
          FsNode.file "1600000100.mkv".toList])
        "cam".toList 1600000250 StreamType.STREAM_MAIN 0
      = get_recording_files_from_timestamp mktime_utc
        (fun _ => some [FsNode.file "1600000100.mkv".toList,
          FsNode.file "1600000220.mkv".toList])
        "cam".toList 1600000250 StreamType.STREAM_MAIN 0 :=
  (resolver_independent_of_enumeration mktime_utc
    (fun _ => { element := some 1, error := false })
    (fun _ => some [FsNode.file "1600000220.mkv".toList, FsNode.file "1600000100.mkv".toList])
    (fun _ => some [FsNode.file "1600000100.mkv".toList, FsNode.file "1600000220.mkv".toList])
    "cam".toList 1600000250 StreamType.STREAM_MAIN 0
    (by
      rw [show tree_paths mktime_utc (playback_base_dir "cam".toList StreamType.STREAM_MAIN)
            (some [FsNode.file "1600000220.mkv".toList, FsNode.file "1600000100.mkv".toList])
          = ["/home/oryza/Oryza/recordings/hi_quality/cam/1600000220.mkv".toList,
             "/home/oryza/Oryza/recordings/hi_quality/cam/1600000100.mkv".toList] from by decide,
        show tree_paths mktime_utc (playback_base_dir "cam".toList StreamType.STREAM_MAIN)
            (some [FsNode.file "1600000100.mkv".toList, FsNode.file "1600000220.mkv".toList])
          = ["/home/oryza/Oryza/recordings/hi_quality/cam/1600000100.mkv".toList,
             "/home/oryza/Oryza/recordings/hi_quality/cam/1600000220.mkv".toList] from by decide]
      exact List.Perm.swap _ _ _)).1

/-! ## Path order of the recorder's file names -/

theorem strcmp_append_left (p x y : CStr) : strcmp (p ++ x) (p ++ y) = strcmp x y := by
  induction p with
  | nil => rfl
  | cons c p ih => simp [strcmp, ih]

theorem strcmp_append_of_lt (a b x y : CStr) (hlen : a.length = b.length)
    (h : strcmp a b < 0) : strcmp (a ++ x) (b ++ y) < 0 := by
  induction a generalizing b with
  | nil =>
    cases b with
    | nil => simp [strcmp] at h
    | cons e b2 => simp at hlen
  | cons d a2 ih =>
    cases b with
    | nil => simp at hlen
    | cons e b2 =>
      simp only [List.length_cons, add_left_inj] at hlen
      by_cases hde : d = e
      · subst hde
        simp only [strcmp, if_true, List.cons_append] at h ⊢
        exact ih b2 hlen h
      · simp only [strcmp, hde, if_false, List.cons_append] at h ⊢
        exact h

theorem isdigit_toNat (c : Char) (h : isdigit c = true) : 48 ≤ c.toNat ∧ c.toNat ≤ 57 := by
  simp only [isdigit, Bool.and_eq_true, decide_eq_true_eq] at h
  have h1 : ('0' : Char).toNat ≤ c.toNat := h.1
  have h2 : c.toNat ≤ ('9' : Char).toNat := h.2
  exact ⟨h1, h2⟩

theorem foldl_digits_from (l : List Char) :
    ∀ a : Nat, l.foldl (fun acc c => acc * 10 + (c.toNat - 48)) a
      = a * 10 ^ l.length + digits_value l := by
  induction l with
  | nil => intro a; simp [digits_value]
  | cons c l ih =>
    intro a
    unfold digits_value
    simp only [List.foldl_cons, List.length_cons]
    rw [ih (a * 10 + (c.toNat - 48)), ih (0 * 10 + (c.toNat - 48))]
    unfold digits_value
    ring

theorem digits_value_cons (c : Char) (l : List Char) :
    digits_value (c :: l) = (c.toNat - 48) * 10 ^ l.length + digits_value l := by
  have := foldl_digits_from l (0 * 10 + (c.toNat - 48))
  unfold digits_value at this ⊢
  simp only [List.foldl_cons]
  rw [this]
  ring

theorem digits_value_lt (l : List Char) (hall : ∀ c ∈ l, isdigit c = true) :
    digits_value l < 10 ^ l.length := by
  induction l with
  | nil => simp [digits_value]
  | cons c l ih =>
    rw [digits_value_cons, List.length_cons, pow_succ]
    have h1 := ih (fun x hx => hall x (List.mem_cons_of_mem _ hx))
    have h2 := isdigit_toNat c (hall c (List.mem_cons_self _ _))
    have h3 : c.toNat - 48 ≤ 9 := by omega
    nlinarith [h1, h3]

theorem strcmp_digits_lt (a : List Char) :
    ∀ (b x y : List Char), a.length = b.length →
      (∀ c ∈ a, isdigit c = true) → (∀ c ∈ b, isdigit c = true) →
      digits_value a < digits_value b → strcmp (a ++ x) (b ++ y) < 0 := by
  induction a with
  | nil =>
    intro b x y hlen _ _ h
    cases b with
    | nil => simp [digits_value] at h
    | cons e b2 => simp at hlen
  | cons d a2 ih =>
    intro b x y hlen ha hb h
    cases b with
    | nil => simp at hlen
    | cons e b2 =>
      simp only [List.length_cons, add_left_inj] at hlen
      have ha2 : ∀ c ∈ a2, isdigit c = true := fun c hc => ha c (List.mem_cons_of_mem _ hc)
      have hb2 : ∀ c ∈ b2, isdigit c = true := fun c hc => hb c (List.mem_cons_of_mem _ hc)
      rw [digits_value_cons, digits_value_cons, hlen] at h
      by_cases hde : d = e
      · subst hde
        simp only [strcmp, if_true, List.cons_append]
        exact ih b2 x y hlen ha2 hb2 (by omega)
      · simp only [strcmp, hde, if_false, List.cons_append]
        have hd := isdigit_toNat d (ha d (List.mem_cons_self _ _))
        have he := isdigit_toNat e (hb e (List.mem_cons_self _ _))
        have hne := char_sub_ne_zero d e hde
        have hlt2 := digits_value_lt a2 ha2
        have hlt3 := digits_value_lt b2 hb2
        rw [hlen] at hlt2
        by_contra hge
        have hgt : e.toNat + 1 ≤ d.toNat := by omega
        have : (e.toNat - 48 + 1) * 10 ^ b2.length ≤ (d.toNat - 48) * 10 ^ b2.length :=
          Nat.mul_le_mul_right _ (by omega)
        nlinarith [this, hlt2, hlt3, h]

theorem toDigits_length_of_window (n : Nat) (hlo : 1500000000 < n) (hhi : n < 2000000000) :
    (Nat.toDigits 10 n).length = 10 := by
  obtain ⟨_, hall, hval⟩ := toDigits_spec n
  have h1 := digits_value_lt (Nat.toDigits 10 n) hall
  rw [hval] at h1
  have h2 : (Nat.toDigits 10 n).length ≤ 10 := by
    unfold Nat.toDigits
    exact Nat.toDigitsCore_length 10 (by decide) (n + 1) n 10 (by omega) (by decide)
  have h3 : ¬ (Nat.toDigits 10 n).length ≤ 9 := by
    intro h
    have : 10 ^ (Nat.toDigits 10 n).length ≤ 10 ^ 9 := Nat.pow_le_pow_right (by decide) h
    omega
  omega

theorem recording_file_location_eq (localtime : Int → Option Tm) (now_dir now : Int)
    (camera_name : CStr) (stream_type : StreamType) (h : 0 ≤ now) :
    recording_file_location localtime now_dir now camera_name stream_type
      = Option.map (fun dir => dir ++ '/' :: (Nat.toDigits 10 now.toNat ++ ".mkv".toList))
          (get_recording_directory localtime now_dir camera_name stream_type) := by
  unfold recording_file_location printf_ld
  rw [if_neg (by omega)]
  cases get_recording_directory localtime now_dir camera_name stream_type with
  | none => rfl
  | some dir => simp only [Option.map, List.append_assoc, List.cons_append]

theorem recording_file_location_some (localtime : Int → Option Tm) (now_dir now : Int)
    (camera_name : CStr) (stream_type : StreamType) (h : 0 ≤ now) (p : CStr)
    (hp : recording_file_location localtime now_dir now camera_name stream_type = some p) :
    ∃ dir, get_recording_directory localtime now_dir camera_name stream_type = some dir ∧
      p = dir ++ '/' :: (Nat.toDigits 10 now.toNat ++ ".mkv".toList) := by
  rw [recording_file_location_eq localtime now_dir now camera_name stream_type h] at hp
  cases hd : get_recording_directory localtime now_dir camera_name stream_type with
  | none =>
    rw [hd] at hp
    cases hp
  | some dir =>
    rw [hd] at hp
    simp only [Option.map, Option.some.injEq] at hp
    exact ⟨dir, rfl, hp.symm⟩

theorem recording_file_location_timestamp (mktime : Tm → Int) (localtime : Int → Option Tm)
    (now_dir now : Int) (camera_name : CStr) (stream_type : StreamType)
    (hlo : 1500000000 < now) (hhi : now < 2000000000) (p : CStr)
    (hp : recording_file_location localtime now_dir now camera_name stream_type = some p) :
    path_to_timestamp mktime p = some now := by
  obtain ⟨dir, _, e⟩ := recording_file_location_some localtime now_dir now camera_name
    stream_type (by omega) p hp
  have := path_to_timestamp_of_name mktime dir ".mkv".toList
    now.toNat (by omega) (by omega) (by decide) (by decide)
  rw [e, this, Int.toNat_of_nonneg (by omega)]

theorem recording_file_location_lt (localtime : Int → Option Tm) (s t : Int)
    (camera_name : CStr) (stream_type : StreamType)
    (hs : 1500000000 < s) (hst : s < t) (ht : t < 2000000000)
    (hdir : ∀ ds dt, get_recording_directory localtime s camera_name stream_type = some ds →
      get_recording_directory localtime t camera_name stream_type = some dt →
      ds = dt ∨ (g_strcmp0 ds dt < 0 ∧ ds.length = dt.length))
    (ps pt : CStr)
    (hps : recording_file_location localtime s s camera_name stream_type = some ps)
    (hpt : recording_file_location localtime t t camera_name stream_type = some pt) :
    g_strcmp0 ps pt < 0 := by
  obtain ⟨ds, hds, es⟩ := recording_file_location_some localtime s s camera_name
    stream_type (by omega) ps hps
  obtain ⟨dt, hdt, et⟩ := recording_file_location_some localtime t t camera_name
    stream_type (by omega) pt hpt
  rw [es, et]
  unfold g_strcmp0
  rcases hdir ds dt hds hdt with he | ⟨hlt, hlen⟩
  · rw [he, strcmp_append_left]
    simp only [strcmp, if_true]
    obtain ⟨_, halls, hvals⟩ := toDigits_spec s.toNat
    obtain ⟨_, hallt, hvalt⟩ := toDigits_spec t.toNat
    apply strcmp_digits_lt _ _ _ _ _ halls hallt
    · rw [hvals, hvalt]; omega
    · rw [toDigits_length_of_window s.toNat (by omega) (by omega),
        toDigits_length_of_window t.toNat (by omega) (by omega)]
  · exact strcmp_append_of_lt _ _ _ _ hlen hlt

/-! ## Chronological order of the recorded segments -/

theorem recorded_files_pairwise (localtime : Int → Option Tm) (camera_name : CStr)
    (stream_type : StreamType) (times : List Int)
    (hinc : times.Pairwise (fun s t => s < t))
    (hwin : ∀ t ∈ times, 1500000000 < t ∧ t < 2000000000)
    (hdir : times.Pairwise (fun s t =>
      ∀ ds dt, get_recording_directory localtime s camera_name stream_type = some ds →
        get_recording_directory localtime t camera_name stream_type = some dt →
        ds = dt ∨ (g_strcmp0 ds dt < 0 ∧ ds.length = dt.length))) :
    (times.filterMap
        (fun t => recording_file_location localtime t t camera_name stream_type)).Pairwise
      (fun a b => g_strcmp0 a b ≤ 0) := by
  induction times with
  | nil => exact List.Pairwise.nil
  | cons s rest ih =>
    rw [List.pairwise_cons] at hinc hdir
    have hrest := ih hinc.2 (fun t ht => hwin t (List.mem_cons_of_mem _ ht)) hdir.2
    cases hps : recording_file_location localtime s s camera_name stream_type with
    | none =>
      rw [List.filterMap_cons]
      simp only [hps]
      exact hrest
    | some ps =>
      rw [List.filterMap_cons]
      simp only [hps]
      rw [List.pairwise_cons]
      refine ⟨?_, hrest⟩
      intro b hb
      obtain ⟨t, ht, hpt⟩ := List.mem_filterMap.mp hb
      exact le_of_lt (recording_file_location_lt localtime s t camera_name stream_type
        (hwin s (List.mem_cons_self _ _)).1 (hinc.1 t ht)
        (hwin t (List.mem_cons_of_mem _ ht)).2 (hdir.1 t ht) ps b hps hpt)

/-- The files named for a list of times, one for each time, parse to those times. -/
theorem recorded_files_timestamps (mktime : Tm → Int) (localtime : Int → Option Tm)
    (camera_name : CStr) (stream_type : StreamType) (times : List Int)
    (hwin : ∀ t ∈ times, 1500000000 < t ∧ t < 2000000000)
    (hlt : ∀ t ∈ times, localtime t ≠ none) :
    (times.filterMap
        (fun t => recording_file_location localtime t t camera_name stream_type)).map
        (path_to_timestamp mktime) = times.map some ∧
    (times.filterMap
        (fun t => recording_file_location localtime t t camera_name stream_type)).length
      = times.length := by
  induction times with
  | nil => exact ⟨rfl, rfl⟩
  | cons s rest ih =>
    obtain ⟨i1, i2⟩ := ih (fun t ht => hwin t (List.mem_cons_of_mem _ ht))
      (fun t ht => hlt t (List.mem_cons_of_mem _ ht))
    obtain ⟨dir, hd⟩ := get_recording_directory_ne_none localtime s camera_name stream_type
      (hlt s (List.mem_cons_self _ _))
    have hps : recording_file_location localtime s s camera_name stream_type
        = some (dir ++ '/' :: printf_ld s ++ ".mkv".toList) := by
      unfold recording_file_location
      rw [hd]
    have hts := recording_file_location_timestamp mktime localtime s s camera_name
      stream_type (hwin s (List.mem_cons_self _ _)).1 (hwin s (List.mem_cons_self _ _)).2
      _ hps
    rw [List.filterMap_cons]
    simp only [hps]
    constructor
    · rw [List.map_cons, hts, i1, List.map_cons]
    · rw [List.length_cons, i2, List.length_cons]

/-- C13 as the claim states it, refuted (time zone UTC): for the rotation times 1400000000
and 1400000080 the recorder names two files in the hour directory `2014/05/13/16`; the scan
returns them with the parsed time stamps 1399996800 and 1399996800, a duplicate, because
file-name time stamps up to 1500000000 are not accepted and the hour directory is read
instead. -/
theorem recorded_segments_duplicate_timestamps :
    [recording_file_location localtime_utc 1400000000 1400000000 "cam".toList
        StreamType.STREAM_MAIN,
      recording_file_location localtime_utc 1400000080 1400000080 "cam".toList
        StreamType.STREAM_MAIN]
      = [some
          "/home/oryza/Oryza/recordings/hi_quality/cam/2014/05/13/16/1400000000.mkv".toList,
         some
          "/home/oryza/Oryza/recordings/hi_quality/cam/2014/05/13/16/1400000080.mkv".toList] ∧
    scan_recordings_recursive mktime_utc
        (playback_base_dir "cam".toList StreamType.STREAM_MAIN)
        (some [FsNode.dir "2014".toList true [FsNode.dir "05".toList true
          [FsNode.dir "13".toList true [FsNode.dir "16".toList true
            [FsNode.file "1400000000.mkv".toList, FsNode.file "1400000080.mkv".toList]]]]]) []
      = ["/home/oryza/Oryza/recordings/hi_quality/cam/2014/05/13/16/1400000000.mkv".toList,
         "/home/oryza/Oryza/recordings/hi_quality/cam/2014/05/13/16/1400000080.mkv".toList] ∧
    (scan_recordings_recursive mktime_utc
        (playback_base_dir "cam".toList StreamType.STREAM_MAIN)
        (some [FsNode.dir "2014".toList true [FsNode.dir "05".toList true
          [FsNode.dir "13".toList true [FsNode.dir "16".toList true
            [FsNode.file "1400000000.mkv".toList, FsNode.file "1400000080.mkv".toList]]]]])
        []).map (path_to_timestamp mktime_utc)
      = [some 1399996800, some 1399996800] := by
  refine ⟨?_, ?_, ?_⟩ <;> decide

/-- C13, amended: for every camera, stream kind and strictly increasing sequence of
rotation times t1 < ... < tn that all lie strictly between 1500000000 and 2000000000 and
whose hour directories do not go backwards (the directory of an earlier time equals that of
a later one or precedes it in path order, being of the same length), `localtime` returning
a result for each of them, scanning a tree that holds the files the recorder names for
those times returns exactly those n files in chronological order, with the parsed time
stamps t1, ..., tn, strictly increasing with no duplicate. -/
theorem recorded_segments_chronological (mktime : Tm → Int) (localtime : Int → Option Tm)
    (camera_name : CStr) (stream_type : StreamType) (times : List Int) (base_dir : CStr)
    (dir : Option (List FsNode))
    (hinc : times.Pairwise (fun s t => s < t))
    (hwin : ∀ t ∈ times, 1500000000 < t ∧ t < 2000000000)
    (hlt : ∀ t ∈ times, localtime t ≠ none)
    (hdir : times.Pairwise (fun s t =>
      ∀ ds dt, get_recording_directory localtime s camera_name stream_type = some ds →
        get_recording_directory localtime t camera_name stream_type = some dt →
        ds = dt ∨ (g_strcmp0 ds dt < 0 ∧ ds.length = dt.length)))
    (hfs : (tree_paths mktime base_dir dir).Perm
      (times.filterMap
        (fun t => recording_file_location localtime t t camera_name stream_type))) :
    scan_recordings_recursive mktime base_dir dir []
      = times.filterMap
          (fun t => recording_file_location localtime t t camera_name stream_type) ∧
    (scan_recordings_recursive mktime base_dir dir []).map (path_to_timestamp mktime)
      = times.map some ∧
    (scan_recordings_recursive mktime base_dir dir []).length = times.length := by
  have hscan : scan_recordings_recursive mktime base_dir dir []
      = times.filterMap
          (fun t => recording_file_location localtime t t camera_name stream_type) :=
    sorted_perm_unique _ _ ((scan_perm_tree_paths mktime base_dir dir).trans hfs)
      (scan_pairwise mktime base_dir dir)
      (recorded_files_pairwise localtime camera_name stream_type times hinc hwin hdir)
  obtain ⟨h1, h2⟩ :=
    recorded_files_timestamps mktime localtime camera_name stream_type times hwin hlt
  refine ⟨hscan, ?_, ?_⟩
  · rw [hscan, h1]
  · rw [hscan, h2]

/-- C13 amended, at two rotations an hour apart in the UTC time zone, the later file
listed first. -/
theorem recorded_segments_chronological_witness :
    (scan_recordings_recursive mktime_utc
        (playback_base_dir "cam".toList StreamType.STREAM_MAIN)
        (some [FsNode.dir "2020".toList true [FsNode.dir "09".toList true
          [FsNode.dir "13".toList true
            [FsNode.dir "13".toList true [FsNode.file "1600003700.mkv".toList],
             FsNode.dir "12".toList true [FsNode.file "1600000100.mkv".toList]]]]])
        []).map (path_to_timestamp mktime_utc)
      = [some 1600000100, some 1600003700] :=
  (recorded_segments_chronological mktime_utc localtime_utc "cam".toList
    StreamType.STREAM_MAIN [1600000100, 1600003700]
    (playback_base_dir "cam".toList StreamType.STREAM_MAIN)
    (some [FsNode.dir "2020".toList true [FsNode.dir "09".toList true
      [FsNode.dir "13".toList true
        [FsNode.dir "13".toList true [FsNode.file "1600003700.mkv".toList],
         FsNode.dir "12".toList true [FsNode.file "1600000100.mkv".toList]]]]])
    (by decide) (by decide) (by decide)
    (List.pairwise_pair.mpr (fun ds dt hs ht => by
      have es : get_recording_directory localtime_utc 1600000100 "cam".toList
          StreamType.STREAM_MAIN
          = some "/home/oryza/Oryza/recordings/hi_quality/cam/2020/09/13/12".toList := by
        decide
      have et : get_recording_directory localtime_utc 1600003700 "cam".toList
          StreamType.STREAM_MAIN
          = some "/home/oryza/Oryza/recordings/hi_quality/cam/2020/09/13/13".toList := by
        decide
      rw [es] at hs
      rw [et] at ht
      cases hs
      cases ht
      exact Or.inr (by decide)))
    (by decide)).2.1

/-! ## The seek coordinator -/

theorem seeks_of_append (a b : List BusAction) :
    seeks_of (a ++ b) = seeks_of a ++ seeks_of b := by
  induction a with
  | nil => rfl
  | cons x xs ih =>
    cases x with
    | seek cmd => simp [seeks_of, ih]
    | send_eos => simp [seeks_of, ih]

/-- A seek-params datum for which no seek is pending: absent, or with the flag cleared. -/
theorem on_bus_message_not_pending (gst_element_seek : SeekCommand → Bool)
    (params : Option SeekParams) (msg : GstMessage)
    (h : ∀ p, params = some p → p.seek_pending = false) :
    seeks_of (on_bus_message gst_element_seek params msg).actions = [] ∧
      (on_bus_message gst_element_seek params msg).params = params := by
  cases msg with
  | GST_MESSAGE_STATE_CHANGED src old new pend =>
    unfold on_bus_message
    simp only []
    split
    · cases params with
      | none => exact ⟨rfl, rfl⟩
      | some p =>
        have hp := h p rfl
        simp only [hp, Bool.false_eq_true, if_false]
        constructor <;> first | rfl | trivial
    · exact ⟨rfl, rfl⟩
  | GST_MESSAGE_ERROR => exact ⟨rfl, rfl⟩
  | GST_MESSAGE_SEGMENT_DONE => exact ⟨rfl, rfl⟩
  | GST_MESSAGE_EOS => exact ⟨rfl, rfl⟩
  | GST_MESSAGE_ASYNC_DONE => exact ⟨rfl, rfl⟩
  | GST_MESSAGE_OTHER => exact ⟨rfl, rfl⟩

theorem bus_watch_run_not_pending (gst_element_seek : SeekCommand → Bool)
    (msgs : List GstMessage) :
    ∀ params : Option SeekParams, (∀ p, params = some p → p.seek_pending = false) →
      seeks_of (bus_watch_run gst_element_seek params msgs).1 = [] := by
  induction msgs with
  | nil => intro params _; rfl
  | cons msg rest ih =>
    intro params h
    obtain ⟨h1, h2⟩ := on_bus_message_not_pending gst_element_seek params msg h
    unfold bus_watch_run
    simp only []
    split
    · rw [seeks_of_append, h1, h2, ih params h]
      rfl
    · exact h1

theorem on_bus_message_seeks_le_one (gst_element_seek : SeekCommand → Bool)
    (params : Option SeekParams) (msg : GstMessage) :
    (seeks_of (on_bus_message gst_element_seek params msg).actions).length ≤ 1 ∧
      (seeks_of (on_bus_message gst_element_seek params msg).actions ≠ [] →
        ∀ p, (on_bus_message gst_element_seek params msg).params = some p →
          p.seek_pending = false) := by
  cases msg with
  | GST_MESSAGE_STATE_CHANGED src old new pend =>
    unfold on_bus_message
    simp only []
    split
    · cases params with
      | none => exact ⟨by simp [seeks_of], fun h => absurd rfl h⟩
      | some p =>
        simp only []
        split
        · split
          · refine ⟨by simp [seeks_of], ?_⟩
            intro _ q hq
            cases hq
            rfl
          · exact ⟨by simp [seeks_of], fun h => absurd rfl h⟩
        · exact ⟨by simp [seeks_of], fun h => absurd rfl h⟩
    · exact ⟨by simp [seeks_of], fun h => absurd rfl h⟩
  | GST_MESSAGE_ERROR => exact ⟨by simp [on_bus_message, seeks_of], fun h => absurd rfl h⟩
  | GST_MESSAGE_SEGMENT_DONE =>
    exact ⟨by simp [on_bus_message, seeks_of], fun h => absurd rfl h⟩
  | GST_MESSAGE_EOS => exact ⟨by simp [on_bus_message, seeks_of], fun h => absurd rfl h⟩
  | GST_MESSAGE_ASYNC_DONE =>
    exact ⟨by simp [on_bus_message, seeks_of], fun h => absurd rfl h⟩
  | GST_MESSAGE_OTHER => exact ⟨by simp [on_bus_message, seeks_of], fun h => absurd rfl h⟩

theorem bus_watch_run_seeks_le_one (gst_element_seek : SeekCommand → Bool)
    (msgs : List GstMessage) :
    ∀ params : Option SeekParams,
      (seeks_of (bus_watch_run gst_element_seek params msgs).1).length ≤ 1 := by
  induction msgs with
  | nil => intro params; simp [bus_watch_run, seeks_of]
  | cons msg rest ih =>
    intro params
    obtain ⟨h1, h2⟩ := on_bus_message_seeks_le_one gst_element_seek params msg
    unfold bus_watch_run
    simp only []
    split
    · rw [seeks_of_append, List.length_append]
      by_cases hs : seeks_of (on_bus_message gst_element_seek params msg).actions = []
      · rw [hs]
        simpa using ih _
      · rw [bus_watch_run_not_pending gst_element_seek rest _ (h2 hs)]
        simpa using h1
    · exact h1

theorem bus_watch_run_cons (gst_element_seek : SeekCommand → Bool)
    (params : Option SeekParams) (msg : GstMessage) (rest : List GstMessage) :
    bus_watch_run gst_element_seek params (msg :: rest)
      = if (on_bus_message gst_element_seek params msg).keep_watching then
          ((on_bus_message gst_element_seek params msg).actions ++
              (bus_watch_run gst_element_seek
                (on_bus_message gst_element_seek params msg).params rest).1,
            (bus_watch_run gst_element_seek
              (on_bus_message gst_element_seek params msg).params rest).2)
        else ((on_bus_message gst_element_seek params msg).actions,
          (on_bus_message gst_element_seek params msg).params) := by
  rw [bus_watch_run]

theorem on_bus_message_inert (gst_element_seek : SeekCommand → Bool)
    (params : Option SeekParams) (msg : GstMessage)
    (h1 : is_pipeline_playing msg = false) (h2 : removes_watch msg = false) :
    on_bus_message gst_element_seek params msg
      = { keep_watching := true, params := params, actions := [], seek_logged := none } := by
  cases msg with
  | GST_MESSAGE_STATE_CHANGED src old new pend =>
    unfold on_bus_message
    simp only []
    rw [if_neg]
    intro hc
    simp [is_pipeline_playing, hc.1, hc.2] at h1
  | GST_MESSAGE_ERROR => rfl
  | GST_MESSAGE_SEGMENT_DONE => simp [removes_watch] at h2
  | GST_MESSAGE_EOS => simp [removes_watch] at h2
  | GST_MESSAGE_ASYNC_DONE => rfl
  | GST_MESSAGE_OTHER => rfl

theorem bus_watch_run_inert_prefix (gst_element_seek : SeekCommand → Bool)
    (params : Option SeekParams) (pre rest : List GstMessage)
    (h : ∀ m ∈ pre, is_pipeline_playing m = false ∧ removes_watch m = false) :
    bus_watch_run gst_element_seek params (pre ++ rest)
      = bus_watch_run gst_element_seek params rest := by
  induction pre with
  | nil => rfl
  | cons m pre ih =>
    have hm := h m (List.mem_cons_self _ _)
    simp only [List.cons_append]
    rw [bus_watch_run_cons, on_bus_message_inert gst_element_seek params m hm.1 hm.2]
    simp only [if_true, List.nil_append]
    rw [ih (fun x hx => h x (List.mem_cons_of_mem _ hx))]

/-- C15 as the claim states it, refuted: with an offset and a limit of 9000000000 seconds
each (a request 9000000000 seconds into a segment, for 9000000000 seconds), both in
nanoseconds, the stop position of the seek is not offset + limit = 18000000000000000000
but that sum in `gint64`, -446744073709551616. -/
theorem seek_stop_wraps_past_int64 :
    (on_bus_message (fun _ => true)
        (some { seek_offset := 9000000000000000000, duration_limit := 9000000000000000000,
                seek_pending := true })
        (GstMessage.GST_MESSAGE_STATE_CHANGED true GstState.GST_STATE_PAUSED
          GstState.GST_STATE_PLAYING GstState.GST_STATE_VOID_PENDING)).actions
      = [BusAction.seek
          { flags := { flush := true, accurate := true, segment := true },
            start_type := GstSeekType.GST_SEEK_TYPE_SET, start := 9000000000000000000,
            stop_type := GstSeekType.GST_SEEK_TYPE_SET,
            stop := -446744073709551616 }] ∧
    (9000000000000000000 : Int) + 9000000000000000000 ≠ -446744073709551616 := by
  constructor <;> decide

/-- C15, amended: when the pipeline itself reaches `PLAYING` with a pending seek,
`on_bus_message` issues the seek fixed by (offset, limit): both positive gives
start = offset and stop = offset + limit computed in signed 64-bit arithmetic (the plain
sum whenever that is below 2^63) with flush, accurate and segment; offset positive and limit not positive gives start = offset
with no stop position and flush and accurate only; offset not positive and limit positive
gives start = 0, stop = limit with flush, accurate and segment; neither positive gives no
seek at all. -/
theorem playing_seek_by_offset_and_limit (gst_element_seek : SeekCommand → Bool)
    (p : SeekParams) (old_state pending : GstState) (hpend : p.seek_pending = true) :
    (0 < p.seek_offset → 0 < p.duration_limit →
      (on_bus_message gst_element_seek (some p)
          (GstMessage.GST_MESSAGE_STATE_CHANGED true old_state GstState.GST_STATE_PLAYING
            pending)).actions
        = [BusAction.seek
            { flags := { flush := true, accurate := true, segment := true },
              start_type := GstSeekType.GST_SEEK_TYPE_SET, start := p.seek_offset,
              stop_type := GstSeekType.GST_SEEK_TYPE_SET,
              stop := wrap64 (p.seek_offset + p.duration_limit) }] ∧
      (p.seek_offset + p.duration_limit < 2 ^ 63 →
        wrap64 (p.seek_offset + p.duration_limit) = p.seek_offset + p.duration_limit)) ∧
    (0 < p.seek_offset → p.duration_limit ≤ 0 →
      (on_bus_message gst_element_seek (some p)
          (GstMessage.GST_MESSAGE_STATE_CHANGED true old_state GstState.GST_STATE_PLAYING
            pending)).actions
        = [BusAction.seek
            { flags := { flush := true, accurate := true, segment := false },
              start_type := GstSeekType.GST_SEEK_TYPE_SET, start := p.seek_offset,
              stop_type := GstSeekType.GST_SEEK_TYPE_NONE, stop := GST_CLOCK_TIME_NONE }]) ∧
    (p.seek_offset ≤ 0 → 0 < p.duration_limit →
      (on_bus_message gst_element_seek (some p)
          (GstMessage.GST_MESSAGE_STATE_CHANGED true old_state GstState.GST_STATE_PLAYING
            pending)).actions
        = [BusAction.seek
            { flags := { flush := true, accurate := true, segment := true },
              start_type := GstSeekType.GST_SEEK_TYPE_SET, start := 0,
              stop_type := GstSeekType.GST_SEEK_TYPE_SET, stop := p.duration_limit }]) ∧
    (p.seek_offset ≤ 0 → p.duration_limit ≤ 0 →
      (on_bus_message gst_element_seek (some p)
          (GstMessage.GST_MESSAGE_STATE_CHANGED true old_state GstState.GST_STATE_PLAYING
            pending)).actions = []) := by
  refine ⟨?_, ?_, ?_, ?_⟩
  · intro ho hl
    refine ⟨?_, fun hfit => wrap64_of_range _ (by omega) hfit⟩
    simp [on_bus_message, hpend, seek_for, ho, hl]
  · intro ho hl
    have hl2 : ¬ p.duration_limit > 0 := by omega
    simp [on_bus_message, hpend, seek_for, ho, hl2]
  · intro ho hl
    have ho2 : ¬ p.seek_offset > 0 := by omega
    simp [on_bus_message, hpend, seek_for, ho2, hl]
  · intro ho hl
    have ho2 : ¬ p.seek_offset > 0 := by omega
    have hl2 : ¬ p.duration_limit > 0 := by omega
    simp [on_bus_message, hpend, seek_for, ho2, hl2]

/-- C15, at an offset of 30 seconds with a limit of 150 seconds. -/
theorem playing_seek_by_offset_and_limit_witness :
    (on_bus_message (fun _ => true)
        (some { seek_offset := 30000000000, duration_limit := 150000000000,
                seek_pending := true })
        (GstMessage.GST_MESSAGE_STATE_CHANGED true GstState.GST_STATE_PAUSED
          GstState.GST_STATE_PLAYING GstState.GST_STATE_VOID_PENDING)).actions
      = [BusAction.seek
          { flags := { flush := true, accurate := true, segment := true },
            start_type := GstSeekType.GST_SEEK_TYPE_SET, start := 30000000000,
            stop_type := GstSeekType.GST_SEEK_TYPE_SET,
            stop := wrap64 (30000000000 + 150000000000) }] :=
  ((playing_seek_by_offset_and_limit (fun _ => true)
    { seek_offset := 30000000000, duration_limit := 150000000000, seek_pending := true }
    GstState.GST_STATE_PAUSED GstState.GST_STATE_VOID_PENDING rfl).1
    (by decide) (by decide)).1

/-- C16: for every sequence of bus messages the coordinator issues at most one seek in
total, from whatever seek parameters it starts.  With an offset of 30 seconds and no
duration limit, and the first state change of the pipeline itself to `PLAYING` delivered
while the watch is installed (no segment-done or end-of-stream message before it), no seek
is issued before that message, exactly one open-ended seek to 30 seconds is issued at it,
and none afterwards.  With offset 0 and limit 0 no seek is issued at all. -/
theorem at_most_one_seek (gst_element_seek : SeekCommand → Bool) :
    (∀ (params : Option SeekParams) (msgs : List GstMessage),
      (seeks_of (bus_watch_run gst_element_seek params msgs).1).length ≤ 1) ∧
    (∀ (factory_params : Option SeekParams) (has_pipeline has_bus : Bool)
        (msgs : List GstMessage),
      (seeks_of (seek_coordinator gst_element_seek factory_params has_pipeline has_bus
        msgs)).length ≤ 1) ∧
    (∀ (pending0 : Bool) (pre post : List GstMessage) (old_state pending : GstState),
      (∀ m ∈ pre, is_pipeline_playing m = false ∧ removes_watch m = false) →
      seeks_of (seek_coordinator gst_element_seek
          (some { seek_offset := 30 * 1000000000, duration_limit := 0,
                  seek_pending := pending0 }) true true pre) = [] ∧
      seeks_of (seek_coordinator gst_element_seek
          (some { seek_offset := 30 * 1000000000, duration_limit := 0,
                  seek_pending := pending0 }) true true
          (pre ++ [GstMessage.GST_MESSAGE_STATE_CHANGED true old_state
            GstState.GST_STATE_PLAYING pending]))
        = [{ flags := { flush := true, accurate := true, segment := false },
             start_type := GstSeekType.GST_SEEK_TYPE_SET, start := 30 * 1000000000,
             stop_type := GstSeekType.GST_SEEK_TYPE_NONE, stop := GST_CLOCK_TIME_NONE }] ∧
      seeks_of (seek_coordinator gst_element_seek
          (some { seek_offset := 30 * 1000000000, duration_limit := 0,
                  seek_pending := pending0 }) true true
          (pre ++ GstMessage.GST_MESSAGE_STATE_CHANGED true old_state
            GstState.GST_STATE_PLAYING pending :: post))
        = [{ flags := { flush := true, accurate := true, segment := false },
             start_type := GstSeekType.GST_SEEK_TYPE_SET, start := 30 * 1000000000,
             stop_type := GstSeekType.GST_SEEK_TYPE_NONE, stop := GST_CLOCK_TIME_NONE }]) ∧
    (∀ (pending0 : Bool) (has_pipeline has_bus : Bool) (msgs : List GstMessage),
      seek_coordinator gst_element_seek
          (some { seek_offset := 0, duration_limit := 0, seek_pending := pending0 })
          has_pipeline has_bus msgs = [] ∧
      seeks_of (bus_watch_run gst_element_seek
          (some { seek_offset := 0, duration_limit := 0, seek_pending := pending0 })
          msgs).1 = []) := by
  refine ⟨?_, ?_, ?_, ?_⟩
  · intro params msgs
    exact bus_watch_run_seeks_le_one gst_element_seek msgs params
  · intro factory_params has_pipeline has_bus msgs
    unfold seek_coordinator
    simp only []
    split
    · split
      · exact bus_watch_run_seeks_le_one gst_element_seek msgs _
      · simp [seeks_of]
    · simp [seeks_of]
  · intro pending0 pre post old_state pending hpre
    have hrun : ∀ msgs, seek_coordinator gst_element_seek
          (some { seek_offset := 30 * 1000000000, duration_limit := 0,
                  seek_pending := pending0 }) true true msgs
        = (bus_watch_run gst_element_seek
            (some { seek_offset := 30 * 1000000000, duration_limit := 0,
                    seek_pending := true }) msgs).1 := by
      intro msgs
      simp [seek_coordinator, media_configure_cb, on_media_prepared]
    have hplay : ∀ rest, seeks_of (bus_watch_run gst_element_seek
          (some { seek_offset := 30 * 1000000000, duration_limit := 0,
                  seek_pending := true })
          (GstMessage.GST_MESSAGE_STATE_CHANGED true old_state
            GstState.GST_STATE_PLAYING pending :: rest)).1
        = [{ flags := { flush := true, accurate := true, segment := false },
             start_type := GstSeekType.GST_SEEK_TYPE_SET, start := 30 * 1000000000,
             stop_type := GstSeekType.GST_SEEK_TYPE_NONE, stop := GST_CLOCK_TIME_NONE }] := by
      intro rest
      rw [bus_watch_run_cons]
      have hm : on_bus_message gst_element_seek
          (some { seek_offset := 30 * 1000000000, duration_limit := 0,
                  seek_pending := true })
          (GstMessage.GST_MESSAGE_STATE_CHANGED true old_state
            GstState.GST_STATE_PLAYING pending)
          = { keep_watching := true,
              params := some { seek_offset := 30 * 1000000000, duration_limit := 0,
                               seek_pending := false },
              actions := [BusAction.seek
                { flags := { flush := true, accurate := true, segment := false },
                  start_type := GstSeekType.GST_SEEK_TYPE_SET, start := 30 * 1000000000,
                  stop_type := GstSeekType.GST_SEEK_TYPE_NONE,
                  stop := GST_CLOCK_TIME_NONE }],
              seek_logged := some (gst_element_seek
                { flags := { flush := true, accurate := true, segment := false },
                  start_type := GstSeekType.GST_SEEK_TYPE_SET, start := 30 * 1000000000,
                  stop_type := GstSeekType.GST_SEEK_TYPE_NONE,
                  stop := GST_CLOCK_TIME_NONE }) } := by
        simp [on_bus_message, seek_for]
      rw [hm]
      simp only [if_true]
      rw [seeks_of_append, bus_watch_run_not_pending gst_element_seek rest _
        (by intro q hq; cases hq; rfl)]
      rfl
    refine ⟨?_, ?_, ?_⟩
    · rw [hrun]
      have := bus_watch_run_inert_prefix gst_element_seek
        (some { seek_offset := 30 * 1000000000, duration_limit := 0, seek_pending := true })
        pre [] hpre
      rw [List.append_nil] at this
      rw [this]
      rfl
    · rw [hrun, bus_watch_run_inert_prefix gst_element_seek _ pre _ hpre]
      exact hplay []
    · rw [hrun, bus_watch_run_inert_prefix gst_element_seek _ pre _ hpre]
      exact hplay post
  · intro pending0 has_pipeline has_bus msgs
    constructor
    · simp [seek_coordinator, media_configure_cb]
    · cases pending0 with
      | false =>
        exact bus_watch_run_not_pending gst_element_seek msgs _
          (by intro q hq; cases hq; rfl)
      | true =>
        induction msgs with
        | nil => rfl
        | cons m rest ih =>
          rw [bus_watch_run_cons]
          by_cases hp : is_pipeline_playing m = true
          · cases m with
            | GST_MESSAGE_STATE_CHANGED src old new pend =>
              simp only [is_pipeline_playing, Bool.and_eq_true, decide_eq_true_eq] at hp
              have hm : on_bus_message gst_element_seek
                  (some { seek_offset := 0, duration_limit := 0, seek_pending := true })
                  (GstMessage.GST_MESSAGE_STATE_CHANGED src old new pend)
                  = { keep_watching := true,
                      params := some { seek_offset := 0, duration_limit := 0,
                                       seek_pending := false },
                      actions := [], seek_logged := some false } := by
                simp [on_bus_message, seek_for, hp.1, hp.2]
              rw [hm]
              simp only [if_true, List.nil_append]
              exact bus_watch_run_not_pending gst_element_seek rest _
                (by intro q hq; cases hq; rfl)
            | _ => simp [is_pipeline_playing] at hp
          · by_cases hr : removes_watch m = true
            · cases m with
              | GST_MESSAGE_SEGMENT_DONE => rfl
              | GST_MESSAGE_EOS => rfl
              | _ => simp [removes_watch] at hr
            · rw [on_bus_message_inert gst_element_seek _ m (by simpa using hp)
                (by simpa using hr)]
              simp only [if_true, List.nil_append]
              exact ih

/-- C16, at a pipeline that goes to `PAUSED`, reports async-done, reaches `PLAYING` and
later reports `PLAYING` once more. -/
theorem at_most_one_seek_witness :
    seeks_of (seek_coordinator (fun _ => true)
        (some { seek_offset := 30 * 1000000000, duration_limit := 0, seek_pending := false })
        true true
        ([GstMessage.GST_MESSAGE_STATE_CHANGED true GstState.GST_STATE_READY
            GstState.GST_STATE_PAUSED GstState.GST_STATE_PLAYING,
          GstMessage.GST_MESSAGE_ASYNC_DONE] ++
          GstMessage.GST_MESSAGE_STATE_CHANGED true GstState.GST_STATE_PAUSED
            GstState.GST_STATE_PLAYING GstState.GST_STATE_VOID_PENDING ::
          [GstMessage.GST_MESSAGE_STATE_CHANGED true GstState.GST_STATE_PAUSED
            GstState.GST_STATE_PLAYING GstState.GST_STATE_VOID_PENDING,
           GstMessage.GST_MESSAGE_EOS]))
      = [{ flags := { flush := true, accurate := true, segment := false },
           start_type := GstSeekType.GST_SEEK_TYPE_SET, start := 30 * 1000000000,
           stop_type := GstSeekType.GST_SEEK_TYPE_NONE, stop := GST_CLOCK_TIME_NONE }] :=
  ((at_most_one_seek (fun _ => true)).2.2.1 false
    [GstMessage.GST_MESSAGE_STATE_CHANGED true GstState.GST_STATE_READY
        GstState.GST_STATE_PAUSED GstState.GST_STATE_PLAYING,
      GstMessage.GST_MESSAGE_ASYNC_DONE]
    [GstMessage.GST_MESSAGE_STATE_CHANGED true GstState.GST_STATE_PAUSED
        GstState.GST_STATE_PLAYING GstState.GST_STATE_VOID_PENDING,
      GstMessage.GST_MESSAGE_EOS]
    GstState.GST_STATE_PAUSED GstState.GST_STATE_VOID_PENDING (by decide)).2.2

/-- C17: in every state of the seek parameters, a segment-done message makes
`on_bus_message` send exactly one end-of-stream event and no seek, leave the seek
parameters as they are and return `FALSE`, which removes the watch: whatever messages
follow, the watch sends nothing more, so no seek is issued for them. -/
theorem segment_done_sends_one_eos (gst_element_seek : SeekCommand → Bool)
    (params : Option SeekParams) (rest : List GstMessage) :
    on_bus_message gst_element_seek params GstMessage.GST_MESSAGE_SEGMENT_DONE
      = { keep_watching := false, params := params, actions := [BusAction.send_eos],
          seek_logged := none } ∧
    eos_count (on_bus_message gst_element_seek params
      GstMessage.GST_MESSAGE_SEGMENT_DONE).actions = 1 ∧
    bus_watch_run gst_element_seek params (GstMessage.GST_MESSAGE_SEGMENT_DONE :: rest)
      = ([BusAction.send_eos], params) ∧
    seeks_of (bus_watch_run gst_element_seek params
      (GstMessage.GST_MESSAGE_SEGMENT_DONE :: rest)).1 = [] := by
  have h : bus_watch_run gst_element_seek params
      (GstMessage.GST_MESSAGE_SEGMENT_DONE :: rest) = ([BusAction.send_eos], params) := by
    rw [bus_watch_run_cons]
    rfl
  refine ⟨rfl, rfl, h, ?_⟩
  rw [h]
  rfl

/-- C18 as the claim states it, refuted: on a pipeline error message `on_bus_message`
returns `TRUE`, which keeps the watch installed. -/
theorem error_message_keeps_watch :
    (on_bus_message (fun _ => true)
        (some { seek_offset := 30000000000, duration_limit := 0, seek_pending := true })
        GstMessage.GST_MESSAGE_ERROR).keep_watching = true := by
  decide

/-- C18, amended: on an end-of-stream message `on_bus_message` returns `FALSE` (the watch
is removed); on a pipeline error message it returns `TRUE` (the watch stays); on both it
issues no seek and no end-of-stream event and leaves the seek parameters as they are. -/
theorem eos_stops_and_error_keeps_watch (gst_element_seek : SeekCommand → Bool)
    (params : Option SeekParams) :
    on_bus_message gst_element_seek params GstMessage.GST_MESSAGE_EOS
      = { keep_watching := false, params := params, actions := [], seek_logged := none } ∧
    on_bus_message gst_element_seek params GstMessage.GST_MESSAGE_ERROR
      = { keep_watching := true, params := params, actions := [], seek_logged := none } ∧
    seeks_of (on_bus_message gst_element_seek params GstMessage.GST_MESSAGE_EOS).actions
      = [] ∧
    eos_count (on_bus_message gst_element_seek params GstMessage.GST_MESSAGE_EOS).actions
      = 0 ∧
    seeks_of (on_bus_message gst_element_seek params GstMessage.GST_MESSAGE_ERROR).actions
      = [] ∧
    eos_count (on_bus_message gst_element_seek params GstMessage.GST_MESSAGE_ERROR).actions
      = 0 :=
  ⟨rfl, rfl, rfl, rfl, rfl, rfl⟩

theorem on_bus_message_engine_irrelevant (seek1 seek2 : SeekCommand → Bool)
    (params : Option SeekParams) (msg : GstMessage) :
    (on_bus_message seek1 params msg).keep_watching
        = (on_bus_message seek2 params msg).keep_watching ∧
      (on_bus_message seek1 params msg).params = (on_bus_message seek2 params msg).params ∧
      (on_bus_message seek1 params msg).actions
        = (on_bus_message seek2 params msg).actions := by
  cases msg with
  | GST_MESSAGE_STATE_CHANGED src old new pend =>
    unfold on_bus_message
    simp only []
    split
    · cases params with
      | none => exact ⟨rfl, rfl, rfl⟩
      | some p =>
        simp only []
        split
        · split <;> exact ⟨rfl, rfl, rfl⟩
        · exact ⟨rfl, rfl, rfl⟩
    · exact ⟨rfl, rfl, rfl⟩
  | GST_MESSAGE_ERROR => exact ⟨rfl, rfl, rfl⟩
  | GST_MESSAGE_SEGMENT_DONE => exact ⟨rfl, rfl, rfl⟩
  | GST_MESSAGE_EOS => exact ⟨rfl, rfl, rfl⟩
  | GST_MESSAGE_ASYNC_DONE => exact ⟨rfl, rfl, rfl⟩
  | GST_MESSAGE_OTHER => exact ⟨rfl, rfl, rfl⟩

theorem on_bus_message_playing_pending (gst_element_seek : SeekCommand → Bool)
    (p : SeekParams) (old_state pending : GstState) (hpend : p.seek_pending = true) :
    (on_bus_message gst_element_seek (some p)
        (GstMessage.GST_MESSAGE_STATE_CHANGED true old_state GstState.GST_STATE_PLAYING
          pending)).keep_watching = true ∧
    (on_bus_message gst_element_seek (some p)
        (GstMessage.GST_MESSAGE_STATE_CHANGED true old_state GstState.GST_STATE_PLAYING
          pending)).params = some { p with seek_pending := false } ∧
    eos_count (on_bus_message gst_element_seek (some p)
        (GstMessage.GST_MESSAGE_STATE_CHANGED true old_state GstState.GST_STATE_PLAYING
          pending)).actions = 0 ∧
    ((∀ cmd, gst_element_seek cmd = false) →
      (on_bus_message gst_element_seek (some p)
        (GstMessage.GST_MESSAGE_STATE_CHANGED true old_state GstState.GST_STATE_PLAYING
          pending)).seek_logged = some false) := by
  unfold on_bus_message
  simp only [hpend, and_self, if_true]
  cases seek_for p.seek_offset p.duration_limit with
  | none => exact ⟨rfl, rfl, rfl, fun _ => rfl⟩
  | some cmd =>
    refine ⟨rfl, rfl, rfl, ?_⟩
    intro h
    simp only [h]

/-- C19: when the engine rejects the seek that `on_bus_message` issues as the pipeline
reaches `PLAYING` with a pending seek, the handler still returns `TRUE` (the watch stays),
sends no end-of-stream event, leaves the pending flag cleared, and no later message leads
to another seek; its return value, the seek parameters it leaves and what it sends are the
same as with an engine that accepts the seek; only the "Seek FAILED" line differs. -/
theorem rejected_seek_is_not_retried (reject accept : SeekCommand → Bool)
    (p : SeekParams) (old_state pending : GstState) (rest : List GstMessage)
    (hpend : p.seek_pending = true) (hrej : ∀ cmd, reject cmd = false) :
    (on_bus_message reject (some p)
        (GstMessage.GST_MESSAGE_STATE_CHANGED true old_state GstState.GST_STATE_PLAYING
          pending)).keep_watching = true ∧
    eos_count (on_bus_message reject (some p)
        (GstMessage.GST_MESSAGE_STATE_CHANGED true old_state GstState.GST_STATE_PLAYING
          pending)).actions = 0 ∧
    (on_bus_message reject (some p)
        (GstMessage.GST_MESSAGE_STATE_CHANGED true old_state GstState.GST_STATE_PLAYING
          pending)).params = some { p with seek_pending := false } ∧
    seeks_of (bus_watch_run reject
        (on_bus_message reject (some p)
          (GstMessage.GST_MESSAGE_STATE_CHANGED true old_state GstState.GST_STATE_PLAYING
            pending)).params rest).1 = [] ∧
    (on_bus_message reject (some p)
        (GstMessage.GST_MESSAGE_STATE_CHANGED true old_state GstState.GST_STATE_PLAYING
          pending)).seek_logged = some false ∧
    (on_bus_message reject (some p)
        (GstMessage.GST_MESSAGE_STATE_CHANGED true old_state GstState.GST_STATE_PLAYING
          pending)).keep_watching
      = (on_bus_message accept (some p)
        (GstMessage.GST_MESSAGE_STATE_CHANGED true old_state GstState.GST_STATE_PLAYING
          pending)).keep_watching ∧
    (on_bus_message reject (some p)
        (GstMessage.GST_MESSAGE_STATE_CHANGED true old_state GstState.GST_STATE_PLAYING
          pending)).params
      = (on_bus_message accept (some p)
        (GstMessage.GST_MESSAGE_STATE_CHANGED true old_state GstState.GST_STATE_PLAYING
          pending)).params ∧
    (on_bus_message reject (some p)
        (GstMessage.GST_MESSAGE_STATE_CHANGED true old_state GstState.GST_STATE_PLAYING
          pending)).actions
      = (on_bus_message accept (some p)
        (GstMessage.GST_MESSAGE_STATE_CHANGED true old_state GstState.GST_STATE_PLAYING
          pending)).actions := by
  obtain ⟨h1, h2, h3, h4⟩ := on_bus_message_playing_pending reject p old_state pending hpend
  obtain ⟨e1, e2, e3⟩ := on_bus_message_engine_irrelevant reject accept (some p)
    (GstMessage.GST_MESSAGE_STATE_CHANGED true old_state GstState.GST_STATE_PLAYING pending)
  refine ⟨h1, h3, h2, ?_, h4 hrej, e1, e2, e3⟩
  rw [h2]
  exact bus_watch_run_not_pending reject rest _ (by intro q hq; cases hq; rfl)

/-- C19, at a rejected open-ended seek to 30 seconds followed by a second `PLAYING`
message. -/
theorem rejected_seek_is_not_retried_witness :
    seeks_of (bus_watch_run (fun _ => false)
        (on_bus_message (fun _ => false)
          (some { seek_offset := 30000000000, duration_limit := 0, seek_pending := true })
          (GstMessage.GST_MESSAGE_STATE_CHANGED true GstState.GST_STATE_PAUSED
            GstState.GST_STATE_PLAYING GstState.GST_STATE_VOID_PENDING)).params
        [GstMessage.GST_MESSAGE_STATE_CHANGED true GstState.GST_STATE_PAUSED
          GstState.GST_STATE_PLAYING GstState.GST_STATE_VOID_PENDING]).1 = [] :=
  (rejected_seek_is_not_retried (fun _ => false) (fun _ => true)
    { seek_offset := 30000000000, duration_limit := 0, seek_pending := true }
    GstState.GST_STATE_PAUSED GstState.GST_STATE_VOID_PENDING
    [GstMessage.GST_MESSAGE_STATE_CHANGED true GstState.GST_STATE_PAUSED
      GstState.GST_STATE_PLAYING GstState.GST_STATE_VOID_PENDING]
    rfl (fun _ => rfl)).2.2.2.1

/-! ## Rotation failures -/

theorem create_recording_pipeline_failed (b : PipelineBuild) (rec : RecordingPipeline)
    (h : (create_recording_pipeline b rec).1 = false) :
    (create_recording_pipeline b rec).2.pipeline = none ∧
      (create_recording_pipeline b rec).2.is_running = rec.is_running := by
  unfold create_recording_pipeline at h ⊢
  cases hp : b.pipeline with
  | none => exact ⟨rfl, rfl⟩
  | some pipeline =>
    simp only [hp] at h ⊢
    split
    · exact ⟨rfl, rfl⟩
    · split
      · exact ⟨rfl, rfl⟩
      · rename_i h1 h2
        rw [if_neg h1, if_neg h2] at h
        cases h

theorem create_recording_pipeline_ok (b : PipelineBuild) (rec : RecordingPipeline)
    (h : (create_recording_pipeline b rec).1 = true) :
    (create_recording_pipeline b rec).2.pipeline = b.pipeline ∧ b.pipeline ≠ none ∧
      (create_recording_pipeline b rec).2.is_running = rec.is_running := by
  unfold create_recording_pipeline at h ⊢
  cases hp : b.pipeline with
  | none =>
    simp only [hp] at h
    cases h
  | some pipeline =>
    simp only [hp] at h ⊢
    split
    · rename_i h1
      rw [if_pos h1] at h
      cases h
    · split
      · rename_i h1 h2
        rw [if_neg h1, if_pos h2] at h
        cases h
      · exact ⟨rfl, (by intro e; cases e), rfl⟩

theorem rotate_of_stopped (env : RotationEnv) (rec : RecordingPipeline)
    (h : rec.is_running = false) :
    rotate_recording_pipeline env rec = (rec, G_SOURCE_REMOVE) := by
  unfold rotate_recording_pipeline
  rw [if_pos (by simp [h])]

/-- C20: for a running session with a pipeline, each of the three failure outcomes of
`rotate_recording_pipeline` (the new pipeline cannot be created, the request to start it
fails, the wait for it to play fails) leaves `is_running = FALSE` and `pipeline = NULL` and
returns `G_SOURCE_REMOVE`; the timer then never runs the callback again, and a further call
would change nothing; in every other outcome `is_running` stays `TRUE`, the new pipeline is
kept and the callback returns `G_SOURCE_CONTINUE`. -/
theorem rotation_failure_stops_session (env : RotationEnv) (rec : RecordingPipeline)
    (later : List RotationEnv) (hrun : rec.is_running = true) (hpipe : rec.pipeline ≠ none) :
    (((create_recording_pipeline env.build { rec with pipeline := none }).1 = false ∨
        env.start = GstStateChangeReturn.GST_STATE_CHANGE_FAILURE ∨
        env.start_wait = GstStateChangeReturn.GST_STATE_CHANGE_FAILURE) →
      (rotate_recording_pipeline env rec).1.is_running = false ∧
      (rotate_recording_pipeline env rec).1.pipeline = none ∧
      (rotate_recording_pipeline env rec).2 = G_SOURCE_REMOVE ∧
      rotation_timer_run (env :: later) rec = ((rotate_recording_pipeline env rec).1, 1) ∧
      (∀ env2, rotate_recording_pipeline env2 (rotate_recording_pipeline env rec).1
        = ((rotate_recording_pipeline env rec).1, G_SOURCE_REMOVE))) ∧
    (((create_recording_pipeline env.build { rec with pipeline := none }).1 = true ∧
        env.start ≠ GstStateChangeReturn.GST_STATE_CHANGE_FAILURE ∧
        env.start_wait ≠ GstStateChangeReturn.GST_STATE_CHANGE_FAILURE) →
      (rotate_recording_pipeline env rec).1.is_running = true ∧
      (rotate_recording_pipeline env rec).1.pipeline = env.build.pipeline ∧
      env.build.pipeline ≠ none ∧
      (rotate_recording_pipeline env rec).2 = G_SOURCE_CONTINUE) := by
  have hguard : ¬ ((!rec.is_running || rec.pipeline.isNone) = true) := by
    cases hp : rec.pipeline with
    | none => exact absurd hp hpipe
    | some x => simp [hrun]
  constructor
  · intro hfail
    have hres : (rotate_recording_pipeline env rec).1.is_running = false ∧
        (rotate_recording_pipeline env rec).1.pipeline = none ∧
        (rotate_recording_pipeline env rec).2 = G_SOURCE_REMOVE := by
      unfold rotate_recording_pipeline
      rw [if_neg hguard]
      simp only []
      by_cases hc : (create_recording_pipeline env.build { rec with pipeline := none }).1 = true
      · have hn : ¬ ((!(create_recording_pipeline env.build
            { rec with pipeline := none }).1) = true) := by simp [hc]
        rw [if_neg hn]
        by_cases hs : env.start = GstStateChangeReturn.GST_STATE_CHANGE_FAILURE
        · rw [if_pos hs]
          exact ⟨rfl, rfl, rfl⟩
        · rw [if_neg hs]
          by_cases hw : env.start_wait = GstStateChangeReturn.GST_STATE_CHANGE_FAILURE
          · rw [if_pos hw]
            exact ⟨rfl, rfl, rfl⟩
          · rcases hfail with h1 | h1 | h1
            · rw [hc] at h1; cases h1
            · exact absurd h1 hs
            · exact absurd h1 hw
      · have hc2 : (create_recording_pipeline env.build { rec with pipeline := none }).1
            = false := by simpa using hc
        have hy : ((!(create_recording_pipeline env.build
            { rec with pipeline := none }).1) = true) := by simp [hc2]
        rw [if_pos hy]
        exact ⟨rfl, (create_recording_pipeline_failed env.build _ hc2).1, rfl⟩
    refine ⟨hres.1, hres.2.1, hres.2.2, ?_, ?_⟩
    · unfold rotation_timer_run
      simp only []
      rw [if_neg (by rw [hres.2.2]; decide)]
    · intro env2
      exact rotate_of_stopped env2 _ hres.1
  · rintro ⟨hc, hs, hw⟩
    obtain ⟨h1, h2, h3⟩ := create_recording_pipeline_ok env.build _ hc
    unfold rotate_recording_pipeline
    rw [if_neg hguard]
    simp only []
    have hn : ¬ ((!(create_recording_pipeline env.build
        { rec with pipeline := none }).1) = true) := by simp [hc]
    rw [if_neg hn, if_neg hs, if_neg hw]
    exact ⟨by rw [h3]; exact hrun, h1, h2, rfl⟩

/-- C20, at a rotation whose new pipeline is built but fails to start, with a further
timer expiry that would succeed. -/
theorem rotation_failure_stops_session_witness :
    rotation_timer_run
        [{ old_stop := GstStateChangeReturn.GST_STATE_CHANGE_SUCCESS,
           old_stop_wait := GstStateChangeReturn.GST_STATE_CHANGE_SUCCESS,
           build := { pipeline := some 10, source := some 11, depay := some 12,
                      parser := some 13, queue := some 14, muxer := some 15,
                      filesink := some 16, link_ok := true },
           start := GstStateChangeReturn.GST_STATE_CHANGE_FAILURE,
           start_wait := GstStateChangeReturn.GST_STATE_CHANGE_SUCCESS },
         { old_stop := GstStateChangeReturn.GST_STATE_CHANGE_SUCCESS,
           old_stop_wait := GstStateChangeReturn.GST_STATE_CHANGE_SUCCESS,
           build := { pipeline := some 20, source := some 21, depay := some 22,
                      parser := some 23, queue := some 24, muxer := some 25,
                      filesink := some 26, link_ok := true },
           start := GstStateChangeReturn.GST_STATE_CHANGE_SUCCESS,
           start_wait := GstStateChangeReturn.GST_STATE_CHANGE_SUCCESS }]
        { camera_name := "cam".toList, rtsp_url := "rtsp://m".toList,
          stream_type := StreamType.STREAM_MAIN, pipeline := some 1, source := some 2,
          depay := some 3, parser := some 4, tee := some 5, splitmux := some 6,
          is_h265 := false, is_running := true, thread := some 1, loop := some 1 }
      = ({ camera_name := "cam".toList, rtsp_url := "rtsp://m".toList,
           stream_type := StreamType.STREAM_MAIN, pipeline := none, source := some 11,
           depay := some 12, parser := some 13, tee := some 15, splitmux := some 16,
           is_h265 := false, is_running := false, thread := some 1, loop := some 1 }, 1) :=
  ((rotation_failure_stops_session _ _ _ rfl (by decide)).1 (Or.inr (Or.inl rfl))).2.2.2.1

/-! ## Writer and reader paths -/

/-- C30: for every camera name and stream kind, the directory the recorder writes to,
at every time for which `localtime` returns a result, is the root the resolver scans for
that camera and stream kind, `/home/oryza/Oryza/recordings/<quality>/<camera>`, followed
by `/YYYY/MM/DD/HH` as `printf` writes the four `int` fields (there is no directory when
`localtime` returns `NULL`); and the roots of `STREAM_MAIN` and `STREAM_SUB` of one camera
are distinct, neither being a prefix of the other. -/
theorem writer_and_reader_roots_agree (localtime : Int → Option Tm) (now : Int)
    (camera_name : CStr) (stream_type : StreamType) :
    get_recording_directory localtime now camera_name stream_type
      = Option.map
          (fun tm : Tm =>
            playback_base_dir camera_name stream_type ++
              ('/' :: printf_0d 4 (wrap32 (tm.tm_year + 1900)) ++
               '/' :: printf_0d 2 (wrap32 (tm.tm_mon + 1)) ++
               '/' :: printf_0d 2 tm.tm_mday ++
               '/' :: printf_0d 2 tm.tm_hour))
          (localtime now) ∧
    playback_base_dir camera_name stream_type
      = "/home/oryza/Oryza/recordings/".toList ++
          (match stream_type with
            | StreamType.STREAM_MAIN => "hi_quality".toList
            | StreamType.STREAM_SUB => "low_quality".toList) ++ '/' :: camera_name ∧
    playback_base_dir camera_name StreamType.STREAM_MAIN
      ≠ playback_base_dir camera_name StreamType.STREAM_SUB ∧
    ¬ (playback_base_dir camera_name StreamType.STREAM_MAIN
        <+: playback_base_dir camera_name StreamType.STREAM_SUB) ∧
    ¬ (playback_base_dir camera_name StreamType.STREAM_SUB
        <+: playback_base_dir camera_name StreamType.STREAM_MAIN) := by
  have hpre : ∀ (a b : CStr), ¬ ("/home/oryza/Oryza/recordings/hi_quality".toList ++ a
      <+: "/home/oryza/Oryza/recordings/low_quality".toList ++ b) := by
    intro a b h
    have h2 := List.prefix_iff_eq_take.mp h
    have h3 := congrArg (fun l => l.get? 29) h2
    simp [List.get?] at h3
  have hpre2 : ∀ (a b : CStr), ¬ ("/home/oryza/Oryza/recordings/low_quality".toList ++ a
      <+: "/home/oryza/Oryza/recordings/hi_quality".toList ++ b) := by
    intro a b h
    have h2 := List.prefix_iff_eq_take.mp h
    have h3 := congrArg (fun l => l.get? 29) h2
    simp [List.get?] at h3
  have e1 : playback_base_dir camera_name StreamType.STREAM_MAIN
      = "/home/oryza/Oryza/recordings/hi_quality".toList ++ '/' :: camera_name := by
    simp [playback_base_dir]
  have e2 : playback_base_dir camera_name StreamType.STREAM_SUB
      = "/home/oryza/Oryza/recordings/low_quality".toList ++ '/' :: camera_name := by
    simp [playback_base_dir]
  refine ⟨?_, ?_, ?_, ?_, ?_⟩
  · unfold get_recording_directory
    cases localtime now with
    | none => rfl
    | some tm =>
      cases stream_type <;>
        simp [playback_base_dir, RECORD_BASE_PATH, RECORD_HI_QUALITY, RECORD_LOW_QUALITY]
  · cases stream_type <;> simp [playback_base_dir]
  · intro h
    rw [e1, e2] at h
    apply hpre ('/' :: camera_name) ('/' :: camera_name)
    rw [h]
  · rw [e1, e2]; exact hpre _ _
  · rw [e1, e2]; exact hpre2 _ _

/-! ## The old pipeline's stop and the start of a session -/

/-- C21 as the claim states it, refuted: the bounded wait for the old pipeline's stop
reports a failure, and the rotation still builds and starts the new pipeline 10 and leaves
the session running with the timer continuing. -/
theorem rotation_continues_after_failed_stop_wait :
    rotate_recording_pipeline
        { old_stop := GstStateChangeReturn.GST_STATE_CHANGE_FAILURE,
          old_stop_wait := GstStateChangeReturn.GST_STATE_CHANGE_FAILURE,
          build := { pipeline := some 10, source := some 11, depay := some 12,
                     parser := some 13, queue := some 14, muxer := some 15,
                     filesink := some 16, link_ok := true },
          start := GstStateChangeReturn.GST_STATE_CHANGE_SUCCESS,
          start_wait := GstStateChangeReturn.GST_STATE_CHANGE_SUCCESS }
        { camera_name := "cam".toList, rtsp_url := "rtsp://m".toList,
          stream_type := StreamType.STREAM_MAIN, pipeline := some 1, source := some 2,
          depay := some 3, parser := some 4, tee := some 5, splitmux := some 6,
          is_h265 := false, is_running := true, thread := some 1, loop := some 1 }
      = ({ camera_name := "cam".toList, rtsp_url := "rtsp://m".toList,
           stream_type := StreamType.STREAM_MAIN, pipeline := some 10, source := some 11,
           depay := some 12, parser := some 13, tee := some 15, splitmux := some 16,
           is_h265 := false, is_running := true, thread := some 1, loop := some 1 },
         G_SOURCE_CONTINUE) := by
  decide

/-- The traced rotation gives the session record and the return value of
`rotate_recording_pipeline`. -/
theorem rotate_recording_pipeline_traced_result (env : RotationEnv)
    (cleanup : GstStateChangeReturn) (rec : RecordingPipeline) :
    (rotate_recording_pipeline_traced env cleanup rec).1
      = rotate_recording_pipeline env rec := by
  unfold rotate_recording_pipeline_traced rotate_recording_pipeline
  split
  · rfl
  · simp only []
    split
    · rfl
    · split
      · rfl
      · split
        · rfl
        · rfl

/-- C21, amended: during a rotation of a running session the watch of the old pipeline is
removed, the old pipeline is asked to stop (set to `NULL`), waited for at most 2 seconds
and released, and after a 100 ms pause the new capture pipeline is created, in that order.
What the stop request and the bounded wait report is not examined: the session record and
the return value are the same for every outcome of them.  The session is abandoned
(`is_running = FALSE`, timer removed) exactly when the new pipeline cannot be created, its
start request fails or its wait reports a failure; otherwise the session keeps running on
the new pipeline and the timer continues. -/
theorem rotation_stops_old_pipeline_then_creates (env : RotationEnv)
    (cleanup : GstStateChangeReturn) (rec : RecordingPipeline)
    (hrun : rec.is_running = true) (hpipe : rec.pipeline ≠ none) :
    (∃ later,
      (rotate_recording_pipeline_traced env cleanup rec).2
        = [RotationCall.gst_bus_remove_watch rec.pipeline,
           RotationCall.gst_element_set_state rec.pipeline GstState.GST_STATE_NULL
             env.old_stop,
           RotationCall.gst_element_get_state rec.pipeline (2 * GST_SECOND)
             env.old_stop_wait,
           RotationCall.gst_object_unref rec.pipeline,
           RotationCall.g_usleep 100000,
           RotationCall.create_recording_pipeline
             (create_recording_pipeline env.build { rec with pipeline := none }).1]
          ++ later) ∧
    (∀ stop stop_wait : GstStateChangeReturn,
      (rotate_recording_pipeline_traced
          { env with old_stop := stop, old_stop_wait := stop_wait } cleanup rec).1
        = (rotate_recording_pipeline_traced env cleanup rec).1) ∧
    (rotate_recording_pipeline_traced env cleanup rec).1
      = rotate_recording_pipeline env rec ∧
    ((rotate_recording_pipeline_traced env cleanup rec).1.1.is_running = false ↔
      ((create_recording_pipeline env.build { rec with pipeline := none }).1 = false ∨
        env.start = GstStateChangeReturn.GST_STATE_CHANGE_FAILURE ∨
        env.start_wait = GstStateChangeReturn.GST_STATE_CHANGE_FAILURE)) ∧
    ((rotate_recording_pipeline_traced env cleanup rec).1.1.is_running = false →
      (rotate_recording_pipeline_traced env cleanup rec).1.2 = G_SOURCE_REMOVE ∧
      (rotate_recording_pipeline_traced env cleanup rec).1.1.pipeline = none) ∧
    ((rotate_recording_pipeline_traced env cleanup rec).1.1.is_running = true →
      (rotate_recording_pipeline_traced env cleanup rec).1.2 = G_SOURCE_CONTINUE ∧
      (rotate_recording_pipeline_traced env cleanup rec).1.1.pipeline
        = env.build.pipeline ∧
      env.build.pipeline ≠ none) := by
  have hguard : ¬ ((!rec.is_running || rec.pipeline.isNone) = true) := by
    cases hp : rec.pipeline with
    | none => exact absurd hp hpipe
    | some x => simp [hrun]
  have hind : ∀ stop stop_wait : GstStateChangeReturn,
      (rotate_recording_pipeline_traced
          { env with old_stop := stop, old_stop_wait := stop_wait } cleanup rec).1
        = (rotate_recording_pipeline_traced env cleanup rec).1 := by
    intro stop stop_wait
    rw [rotate_recording_pipeline_traced_result, rotate_recording_pipeline_traced_result]
    rfl
  refine ⟨?_, hind, rotate_recording_pipeline_traced_result env cleanup rec, ?_⟩
  · unfold rotate_recording_pipeline_traced
    rw [if_neg hguard]
    simp only []
    split
    · exact ⟨[], by simp⟩
    · split
      · exact ⟨_, by simp only [List.append_assoc]; rfl⟩
      · split
        · exact ⟨_, by simp only [List.append_assoc]; rfl⟩
        · exact ⟨_, by simp only [List.append_assoc]; rfl⟩
  · rw [rotate_recording_pipeline_traced_result]
    unfold rotate_recording_pipeline
    rw [if_neg hguard]
    simp only []
    by_cases hc : (create_recording_pipeline env.build { rec with pipeline := none }).1 = true
    · obtain ⟨h1, h2, h3⟩ := create_recording_pipeline_ok env.build _ hc
      have hn : ¬ ((!(create_recording_pipeline env.build
          { rec with pipeline := none }).1) = true) := by simp [hc]
      rw [if_neg hn]
      by_cases hs : env.start = GstStateChangeReturn.GST_STATE_CHANGE_FAILURE
      · rw [if_pos hs]
        refine ⟨⟨fun _ => Or.inr (Or.inl hs), fun _ => rfl⟩, fun _ => ⟨rfl, rfl⟩,
          fun h => (by cases h)⟩
      · rw [if_neg hs]
        by_cases hw : env.start_wait = GstStateChangeReturn.GST_STATE_CHANGE_FAILURE
        · rw [if_pos hw]
          refine ⟨⟨fun _ => Or.inr (Or.inr hw), fun _ => rfl⟩, fun _ => ⟨rfl, rfl⟩,
            fun h => (by cases h)⟩
        · rw [if_neg hw]
          have hr : (create_recording_pipeline env.build
              { rec with pipeline := none }).2.is_running = true := by
            rw [h3]
            exact hrun
          refine ⟨⟨?_, ?_⟩, ?_, fun _ => ⟨rfl, h1, h2⟩⟩
          · intro h
            rw [hr] at h
            cases h
          · rintro (h | h | h)
            · rw [hc] at h
              cases h
            · exact absurd h hs
            · exact absurd h hw
          · intro h
            rw [hr] at h
            cases h
    · have hc2 : (create_recording_pipeline env.build { rec with pipeline := none }).1
          = false := by simpa using hc
      have hy : ((!(create_recording_pipeline env.build
          { rec with pipeline := none }).1) = true) := by simp [hc2]
      obtain ⟨f1, _⟩ := create_recording_pipeline_failed env.build _ hc2
      rw [if_pos hy]
      refine ⟨⟨fun _ => Or.inl hc2, fun _ => rfl⟩, fun _ => ⟨rfl, f1⟩,
        fun h => (by cases h)⟩

/-- C21 amended, at a rotation whose stop request fails and whose bounded wait expires:
the five calls on the old pipeline 1 come first, then the new pipeline is created. -/
theorem rotation_stops_old_pipeline_then_creates_witness :
    ((({ camera_name := "cam".toList, rtsp_url := "rtsp://m".toList,
         stream_type := StreamType.STREAM_MAIN, pipeline := some 1, source := some 2,
         depay := some 3, parser := some 4, tee := some 5, splitmux := some 6,
         is_h265 := false, is_running := true, thread := some 1,
         loop := some 1 } : RecordingPipeline).is_running = true)) ∧
    (rotate_recording_pipeline_traced
        { old_stop := GstStateChangeReturn.GST_STATE_CHANGE_FAILURE,
          old_stop_wait := GstStateChangeReturn.GST_STATE_CHANGE_ASYNC,
          build := { pipeline := some 10, source := some 11, depay := some 12,
                     parser := some 13, queue := some 14, muxer := some 15,
                     filesink := some 16, link_ok := true },
          start := GstStateChangeReturn.GST_STATE_CHANGE_ASYNC,
          start_wait := GstStateChangeReturn.GST_STATE_CHANGE_SUCCESS }
        GstStateChangeReturn.GST_STATE_CHANGE_SUCCESS
        { camera_name := "cam".toList, rtsp_url := "rtsp://m".toList,
          stream_type := StreamType.STREAM_MAIN, pipeline := some 1, source := some 2,
          depay := some 3, parser := some 4, tee := some 5, splitmux := some 6,
          is_h265 := false, is_running := true, thread := some 1, loop := some 1 }).1
      = rotate_recording_pipeline
          { old_stop := GstStateChangeReturn.GST_STATE_CHANGE_FAILURE,
            old_stop_wait := GstStateChangeReturn.GST_STATE_CHANGE_ASYNC,
            build := { pipeline := some 10, source := some 11, depay := some 12,
                       parser := some 13, queue := some 14, muxer := some 15,
                       filesink := some 16, link_ok := true },
            start := GstStateChangeReturn.GST_STATE_CHANGE_ASYNC,
            start_wait := GstStateChangeReturn.GST_STATE_CHANGE_SUCCESS }
          { camera_name := "cam".toList, rtsp_url := "rtsp://m".toList,
            stream_type := StreamType.STREAM_MAIN, pipeline := some 1, source := some 2,
            depay := some 3, parser := some 4, tee := some 5, splitmux := some 6,
            is_h265 := false, is_running := true, thread := some 1, loop := some 1 } :=
  ⟨by decide,
   (rotation_stops_old_pipeline_then_creates
      { old_stop := GstStateChangeReturn.GST_STATE_CHANGE_FAILURE,
        old_stop_wait := GstStateChangeReturn.GST_STATE_CHANGE_ASYNC,
        build := { pipeline := some 10, source := some 11, depay := some 12,
                   parser := some 13, queue := some 14, muxer := some 15,
                   filesink := some 16, link_ok := true },
        start := GstStateChangeReturn.GST_STATE_CHANGE_ASYNC,
        start_wait := GstStateChangeReturn.GST_STATE_CHANGE_SUCCESS }
      GstStateChangeReturn.GST_STATE_CHANGE_SUCCESS
      { camera_name := "cam".toList, rtsp_url := "rtsp://m".toList,
        stream_type := StreamType.STREAM_MAIN, pipeline := some 1, source := some 2,
        depay := some 3, parser := some 4, tee := some 5, splitmux := some 6,
        is_h265 := false, is_running := true, thread := some 1, loop := some 1 }
      (by decide) (by decide)).2.2.1⟩

/-- C22 as the claim states it, refuted: the bounded wait expires with the state change
still in progress (`GST_STATE_CHANGE_ASYNC`), the pipeline not playing, and the thread
creates its loop and installs the rotation timer with the session still marked running. -/
theorem thread_enters_loop_after_expired_wait :
    recording_thread_func_start
        { build := { pipeline := some 10, source := some 11, depay := some 12,
                     parser := some 13, queue := some 14, muxer := some 15,
                     filesink := some 16, link_ok := true },
          start := GstStateChangeReturn.GST_STATE_CHANGE_ASYNC,
          start_wait := GstStateChangeReturn.GST_STATE_CHANGE_ASYNC, loop := 7 }
        { camera_name := "cam".toList, rtsp_url := "rtsp://m".toList,
          stream_type := StreamType.STREAM_MAIN, pipeline := none, source := none,
          depay := none, parser := none, tee := none, splitmux := none,
          is_h265 := false, is_running := true, thread := some 1, loop := none }
      = ({ camera_name := "cam".toList, rtsp_url := "rtsp://m".toList,
           stream_type := StreamType.STREAM_MAIN, pipeline := some 10, source := some 11,
           depay := some 12, parser := some 13, tee := some 15, splitmux := some 16,
           is_h265 := false, is_running := true, thread := some 1, loop := some 7 },
         true) := by
  decide

/-- C22, amended: in `recording_thread_func` the session enters the Recording state
(creates its loop and installs the rotation timer) exactly when the capture pipeline is
created and neither the start request nor the bounded wait reports
`GST_STATE_CHANGE_FAILURE`; an expired wait does not count as a failure.  When it does not
enter that state the thread returns with `is_running = FALSE`, its loop pointer untouched
and no timer installed; when it does, `is_running` is as `start_all` set it and the loop is
the new one. -/
theorem thread_enters_loop_iff (env : StartEnv) (rec : RecordingPipeline) :
    ((recording_thread_func_start env rec).2 = true ↔
      ((create_recording_pipeline env.build rec).1 = true ∧
        env.start ≠ GstStateChangeReturn.GST_STATE_CHANGE_FAILURE ∧
        env.start_wait ≠ GstStateChangeReturn.GST_STATE_CHANGE_FAILURE)) ∧
    ((recording_thread_func_start env rec).2 = false →
      (recording_thread_func_start env rec).1.is_running = false ∧
      (recording_thread_func_start env rec).1.loop = rec.loop) ∧
    ((recording_thread_func_start env rec).2 = true →
      (recording_thread_func_start env rec).1.is_running = rec.is_running ∧
      (recording_thread_func_start env rec).1.loop = some env.loop ∧
      (recording_thread_func_start env rec).1.pipeline = env.build.pipeline ∧
      env.build.pipeline ≠ none) := by
  have hloop : (create_recording_pipeline env.build rec).2.loop = rec.loop := by
    unfold create_recording_pipeline
    cases env.build.pipeline with
    | none => rfl
    | some p =>
      simp only []
      split
      · rfl
      · split <;> rfl
  unfold recording_thread_func_start
  simp only []
  by_cases hc : (create_recording_pipeline env.build rec).1 = true
  · obtain ⟨h1, h2, h3⟩ := create_recording_pipeline_ok env.build rec hc
    have hn : ¬ ((!(create_recording_pipeline env.build rec).1) = true) := by simp [hc]
    rw [if_neg hn]
    by_cases hs : env.start = GstStateChangeReturn.GST_STATE_CHANGE_FAILURE
    · rw [if_pos hs]
      refine ⟨?_, fun _ => ⟨rfl, hloop⟩, fun h => (by cases h)⟩
      constructor
      · intro h; cases h
      · intro h; exact absurd hs h.2.1
    · rw [if_neg hs]
      by_cases hw : env.start_wait = GstStateChangeReturn.GST_STATE_CHANGE_FAILURE
      · rw [if_pos hw]
        refine ⟨?_, fun _ => ⟨rfl, hloop⟩, fun h => (by cases h)⟩
        constructor
        · intro h; cases h
        · intro h; exact absurd hw h.2.2
      · rw [if_neg hw]
        refine ⟨?_, fun h => (by cases h), fun _ => ⟨h3, rfl, h1, h2⟩⟩
        constructor
        · intro _; exact ⟨hc, hs, hw⟩
        · intro _; rfl
  · have hc2 : (create_recording_pipeline env.build rec).1 = false := by simpa using hc
    have hy : ((!(create_recording_pipeline env.build rec).1) = true) := by simp [hc2]
    rw [if_pos hy]
    refine ⟨?_, fun _ => ⟨rfl, hloop⟩, fun h => (by cases h)⟩
    constructor
    · intro h; cases h
    · intro h; exact absurd h.1 hc

/-! ## Query parameters and the file search -/

/-- The plain case of `parse_query_param`: when the query begins with the pair `p=v` and
`v` ends at the end of the query or at the next `&`, the value `v` is returned. -/
theorem parse_query_param_first_pair (p v rest : CStr) (hv : '&' ∉ v)
    (hrest : rest = [] ∨ ∃ r, rest = '&' :: r) :
    parse_query_param (some (p ++ '=' :: (v ++ rest))) p = some v := by
  have hstr : strstr (p ++ '=' :: (v ++ rest)) (p ++ "=".toList)
      = some (p ++ '=' :: (v ++ rest)) := by
    have hpre : (p ++ "=".toList).isPrefixOf (p ++ '=' :: (v ++ rest)) = true := by
      rw [List.isPrefixOf_iff_prefix]
      exact ⟨v ++ rest, by simp⟩
    cases hq : p ++ '=' :: (v ++ rest) with
    | nil => simp at hq
    | cons x xs =>
      unfold strstr
      rw [← hq, if_pos hpre]
  have hdrop : (p ++ '=' :: (v ++ rest)).drop (p.length + 1) = v ++ rest := by
    have : p ++ '=' :: (v ++ rest) = (p ++ ['=']) ++ (v ++ rest) := by simp
    rw [this]
    exact List.drop_left' (by simp)
  have hchr : ∀ (w : CStr), '&' ∉ w → strchr (w ++ rest) '&' = strchr rest '&' := by
    intro w hw
    induction w with
    | nil => rfl
    | cons c w ih =>
      simp only [List.cons_append]
      rw [strchr, if_neg (fun e => hw (by rw [e]; exact List.mem_cons_self _ _))]
      exact ih (fun hm => hw (List.mem_cons_of_mem _ hm))
  unfold parse_query_param
  simp only [hstr, hdrop, hchr v hv]
  rcases hrest with rfl | ⟨r, rfl⟩
  · simp [strchr]
  · simp [strchr]

/-- C27, the code at a failing input: in the query
`session_timestamp=100&timestamp=1600000000` the first pair whose key is exactly
`timestamp` has the value `1600000000`, and `parse_query_param` returns `100`, the text
after the first place where `timestamp=` occurs; and in the query `xduration=5`, where no
pair has the key `duration`, it returns `5` instead of nothing. -/
theorem query_key_matched_inside_longer_key :
    parse_query_param (some "session_timestamp=100&timestamp=1600000000".toList)
        "timestamp".toList = some "100".toList ∧
    parse_query_param (some "xduration=5".toList) "duration".toList = some "5".toList ∧
    parse_query_param (some "stream=1&timestamp=1600000000&duration=60".toList)
        "timestamp".toList = some "1600000000".toList := by
  refine ⟨?_, ?_, ?_⟩ <;> decide

/-- C28, the code at a failing input: the recordings root holds the one recording file
`hi_quality/cam/2020/09/13/12/1600000100.mkv` of the camera `cam`; asked for the time stamp
1600000130, thirty seconds into that file, `find_recording_file` returns nothing, because
it looks for a file whose name contains the text `1600000130`; asked for 1600000100 it
returns the file. -/
theorem find_recording_file_needs_exact_timestamp :
    find_recording_file
        (fun _ => some [FsNode.dir "hi_quality".toList true [FsNode.dir "cam".toList true
          [FsNode.dir "2020".toList true [FsNode.dir "09".toList true
            [FsNode.dir "13".toList true [FsNode.dir "12".toList true
              [FsNode.file "1600000100.mkv".toList]]]]]]])
        "cam".toList 1600000130 0 = none ∧
    find_recording_file
        (fun _ => some [FsNode.dir "hi_quality".toList true [FsNode.dir "cam".toList true
          [FsNode.dir "2020".toList true [FsNode.dir "09".toList true
            [FsNode.dir "13".toList true [FsNode.dir "12".toList true
              [FsNode.file "1600000100.mkv".toList]]]]]]])
        "cam".toList 1600000100 0
      = some "/home/oryza/Oryza/recordings/hi_quality/cam/2020/09/13/12/1600000100.mkv".toList := by
  constructor <;> decide

/-! ## The layout of the recording directory -/

theorem toDigitsCore_more (f n : Nat) (ds : List Char) (h : n / 10 ≠ 0) :
    Nat.toDigitsCore 10 (f + 1) n ds
      = Nat.toDigitsCore 10 f (n / 10) (Nat.digitChar (n % 10) :: ds) := by
  rw [Nat.toDigitsCore]
  simp only [h, if_false]

theorem toDigitsCore_last (f n : Nat) (ds : List Char) (h : n / 10 = 0) :
    Nat.toDigitsCore 10 (f + 1) n ds = Nat.digitChar (n % 10) :: ds := by
  rw [Nat.toDigitsCore]
  simp only [h, if_true]

theorem toDigits_one (n : Nat) (h : n < 10) : Nat.toDigits 10 n = [Nat.digitChar n] := by
  unfold Nat.toDigits
  rw [toDigitsCore_last n n [] (by omega), Nat.mod_eq_of_lt h]

theorem toDigits_two (n : Nat) (h1 : 10 ≤ n) (h2 : n < 100) :
    Nat.toDigits 10 n = [Nat.digitChar (n / 10), Nat.digitChar (n % 10)] := by
  unfold Nat.toDigits
  obtain ⟨f, hf⟩ : ∃ f, n + 1 = f + 2 := ⟨n - 1, by omega⟩
  rw [hf, toDigitsCore_more (f + 1) n [] (by omega),
    toDigitsCore_last f (n / 10) _ (by omega), Nat.mod_eq_of_lt (by omega : n / 10 < 10)]

theorem toDigits_three (n : Nat) (h1 : 100 ≤ n) (h2 : n < 1000) :
    Nat.toDigits 10 n
      = [Nat.digitChar (n / 100), Nat.digitChar (n / 10 % 10), Nat.digitChar (n % 10)] := by
  unfold Nat.toDigits
  obtain ⟨f, hf⟩ : ∃ f, n + 1 = f + 3 := ⟨n - 2, by omega⟩
  rw [hf, toDigitsCore_more (f + 2) n [] (by omega),
    toDigitsCore_more (f + 1) (n / 10) _ (by omega),
    toDigitsCore_last f (n / 10 / 10) _ (by omega)]
  have e1 : n / 10 / 10 = n / 100 := by omega
  rw [e1, Nat.mod_eq_of_lt (by omega : n / 100 < 10)]

theorem toDigits_four (n : Nat) (h1 : 1000 ≤ n) (h2 : n < 10000) :
    Nat.toDigits 10 n
      = [Nat.digitChar (n / 1000), Nat.digitChar (n / 100 % 10),
          Nat.digitChar (n / 10 % 10), Nat.digitChar (n % 10)] := by
  unfold Nat.toDigits
  obtain ⟨f, hf⟩ : ∃ f, n + 1 = f + 4 := ⟨n - 3, by omega⟩
  rw [hf, toDigitsCore_more (f + 3) n [] (by omega),
    toDigitsCore_more (f + 2) (n / 10) _ (by omega),
    toDigitsCore_more (f + 1) (n / 10 / 10) _ (by omega),
    toDigitsCore_last f (n / 10 / 10 / 10) _ (by omega)]
  have e1 : n / 10 / 10 = n / 100 := by omega
  have e2 : n / 100 / 10 = n / 1000 := by omega
  rw [e1, e2, Nat.mod_eq_of_lt (by omega : n / 1000 < 10)]

theorem printf_0d_two (v : Int) (h0 : 0 ≤ v) (h1 : v ≤ 99) :
    printf_0d 2 v = two_digits v.toNat := by
  unfold printf_0d two_digits
  rw [if_neg (by omega)]
  by_cases h : v.toNat < 10
  · rw [toDigits_one _ h]
    have : v.toNat / 10 = 0 := by omega
    rw [this, Nat.mod_eq_of_lt h]
    rfl
  · rw [toDigits_two _ (by omega) (by omega)]
    rfl

theorem printf_0d_four (v : Int) (h0 : 0 ≤ v) (h1 : v ≤ 9999) :
    printf_0d 4 v = four_digits v.toNat := by
  unfold printf_0d four_digits
  rw [if_neg (by omega)]
  by_cases ha : v.toNat < 10
  · rw [toDigits_one _ ha]
    have e1 : v.toNat / 1000 = 0 := by omega
    have e2 : v.toNat / 100 % 10 = 0 := by omega
    have e3 : v.toNat / 10 % 10 = 0 := by omega
    rw [e1, e2, e3, Nat.mod_eq_of_lt ha]
    rfl
  · by_cases hb : v.toNat < 100
    · rw [toDigits_two _ (by omega) hb]
      have e1 : v.toNat / 1000 = 0 := by omega
      have e2 : v.toNat / 100 % 10 = 0 := by omega
      have e3 : v.toNat / 10 % 10 = v.toNat / 10 := by omega
      rw [e1, e2, e3]
      rfl
    · by_cases hc : v.toNat < 1000
      · rw [toDigits_three _ (by omega) hc]
        have e1 : v.toNat / 1000 = 0 := by omega
        have e2 : v.toNat / 100 % 10 = v.toNat / 100 := by omega
        rw [e1, e2]
        rfl
      · rw [toDigits_four _ (by omega) (by omega)]
        rfl

/-- C26 as the claim states it, refuted (time zone UTC): at the time 253402300800, the
first second of the year 10000, the recording directory is
`.../hi_quality/cam/10000/01/01/00`, with a year of five digits. -/
theorem recording_directory_year_of_five_digits :
    get_recording_directory localtime_utc 253402300800 "cam".toList StreamType.STREAM_MAIN
      = some "/home/oryza/Oryza/recordings/hi_quality/cam/10000/01/01/00".toList := by
  decide

/-- C26, amended: for every camera name, stream kind and time whose local year lies between
0 and 9999 (month number, day and hour between 0 and 99), the recording directory is
exactly base/quality/camera/YYYY/MM/DD/HH with the year as four decimal digits and month,
day and hour as two decimal digits, zero-padded, where quality is `hi_quality` for
`STREAM_MAIN` and `low_quality` for `STREAM_SUB`; and the segment file is that directory,
`/`, the decimal Unix time stamp and `.mkv`.  `tm` is what `localtime` returns for the
time. -/
theorem recording_directory_layout (localtime : Int → Option Tm) (now_dir now : Int)
    (camera_name : CStr) (stream_type : StreamType) (tm : Tm)
    (htm : localtime now_dir = some tm)
    (hy0 : 0 ≤ tm.tm_year + 1900) (hy1 : tm.tm_year + 1900 ≤ 9999)
    (hm0 : 0 ≤ tm.tm_mon + 1) (hm1 : tm.tm_mon + 1 ≤ 99)
    (hd0 : 0 ≤ tm.tm_mday) (hd1 : tm.tm_mday ≤ 99)
    (hh0 : 0 ≤ tm.tm_hour) (hh1 : tm.tm_hour ≤ 99)
    (hn : 0 ≤ now) :
    get_recording_directory localtime now_dir camera_name stream_type
      = some ("/home/oryza/Oryza/recordings".toList ++
          '/' :: (match stream_type with
            | StreamType.STREAM_MAIN => "hi_quality".toList
            | StreamType.STREAM_SUB => "low_quality".toList) ++
          '/' :: camera_name ++
          '/' :: four_digits (tm.tm_year + 1900).toNat ++
          '/' :: two_digits (tm.tm_mon + 1).toNat ++
          '/' :: two_digits tm.tm_mday.toNat ++
          '/' :: two_digits tm.tm_hour.toNat) ∧
    recording_file_location localtime now_dir now camera_name stream_type
      = Option.map (fun dir => dir ++ '/' :: (Nat.toDigits 10 now.toNat ++ ".mkv".toList))
          (get_recording_directory localtime now_dir camera_name stream_type) ∧
    (∀ c ∈ Nat.toDigits 10 now.toNat, isdigit c = true) ∧
    (digits_value (Nat.toDigits 10 now.toNat) : Int) = now := by
  refine ⟨?_, recording_file_location_eq localtime now_dir now camera_name stream_type hn,
    (toDigits_spec now.toNat).2.1, ?_⟩
  · rw [get_recording_directory_of_some localtime now_dir camera_name stream_type tm htm,
      wrap32_of_range _ (by omega) (by omega), wrap32_of_range _ (by omega) (by omega),
      printf_0d_four _ hy0 hy1, printf_0d_two _ hm0 hm1, printf_0d_two _ hd0 hd1,
      printf_0d_two _ hh0 hh1]
    cases stream_type <;> simp [RECORD_BASE_PATH, RECORD_HI_QUALITY, RECORD_LOW_QUALITY]
  · rw [(toDigits_spec now.toNat).2.2]
    exact Int.toNat_of_nonneg hn

/-- C26 amended, at the time 1600000100 in the UTC time zone, 12:28:20 on 13 September
2020. -/
theorem recording_directory_layout_witness :
    localtime_utc 1600000100
      = some { tm_sec := 20, tm_min := 28, tm_hour := 12, tm_mday := 13, tm_mon := 8,
               tm_year := 120, tm_isdst := 0 } ∧
    get_recording_directory localtime_utc 1600000100 "cam".toList StreamType.STREAM_SUB
      = some ("/home/oryza/Oryza/recordings".toList ++
          '/' :: "low_quality".toList ++ '/' :: "cam".toList ++
          '/' :: four_digits 2020 ++ '/' :: two_digits 9 ++
          '/' :: two_digits 13 ++ '/' :: two_digits 12) :=
  ⟨by decide,
   (recording_directory_layout localtime_utc 1600000100 1600000100 "cam".toList
      StreamType.STREAM_SUB
      { tm_sec := 20, tm_min := 28, tm_hour := 12, tm_mday := 13, tm_mon := 8,
        tm_year := 120, tm_isdst := 0 }
      (by decide) (by decide) (by decide) (by decide) (by decide) (by decide) (by decide)
      (by decide) (by decide) (by decide)).1⟩

/-! ## The recording manager: stopping -/

theorem set_slot_same (a : Nat → Session) (i : Nat) (v : Session) : set_slot a i v i = v := by
  simp [set_slot]

theorem set_slot_other (a : Nat → Session) (i : Nat) (v : Session) (j : Nat) (h : j ≠ i) :
    set_slot a i v j = a j := by
  simp [set_slot, h]

/-- The stop loop treats every slot below its bound once, on its own, and no other slot. -/
theorem stop_loop_slot (n : Nat) (a : Nat → Session) (i : Nat) :
    (stop_loop n a).1 i = if i < n then (session_stop (a i)).1 else a i := by
  induction n with
  | zero => simp [stop_loop]
  | succ n ih =>
    simp only [stop_loop]
    by_cases h : i = n
    · subst h
      rw [set_slot_same, ih]
      simp
    · rw [set_slot_other _ _ _ _ h, ih]
      by_cases h2 : i < n
      · have h3 : i < n + 1 := by omega
        simp [h2, h3]
      · have h3 : ¬ i < n + 1 := by omega
        simp [h2, h3]

/-- The sessions the stop loop joins are those below its bound that are running and have a
loop. -/
theorem stop_loop_joined (n : Nat) (a : Nat → Session) (i : Nat) :
    i ∈ (stop_loop n a).2 ↔ i < n ∧ (session_stop (a i)).2 = true := by
  induction n with
  | zero => simp [stop_loop]
  | succ n ih =>
    have hslot : (stop_loop n a).1 n = a n := by
      rw [stop_loop_slot]
      simp
    simp only [stop_loop, hslot]
    by_cases hg : (session_stop (a n)).2 = true
    · rw [if_pos hg, List.mem_append, ih, List.mem_singleton]
      constructor
      · rintro (⟨h1, h2⟩ | h)
        · exact ⟨by omega, h2⟩
        · subst h
          exact ⟨by omega, hg⟩
      · rintro ⟨h1, h2⟩
        by_cases h : i = n
        · exact Or.inr h
        · exact Or.inl ⟨by omega, h2⟩
    · rw [if_neg hg, ih]
      constructor
      · rintro ⟨h1, h2⟩
        exact ⟨by omega, h2⟩
      · rintro ⟨h1, h2⟩
        by_cases h : i = n
        · subst h
          exact absurd h2 hg
        · exact ⟨by omega, h2⟩

/-- A session that has been through the body of the stop loop is not running, so the body
does nothing to it a second time. -/
theorem session_stop_twice (s : Session) :
    session_stop (session_stop s).1 = ((session_stop s).1, false) := by
  unfold session_stop
  by_cases h : (s.record.is_running && s.record.loop.isSome) = true
  · simp [h, recording_thread_func_finish]
  · simp [h]

/-- C23: `recording_manager_stop_all` is idempotent.  For every manager state, a second call
after a first one has returned tells no session to quit and joins none, and it leaves the
manager, with every session in it, as the first call left it. -/
theorem stop_all_idempotent (m : RecordingManager) :
    recording_manager_stop_all (recording_manager_stop_all m) = recording_manager_stop_all m
    ∧ stop_all_joined (recording_manager_stop_all m) = [] := by
  constructor
  · simp only [recording_manager_stop_all]
    congr 1
    funext i
    rw [stop_loop_slot, stop_loop_slot]
    by_cases h : i < m.count.toNat
    · simp [h, session_stop_twice]
    · simp [h]
  · simp only [stop_all_joined, recording_manager_stop_all]
    apply List.eq_nil_iff_forall_not_mem.mpr
    intro i hi
    rw [stop_loop_joined] at hi
    obtain ⟨h1, h2⟩ := hi
    rw [stop_loop_slot, if_pos h1, session_stop_twice] at h2
    cases h2

/-- C24: a session whose rotation failed is left out by `recording_manager_stop_all`.  One
camera is added to a new manager and `recording_manager_start_all` starts its two sessions,
each thread reaching its loop.  The rotation timer of the main session expires and the new
pipeline refuses to start: the callback clears `is_running` and the thread stays in its
loop (one live thread for slot 0).  `recording_manager_stop_all` then joins only the sub
session, slot 1, and the thread of the main session is still in its loop when the call has
returned: the live threads of slots 0 and 1 are then 1 and 0. -/
theorem stop_all_leaves_thread_after_failed_rotation :
    Option.map
        (fun r : Bool × RecordingManager =>
          (((manager_timer_fire
              { old_stop := GstStateChangeReturn.GST_STATE_CHANGE_SUCCESS,
                old_stop_wait := GstStateChangeReturn.GST_STATE_CHANGE_SUCCESS,
                build := { pipeline := some 20, source := some 21, depay := some 22,
                           parser := some 23, queue := some 24, muxer := some 25,
                           filesink := some 26, link_ok := true },
                start := GstStateChangeReturn.GST_STATE_CHANGE_FAILURE,
                start_wait := GstStateChangeReturn.GST_STATE_CHANGE_SUCCESS }
              0
              (recording_manager_start_all
                (fun _ =>
                  { build := { pipeline := some 10, source := some 11, depay := some 12,
                               parser := some 13, queue := some 14, muxer := some 15,
                               filesink := some 16, link_ok := true },
                    start := GstStateChangeReturn.GST_STATE_CHANGE_ASYNC,
                    start_wait := GstStateChangeReturn.GST_STATE_CHANGE_SUCCESS,
                    loop := 7 })
                (fun i => i + 1) r.2)).pipelines 0).live_tasks,
           stop_all_joined
            (manager_timer_fire
              { old_stop := GstStateChangeReturn.GST_STATE_CHANGE_SUCCESS,
                old_stop_wait := GstStateChangeReturn.GST_STATE_CHANGE_SUCCESS,
                build := { pipeline := some 20, source := some 21, depay := some 22,
                           parser := some 23, queue := some 24, muxer := some 25,
                           filesink := some 26, link_ok := true },
                start := GstStateChangeReturn.GST_STATE_CHANGE_FAILURE,
                start_wait := GstStateChangeReturn.GST_STATE_CHANGE_SUCCESS }
              0
              (recording_manager_start_all
                (fun _ =>
                  { build := { pipeline := some 10, source := some 11, depay := some 12,
                               parser := some 13, queue := some 14, muxer := some 15,
                               filesink := some 16, link_ok := true },
                    start := GstStateChangeReturn.GST_STATE_CHANGE_ASYNC,
                    start_wait := GstStateChangeReturn.GST_STATE_CHANGE_SUCCESS,
                    loop := 7 })
                (fun i => i + 1) r.2)),
           ((recording_manager_stop_all
              (manager_timer_fire
                { old_stop := GstStateChangeReturn.GST_STATE_CHANGE_SUCCESS,
                  old_stop_wait := GstStateChangeReturn.GST_STATE_CHANGE_SUCCESS,
                  build := { pipeline := some 20, source := some 21, depay := some 22,
                             parser := some 23, queue := some 24, muxer := some 25,
                             filesink := some 26, link_ok := true },
                  start := GstStateChangeReturn.GST_STATE_CHANGE_FAILURE,
                  start_wait := GstStateChangeReturn.GST_STATE_CHANGE_SUCCESS }
                0
                (recording_manager_start_all
                  (fun _ =>
                    { build := { pipeline := some 10, source := some 11, depay := some 12,
                                 parser := some 13, queue := some 14, muxer := some 15,
                                 filesink := some 16, link_ok := true },
                      start := GstStateChangeReturn.GST_STATE_CHANGE_ASYNC,
                      start_wait := GstStateChangeReturn.GST_STATE_CHANGE_SUCCESS,
                      loop := 7 })
                  (fun i => i + 1) r.2))).pipelines 0).live_tasks,
           ((recording_manager_stop_all
              (manager_timer_fire
                { old_stop := GstStateChangeReturn.GST_STATE_CHANGE_SUCCESS,
                  old_stop_wait := GstStateChangeReturn.GST_STATE_CHANGE_SUCCESS,
                  build := { pipeline := some 20, source := some 21, depay := some 22,
                             parser := some 23, queue := some 24, muxer := some 25,
                             filesink := some 26, link_ok := true },
                  start := GstStateChangeReturn.GST_STATE_CHANGE_FAILURE,
                  start_wait := GstStateChangeReturn.GST_STATE_CHANGE_SUCCESS }
                0
                (recording_manager_start_all
                  (fun _ =>
                    { build := { pipeline := some 10, source := some 11, depay := some 12,
                                 parser := some 13, queue := some 14, muxer := some 15,
                                 filesink := some 16, link_ok := true },
                      start := GstStateChangeReturn.GST_STATE_CHANGE_ASYNC,
                      start_wait := GstStateChangeReturn.GST_STATE_CHANGE_SUCCESS,
                      loop := 7 })
                  (fun i => i + 1) r.2))).pipelines 1).live_tasks))
        (recording_manager_add_camera recording_manager_new
          { camera_name := "cam".toList, rtsp_url_main := "rtsp://m".toList,
            rtsp_url_sub := "rtsp://s".toList, is_h265_main := false,
            is_h265_sub := false })
      = some (1, [1], 1, 0) := by
  decide

/-! ## The recording manager: adding cameras -/

/-- The call `g_renew` returns for every count of records from 0 to 2147483647. -/
theorem g_renew_returns_of_range (n : Int) (h0 : 0 ≤ n) (h1 : n < 2147483648) :
    g_renew_returns n = true := by
  unfold g_renew_returns g_realloc_n_returns
  have e : (2 : Int) ^ 64 = 18446744073709551616 := by norm_num
  have hq : G_MAXSIZE / sizeof_RecordingPipeline = 192153584101141162 := by decide
  have hm : n % 2 ^ 64 = n := by
    rw [e]
    omega
  rw [hq, hm]
  have hlt : ¬ (n.toNat > 192153584101141162) := by omega
  simp [hlt]

/-- One call of `recording_manager_add_camera` on a manager that holds `n` cameras, with
room for the call in a `gint`. -/
theorem add_camera_step (m : RecordingManager) (c : CameraArgs) (n k : Nat)
    (hn : n < 671088640) (hcount : m.count = 2 * (n : Int))
    (hcap : m.capacity = 10 * 2 ^ k) (hle : m.count ≤ m.capacity)
    (hk : k = 0 ∨ m.capacity < 2 * m.count) :
    ∃ m2 : RecordingManager,
      recording_manager_add_camera m c = some (true, m2)
      ∧ m2.count = 2 * ((n + 1 : Nat) : Int)
      ∧ m2.count ≤ m2.capacity
      ∧ (∃ k2 : Nat, m2.capacity = 10 * 2 ^ k2 ∧ (k2 = 0 ∨ m2.capacity < 2 * m2.count))
      ∧ m2.pipelines
          = set_slot
              (set_slot m.pipelines (2 * n)
                (new_session c.camera_name c.rtsp_url_main StreamType.STREAM_MAIN
                  c.is_h265_main))
              (2 * n + 1)
              (new_session c.camera_name c.rtsp_url_sub StreamType.STREAM_SUB
                c.is_h265_sub) := by
  have w2 : wrap32 (m.count + 2) = m.count + 2 := wrap32_of_range _ (by omega) (by omega)
  have w1 : wrap32 (m.count + 1) = m.count + 1 := wrap32_of_range _ (by omega) (by omega)
  have w3 : wrap32 (m.count + 1 + 1) = m.count + 1 + 1 :=
    wrap32_of_range _ (by omega) (by omega)
  have t0 : m.count.toNat = 2 * n := by omega
  have t1 : (m.count + 1).toNat = 2 * n + 1 := by omega
  have hgrown : m.count + 2 > m.capacity →
      wrap32 (m.capacity * 2) = m.capacity * 2 ∧ m.capacity = m.count ∧ 10 ≤ m.capacity
        ∧ g_renew_returns (m.capacity * 2) = true := by
    intro hgrow
    have hpos : (0 : Int) < 2 ^ k := by positivity
    have hcapeq : m.capacity = m.count := by omega
    have hlt : (2 : Nat) ^ k < 2 ^ 27 := by
      have h1 : (10 : Int) * 2 ^ k < 10 * 2 ^ 27 := by
        rw [← hcap, hcapeq, hcount]
        norm_num
        omega
      have h2 : (2 : Int) ^ k < 2 ^ 27 := by omega
      exact_mod_cast h2
    have hk27 : k < 27 := (Nat.pow_lt_pow_iff_right (by norm_num)).mp hlt
    have hle26 : (2 : Nat) ^ k ≤ 2 ^ 26 := Nat.pow_le_pow_right (by norm_num) (by omega)
    have hle26i : (2 : Int) ^ k ≤ 67108864 := by
      have h3 : ((2 ^ k : Nat) : Int) ≤ ((2 ^ 26 : Nat) : Int) := by exact_mod_cast hle26
      push_cast at h3
      exact h3
    exact ⟨wrap32_of_range _ (by omega) (by omega), hcapeq, by omega,
      g_renew_returns_of_range _ (by omega) (by omega)⟩
  by_cases hgrow : m.count + 2 > m.capacity
  · obtain ⟨hw, heq, h10, hret⟩ := hgrown hgrow
    refine ⟨{ pipelines := set_slot
                (set_slot m.pipelines (2 * n)
                  (new_session c.camera_name c.rtsp_url_main StreamType.STREAM_MAIN
                    c.is_h265_main))
                (2 * n + 1)
                (new_session c.camera_name c.rtsp_url_sub StreamType.STREAM_SUB
                  c.is_h265_sub),
              count := m.count + 1 + 1, capacity := m.capacity * 2 }, ?_, ?_, ?_, ?_, rfl⟩
    · unfold recording_manager_add_camera
      simp only [w1, w2, w3, t0, t1, hgrow, decide_True, if_true, hw, hret, Bool.not_true,
        Bool.and_false, Bool.false_eq_true, if_false]
    · show m.count + 1 + 1 = _
      push_cast
      omega
    · show m.count + 1 + 1 ≤ m.capacity * 2
      omega
    · refine ⟨k + 1, ?_, Or.inr ?_⟩
      · show m.capacity * 2 = _
        rw [hcap, pow_succ]
        ring
      · show m.capacity * 2 < 2 * (m.count + 1 + 1)
        omega
  · refine ⟨{ pipelines := set_slot
                (set_slot m.pipelines (2 * n)
                  (new_session c.camera_name c.rtsp_url_main StreamType.STREAM_MAIN
                    c.is_h265_main))
                (2 * n + 1)
                (new_session c.camera_name c.rtsp_url_sub StreamType.STREAM_SUB
                  c.is_h265_sub),
              count := m.count + 1 + 1, capacity := m.capacity }, ?_, ?_, ?_, ?_, rfl⟩
    · unfold recording_manager_add_camera
      simp only [w1, w2, w3, t0, t1, hgrow, decide_False, Bool.false_and, Bool.false_eq_true,
        if_false]
    · show m.count + 1 + 1 = _
      push_cast
      omega
    · show m.count + 1 + 1 ≤ m.capacity
      omega
    · refine ⟨k, hcap, ?_⟩
      rcases hk with hk | hk
      · exact Or.inl hk
      · refine Or.inr ?_
        show m.capacity < 2 * (m.count + 1 + 1)
        omega

theorem add_cameras_append_some (l1 l2 : List CameraArgs) (m m1 m2 : RecordingManager)
    (rets1 rets2 : List Bool) (h1 : add_cameras l1 m = some (m1, rets1))
    (h2 : add_cameras l2 m1 = some (m2, rets2)) :
    add_cameras (l1 ++ l2) m = some (m2, rets1 ++ rets2) := by
  induction l1 generalizing m rets1 with
  | nil =>
    simp only [add_cameras, Option.some.injEq, Prod.mk.injEq] at h1
    obtain ⟨e1, e2⟩ := h1
    subst e1 e2
    simpa using h2
  | cons c cs ih =>
    simp only [List.cons_append, add_cameras] at h1 ⊢
    cases hc : recording_manager_add_camera m c with
    | none =>
      rw [hc] at h1
      cases h1
    | some r =>
      rw [hc] at h1
      simp only [] at h1 ⊢
      cases hcs : add_cameras cs r.2 with
      | none =>
        rw [hcs] at h1
        cases h1
      | some later =>
        rw [hcs] at h1
        simp only [Option.some.injEq, Prod.mk.injEq] at h1
        obtain ⟨e1, e2⟩ := h1
        have hl : add_cameras cs r.2 = some (m1, later.2) := by
          rw [hcs, ← e1]
        have hih := ih r.2 later.2 hl
        simp only [List.append_eq]
        rw [hih]
        simp only [← e2, List.cons_append]

theorem add_cameras_append_none (l1 l2 : List CameraArgs) (m m1 : RecordingManager)
    (rets1 : List Bool) (h1 : add_cameras l1 m = some (m1, rets1))
    (h2 : add_cameras l2 m1 = none) :
    add_cameras (l1 ++ l2) m = none := by
  induction l1 generalizing m rets1 with
  | nil =>
    simp only [add_cameras, Option.some.injEq, Prod.mk.injEq] at h1
    obtain ⟨e1, e2⟩ := h1
    subst e1 e2
    simpa using h2
  | cons c cs ih =>
    simp only [List.cons_append, add_cameras] at h1 ⊢
    cases hc : recording_manager_add_camera m c with
    | none => rfl
    | some r =>
      rw [hc] at h1
      simp only [] at h1 ⊢
      cases hcs : add_cameras cs r.2 with
      | none =>
        rw [hcs] at h1
        cases h1
      | some later =>
        rw [hcs] at h1
        simp only [Option.some.injEq, Prod.mk.injEq] at h1
        obtain ⟨e1, e2⟩ := h1
        have hl : add_cameras cs r.2 = some (m1, later.2) := by
          rw [hcs, ← e1]
        have hih := ih r.2 later.2 hl
        simp only [List.append_eq]
        rw [hih]

/-- A run of `recording_manager_add_camera` calls on a manager that holds `n` cameras, with
room for all of them in a `gint`. -/
theorem add_cameras_inv (cams : List CameraArgs) :
    ∀ (m : RecordingManager) (n k : Nat), n + cams.length ≤ 671088640 →
      m.count = 2 * (n : Int) → m.capacity = 10 * 2 ^ k → m.count ≤ m.capacity →
      (k = 0 ∨ m.capacity < 2 * m.count) →
      ∃ m2 : RecordingManager,
        add_cameras cams m = some (m2, List.replicate cams.length true)
        ∧ m2.count = 2 * ((n + cams.length : Nat) : Int)
        ∧ m2.count ≤ m2.capacity
        ∧ (∃ k2 : Nat, m2.capacity = 10 * 2 ^ k2 ∧ (k2 = 0 ∨ m2.capacity < 2 * m2.count))
        ∧ (∀ i, i < 2 * n → m2.pipelines i = m.pipelines i)
        ∧ (∀ j c, cams.get? j = some c →
            m2.pipelines (2 * (n + j))
              = new_session c.camera_name c.rtsp_url_main StreamType.STREAM_MAIN
                  c.is_h265_main
            ∧ m2.pipelines (2 * (n + j) + 1)
              = new_session c.camera_name c.rtsp_url_sub StreamType.STREAM_SUB
                  c.is_h265_sub) := by
  induction cams with
  | nil =>
    intro m n k _ hcount hcap hle hk
    refine ⟨m, rfl, ?_, hle, ⟨k, hcap, hk⟩, fun _ _ => rfl, ?_⟩
    · simpa using hcount
    · intro j c hj
      simp at hj
  | cons c cs ih =>
    intro m n k hn hcount hcap hle hk
    simp only [List.length_cons] at hn
    obtain ⟨m1, s1, s2, s3, ⟨k2, s4, s5⟩, s6⟩ :=
      add_camera_step m c n k (by omega) hcount hcap hle hk
    obtain ⟨m2, r1, r2, r3, r4, r5, r6⟩ := ih m1 (n + 1) k2 (by omega) s2 s4 s3 s5
    refine ⟨m2, ?_, ?_, r3, r4, ?_, ?_⟩
    · simp only [add_cameras, s1, r1]
      rfl
    · rw [r2]
      simp only [List.length_cons]
      congr 2
      omega
    · intro i hi
      rw [r5 i (by omega), s6, set_slot_other _ _ _ _ (by omega),
        set_slot_other _ _ _ _ (by omega)]
    · intro j d hj
      cases j with
      | zero =>
        simp only [List.get?_cons_zero, Option.some.injEq] at hj
        subst hj
        constructor
        · rw [r5 _ (by omega), s6, set_slot_other _ _ _ _ (by omega)]
          exact set_slot_same _ _ _
        · rw [r5 _ (by omega), s6]
          exact set_slot_same _ _ _
      | succ j =>
        simp only [List.get?_cons_succ] at hj
        obtain ⟨q1, q2⟩ := r6 j d hj
        have e : 2 * (n + (j + 1)) = 2 * (n + 1 + j) := by omega
        rw [e]
        exact ⟨q1, q2⟩

/-- A new manager holds no camera and has room for five. -/
theorem add_cameras_new (cams : List CameraArgs) (hn : cams.length ≤ 671088640) :
    ∃ m2 : RecordingManager,
      add_cameras cams recording_manager_new = some (m2, List.replicate cams.length true)
      ∧ m2.count = 2 * (cams.length : Int)
      ∧ m2.count ≤ m2.capacity
      ∧ (∃ k2 : Nat, m2.capacity = 10 * 2 ^ k2 ∧ (k2 = 0 ∨ m2.capacity < 2 * m2.count))
      ∧ (∀ j c, cams.get? j = some c →
          m2.pipelines (2 * j)
            = new_session c.camera_name c.rtsp_url_main StreamType.STREAM_MAIN
                c.is_h265_main
          ∧ m2.pipelines (2 * j + 1)
            = new_session c.camera_name c.rtsp_url_sub StreamType.STREAM_SUB
                c.is_h265_sub) := by
  obtain ⟨m2, r1, r2, r3, r4, _, r6⟩ :=
    add_cameras_inv cams recording_manager_new 0 0 (by omega) rfl rfl (by decide)
      (Or.inl rfl)
  refine ⟨m2, r1, ?_, r3, r4, ?_⟩
  · rw [r2]
    simp
  · intro j c hj
    have h := r6 j c hj
    simpa using h

/-- C29 as the claim states it, refuted: the 671088641st call of
`recording_manager_add_camera` on a new manager does not return.  After 671088640 calls
`count` and `capacity` are both 1342177280; the next call doubles the capacity in `gint`
to -1610612736, and `g_renew`, asked for that many records, ends the program. -/
theorem add_camera_does_not_return_past_gint :
    add_cameras
        (List.replicate 671088641
          { camera_name := "cam".toList, rtsp_url_main := "rtsp://m".toList,
            rtsp_url_sub := "rtsp://s".toList, is_h265_main := false,
            is_h265_sub := false })
        recording_manager_new = none
    ∧ (∃ m : RecordingManager,
        add_cameras
            (List.replicate 671088640
              { camera_name := "cam".toList, rtsp_url_main := "rtsp://m".toList,
                rtsp_url_sub := "rtsp://s".toList, is_h265_main := false,
                is_h265_sub := false })
            recording_manager_new = some (m, List.replicate 671088640 true)
        ∧ m.count = 1342177280 ∧ m.capacity = 1342177280)
    ∧ wrap32 (1342177280 * 2) = -1610612736
    ∧ g_renew_returns (-1610612736) = false := by
  have e : List.replicate 671088641
      ({ camera_name := "cam".toList, rtsp_url_main := "rtsp://m".toList,
         rtsp_url_sub := "rtsp://s".toList, is_h265_main := false,
         is_h265_sub := false } : CameraArgs)
      = List.replicate 671088640
          ({ camera_name := "cam".toList, rtsp_url_main := "rtsp://m".toList,
             rtsp_url_sub := "rtsp://s".toList, is_h265_main := false,
             is_h265_sub := false } : CameraArgs)
        ++ [{ camera_name := "cam".toList, rtsp_url_main := "rtsp://m".toList,
              rtsp_url_sub := "rtsp://s".toList, is_h265_main := false,
              is_h265_sub := false }] :=
    List.replicate_succ' 671088640 _
  obtain ⟨m, r1, r2, r3, ⟨k2, r4, r5⟩, _⟩ :=
    add_cameras_new
      (List.replicate 671088640
        ({ camera_name := "cam".toList, rtsp_url_main := "rtsp://m".toList,
           rtsp_url_sub := "rtsp://s".toList, is_h265_main := false,
           is_h265_sub := false } : CameraArgs))
      (by rw [List.length_replicate])
  rw [List.length_replicate] at r1 r2
  have hcount : m.count = 1342177280 := by
    rw [r2]
    norm_num
  have hcap : m.capacity = 1342177280 := by
    rcases r5 with h0 | h
    · subst h0
      rw [r4] at r3
      omega
    · have hpos : (0 : Int) < 2 ^ k2 := by positivity
      have h1 : (2 : Int) ^ k2 < 2 ^ 28 := by
        norm_num
        omega
      have h2 : (2 : Int) ^ 26 < 2 ^ k2 := by
        norm_num
        omega
      have h3 : (2 : Nat) ^ k2 < 2 ^ 28 := by exact_mod_cast h1
      have h4 : (2 : Nat) ^ 26 < 2 ^ k2 := by exact_mod_cast h2
      have h5 : k2 < 28 := (Nat.pow_lt_pow_iff_right (by norm_num)).mp h3
      have h6 : 26 < k2 := (Nat.pow_lt_pow_iff_right (by norm_num)).mp h4
      have h7 : k2 = 27 := by omega
      rw [r4, h7]
      norm_num
  have hw : wrap32 (1342177280 * 2) = -1610612736 := by decide
  have hg : g_renew_returns (-1610612736) = false := by decide
  have hw2 : wrap32 (1342177280 + 2) = 1342177282 := by decide
  refine ⟨?_, ⟨m, r1, hcount, hcap⟩, hw, hg⟩
  rw [e]
  apply add_cameras_append_none _ _ _ m _ r1
  have hlast : recording_manager_add_camera m
      { camera_name := "cam".toList, rtsp_url_main := "rtsp://m".toList,
        rtsp_url_sub := "rtsp://s".toList, is_h265_main := false,
        is_h265_sub := false } = none := by
    unfold recording_manager_add_camera
    have hd : decide ((1342177282 : Int) > 1342177280) = true := by decide
    simp only [hcount, hcap, hw, hw2, hd, if_true, hg, Bool.not_false, Bool.and_true]
  simp only [add_cameras, hlast]

/-- C29, amended: for every sequence of at most 671088640 calls of
`recording_manager_add_camera` on a manager from `recording_manager_new`: every call
returns, and returns `TRUE`; `count` is twice the number of calls, `count ≤ capacity`, the
capacity is ten times a power of two, the entries at indices `2k` and `2k + 1` are the main
and the sub session of the `k`-th camera (its name, its main or sub URL and codec flag)
with `is_running = FALSE`, and calls that follow leave these entries as they are. -/
theorem add_camera_sequence_invariants (cams : List CameraArgs)
    (hn : cams.length ≤ 671088640) :
    ∃ m : RecordingManager,
      add_cameras cams recording_manager_new = some (m, List.replicate cams.length true)
      ∧ m.count = 2 * (cams.length : Int)
      ∧ m.count ≤ m.capacity
      ∧ (∃ k : Nat, m.capacity = 10 * 2 ^ k)
      ∧ (∀ k c, cams.get? k = some c →
          m.pipelines (2 * k)
            = new_session c.camera_name c.rtsp_url_main StreamType.STREAM_MAIN
                c.is_h265_main
          ∧ m.pipelines (2 * k + 1)
            = new_session c.camera_name c.rtsp_url_sub StreamType.STREAM_SUB c.is_h265_sub
          ∧ (m.pipelines (2 * k)).record.is_running = false
          ∧ (m.pipelines (2 * k + 1)).record.is_running = false)
      ∧ (∀ more : List CameraArgs, (cams ++ more).length ≤ 671088640 →
          ∃ m2 : RecordingManager,
            add_cameras (cams ++ more) recording_manager_new
              = some (m2, List.replicate (cams ++ more).length true)
            ∧ ∀ i, i < 2 * cams.length → m2.pipelines i = m.pipelines i) := by
  obtain ⟨m, r1, r2, r3, ⟨k2, r4, r5⟩, r6⟩ := add_cameras_new cams hn
  refine ⟨m, r1, r2, r3, ⟨k2, r4⟩, ?_, ?_⟩
  · intro k c hk
    obtain ⟨q1, q2⟩ := r6 k c hk
    refine ⟨q1, q2, ?_, ?_⟩
    · rw [q1]
      rfl
    · rw [q2]
      rfl
  · intro more hmore
    rw [List.length_append] at hmore
    obtain ⟨m2, p1, _, _, _, p5, _⟩ :=
      add_cameras_inv more m cams.length k2 hmore r2 r4 r3 r5
    refine ⟨m2, ?_, p5⟩
    rw [add_cameras_append_some cams more recording_manager_new m m2 _ _ r1 p1,
      List.length_append, List.replicate_add]

/-- C29 amended, at two cameras. -/
theorem add_camera_sequence_invariants_witness :
    ([ ({ camera_name := "gate".toList, rtsp_url_main := "rtsp://gate/main".toList,
          rtsp_url_sub := "rtsp://gate/sub".toList, is_h265_main := true,
          is_h265_sub := false } : CameraArgs),
       { camera_name := "yard".toList, rtsp_url_main := "rtsp://yard/main".toList,
         rtsp_url_sub := "rtsp://yard/sub".toList, is_h265_main := false,
         is_h265_sub := false } ].length ≤ 671088640)
    ∧ ∃ m : RecordingManager,
        add_cameras
            [ ({ camera_name := "gate".toList, rtsp_url_main := "rtsp://gate/main".toList,
                 rtsp_url_sub := "rtsp://gate/sub".toList, is_h265_main := true,
                 is_h265_sub := false } : CameraArgs),
              { camera_name := "yard".toList, rtsp_url_main := "rtsp://yard/main".toList,
                rtsp_url_sub := "rtsp://yard/sub".toList, is_h265_main := false,
                is_h265_sub := false } ]
            recording_manager_new = some (m, [true, true])
        ∧ m.count = 4 :=
  ⟨by decide,
   (add_camera_sequence_invariants
      [ { camera_name := "gate".toList, rtsp_url_main := "rtsp://gate/main".toList,
          rtsp_url_sub := "rtsp://gate/sub".toList, is_h265_main := true,
          is_h265_sub := false },
        { camera_name := "yard".toList, rtsp_url_main := "rtsp://yard/main".toList,
          rtsp_url_sub := "rtsp://yard/sub".toList, is_h265_main := false,
          is_h265_sub := false } ]
      (by decide)).imp (fun _ h => ⟨h.1, h.2.1⟩)⟩

/-! ## The recording manager: starting -/

/-- The start loop treats every slot below its bound once, on its own, and no other slot. -/
theorem start_loop_slot (envs : Nat → StartEnv) (threads : Nat → Nat) (n : Nat)
    (a : Nat → Session) (i : Nat) :
    start_loop envs threads n a i
      = if i < n then session_start (envs i) (threads i) (a i) else a i := by
  induction n with
  | zero => simp [start_loop]
  | succ n ih =>
    simp only [start_loop]
    by_cases h : i = n
    · subst h
      rw [set_slot_same, ih]
      simp
    · rw [set_slot_other _ _ _ _ h, ih]
      by_cases h2 : i < n
      · have h3 : i < n + 1 := by omega
        simp [h2, h3]
      · have h3 : ¬ i < n + 1 := by omega
        simp [h2, h3]

theorem create_recording_pipeline_keeps (b : PipelineBuild) (rec : RecordingPipeline) :
    (create_recording_pipeline b rec).2.camera_name = rec.camera_name
    ∧ (create_recording_pipeline b rec).2.stream_type = rec.stream_type := by
  unfold create_recording_pipeline
  cases hp : b.pipeline with
  | none => exact ⟨rfl, rfl⟩
  | some pipeline =>
    simp only []
    split
    · exact ⟨rfl, rfl⟩
    · split
      · exact ⟨rfl, rfl⟩
      · exact ⟨rfl, rfl⟩

theorem recording_thread_func_start_keeps (env : StartEnv) (rec : RecordingPipeline) :
    (recording_thread_func_start env rec).1.camera_name = rec.camera_name
    ∧ (recording_thread_func_start env rec).1.stream_type = rec.stream_type := by
  have h := create_recording_pipeline_keeps env.build rec
  unfold recording_thread_func_start
  simp only []
  split
  · exact h
  · split
    · exact h
    · split
      · exact h
      · exact h

/-- Starting a session keeps its camera name and stream kind, and starts at most one
thread for it. -/
theorem session_start_keeps (env : StartEnv) (thread : Nat) (s : Session) :
    (session_start env thread s).record.camera_name = s.record.camera_name
    ∧ (session_start env thread s).record.stream_type = s.record.stream_type
    ∧ (session_start env thread s).live_tasks ≤ s.live_tasks + 1 := by
  unfold session_start
  split
  · have h := recording_thread_func_start_keeps env
      { s.record with is_running := true, thread := some thread }
    refine ⟨h.1, h.2, ?_⟩
    simp only []
    split <;> omega
  · exact ⟨rfl, rfl, by omega⟩

/-- The session found at an index below `count` after a run of
`recording_manager_add_camera` calls on a new manager. -/
theorem add_cameras_slot (cams : List CameraArgs) (hn : cams.length ≤ 671088640) :
    ∃ m : RecordingManager,
      add_cameras cams recording_manager_new = some (m, List.replicate cams.length true)
      ∧ m.count = 2 * (cams.length : Int)
      ∧ ∀ i, i < 2 * cams.length →
        ∃ c, cams.get? (i / 2) = some c
          ∧ (m.pipelines i).record.camera_name = c.camera_name
          ∧ (m.pipelines i).record.stream_type
              = (if i % 2 = 0 then StreamType.STREAM_MAIN else StreamType.STREAM_SUB)
          ∧ (m.pipelines i).live_tasks = 0 := by
  obtain ⟨m, r1, r2, _, _, r6⟩ := add_cameras_new cams hn
  refine ⟨m, r1, r2, ?_⟩
  intro i hi
  have hk : i / 2 < cams.length := by omega
  refine ⟨cams.get ⟨i / 2, hk⟩, List.get?_eq_get hk, ?_⟩
  obtain ⟨q1, q2⟩ := r6 (i / 2) _ (List.get?_eq_get hk)
  by_cases hpar : i % 2 = 0
  · have e : 2 * (i / 2) = i := by omega
    rw [e] at q1
    rw [q1, if_pos hpar]
    exact ⟨rfl, rfl, rfl⟩
  · have e : 2 * (i / 2) + 1 = i := by omega
    rw [e] at q2
    rw [q2, if_neg hpar]
    exact ⟨rfl, rfl, rfl⟩

/-- C25 as the claim states it, refuted: one camera name added twice gives four sessions,
and those in slots 0 and 2 have the same camera name and the same stream kind;
`recording_manager_start_all` starts a thread for each of them. -/
theorem camera_added_twice_has_two_main_sessions :
    Option.map
        (fun r : RecordingManager × List Bool =>
          ((recording_manager_start_all
              (fun _ =>
                { build := { pipeline := some 10, source := some 11, depay := some 12,
                             parser := some 13, queue := some 14, muxer := some 15,
                             filesink := some 16, link_ok := true },
                  start := GstStateChangeReturn.GST_STATE_CHANGE_ASYNC,
                  start_wait := GstStateChangeReturn.GST_STATE_CHANGE_SUCCESS,
                  loop := 7 })
              (fun i => i + 1) r.1).count,
           List.map
            (fun i =>
              (((recording_manager_start_all
                  (fun _ =>
                    { build := { pipeline := some 10, source := some 11, depay := some 12,
                                 parser := some 13, queue := some 14, muxer := some 15,
                                 filesink := some 16, link_ok := true },
                      start := GstStateChangeReturn.GST_STATE_CHANGE_ASYNC,
                      start_wait := GstStateChangeReturn.GST_STATE_CHANGE_SUCCESS,
                      loop := 7 })
                  (fun i => i + 1) r.1).pipelines i).record.camera_name,
               ((recording_manager_start_all
                  (fun _ =>
                    { build := { pipeline := some 10, source := some 11, depay := some 12,
                                 parser := some 13, queue := some 14, muxer := some 15,
                                 filesink := some 16, link_ok := true },
                      start := GstStateChangeReturn.GST_STATE_CHANGE_ASYNC,
                      start_wait := GstStateChangeReturn.GST_STATE_CHANGE_SUCCESS,
                      loop := 7 })
                  (fun i => i + 1) r.1).pipelines i).record.stream_type,
               ((recording_manager_start_all
                  (fun _ =>
                    { build := { pipeline := some 10, source := some 11, depay := some 12,
                                 parser := some 13, queue := some 14, muxer := some 15,
                                 filesink := some 16, link_ok := true },
                      start := GstStateChangeReturn.GST_STATE_CHANGE_ASYNC,
                      start_wait := GstStateChangeReturn.GST_STATE_CHANGE_SUCCESS,
                      loop := 7 })
                  (fun i => i + 1) r.1).pipelines i).live_tasks))
            [0, 2]))
        (add_cameras
          [ { camera_name := "cam".toList, rtsp_url_main := "rtsp://m".toList,
              rtsp_url_sub := "rtsp://s".toList, is_h265_main := false,
              is_h265_sub := false },
            { camera_name := "cam".toList, rtsp_url_main := "rtsp://m".toList,
              rtsp_url_sub := "rtsp://s".toList, is_h265_main := false,
              is_h265_sub := false } ]
          recording_manager_new)
      = some (4, [("cam".toList, StreamType.STREAM_MAIN, 1),
                  ("cam".toList, StreamType.STREAM_MAIN, 1)]) := by
  decide

/-- C25, amended: when the camera names of the `recording_manager_add_camera` calls are
pairwise different (and the calls are at most 671088640), all the calls return and the
manager holds two sessions for each call, no two of its sessions have the same camera name
and stream kind, and `recording_manager_start_all` starts at most one thread for each
session. -/
theorem one_session_per_pair_of_distinct_names (cams : List CameraArgs)
    (envs : Nat → StartEnv) (threads : Nat → Nat) (hn : cams.length ≤ 671088640)
    (hd : (cams.map CameraArgs.camera_name).Nodup) :
    ∃ m : RecordingManager,
      add_cameras cams recording_manager_new = some (m, List.replicate cams.length true)
      ∧ (recording_manager_start_all envs threads m).count = 2 * (cams.length : Int)
      ∧ (∀ i j, i < 2 * cams.length → j < 2 * cams.length →
          ((recording_manager_start_all envs threads m).pipelines i).record.camera_name
            = ((recording_manager_start_all envs threads m).pipelines j).record.camera_name →
          ((recording_manager_start_all envs threads m).pipelines i).record.stream_type
            = ((recording_manager_start_all envs threads m).pipelines j).record.stream_type →
          i = j)
      ∧ (∀ i, i < 2 * cams.length →
          ((recording_manager_start_all envs threads m).pipelines i).live_tasks ≤ 1) := by
  obtain ⟨m, hadd, hcount, hslots⟩ := add_cameras_slot cams hn
  have hto : m.count.toNat = 2 * cams.length := by omega
  have hslot : ∀ i, i < 2 * cams.length →
      (recording_manager_start_all envs threads m).pipelines i
        = session_start (envs i) (threads i) (m.pipelines i) := by
    intro i hi
    simp only [recording_manager_start_all]
    rw [start_loop_slot, hto, if_pos hi]
  refine ⟨m, hadd, hcount, ?_, ?_⟩
  · intro i j hi hj hname hstream
    rw [hslot i hi, hslot j hj] at hname hstream
    rw [(session_start_keeps _ _ _).1, (session_start_keeps _ _ _).1] at hname
    rw [(session_start_keeps _ _ _).2.1, (session_start_keeps _ _ _).2.1] at hstream
    obtain ⟨ci, gi, ni, si, _⟩ := hslots i hi
    obtain ⟨cj, gj, nj, sj, _⟩ := hslots j hj
    rw [ni, nj] at hname
    rw [si, sj] at hstream
    have hpar : i % 2 = j % 2 := by
      by_cases h1 : i % 2 = 0 <;> by_cases h2 : j % 2 = 0
      · omega
      · rw [if_pos h1, if_neg h2] at hstream
        cases hstream
      · rw [if_neg h1, if_pos h2] at hstream
        cases hstream
      · omega
    have hki : i / 2 < (cams.map CameraArgs.camera_name).length := by
      rw [List.length_map]
      omega
    have hkj : j / 2 < (cams.map CameraArgs.camera_name).length := by
      rw [List.length_map]
      omega
    have e1 : (cams.map CameraArgs.camera_name).get? (i / 2) = some ci.camera_name := by
      rw [List.get?_eq_getElem?, List.getElem?_map, ← List.get?_eq_getElem?, gi]
      rfl
    have e2 : (cams.map CameraArgs.camera_name).get? (j / 2) = some cj.camera_name := by
      rw [List.get?_eq_getElem?, List.getElem?_map, ← List.get?_eq_getElem?, gj]
      rfl
    have hq : i / 2 = j / 2 := by
      have h3 : (cams.map CameraArgs.camera_name).get? (i / 2)
          = (cams.map CameraArgs.camera_name).get? (j / 2) := by
        rw [e1, e2, hname]
      have hne := List.nodup_iff_get?_ne_get?.mp hd
      rcases Nat.lt_trichotomy (i / 2) (j / 2) with hlt | heq | hgt
      · exact absurd h3 (hne _ _ hlt hkj)
      · exact heq
      · exact absurd h3.symm (hne _ _ hgt hki)
    omega
  · intro i hi
    rw [hslot i hi]
    obtain ⟨_, _, _, _, hl⟩ := hslots i hi
    have h := (session_start_keeps (envs i) (threads i) (m.pipelines i)).2.2
    omega

/-- C25 amended, at two cameras with different names. -/
theorem one_session_per_pair_of_distinct_names_witness :
    ([ ({ camera_name := "gate".toList, rtsp_url_main := "rtsp://gate/main".toList,
          rtsp_url_sub := "rtsp://gate/sub".toList, is_h265_main := true,
          is_h265_sub := false } : CameraArgs),
       { camera_name := "yard".toList, rtsp_url_main := "rtsp://yard/main".toList,
         rtsp_url_sub := "rtsp://yard/sub".toList, is_h265_main := false,
         is_h265_sub := false } ].length ≤ 671088640)
    ∧ (List.map CameraArgs.camera_name
        [ ({ camera_name := "gate".toList, rtsp_url_main := "rtsp://gate/main".toList,
             rtsp_url_sub := "rtsp://gate/sub".toList, is_h265_main := true,
             is_h265_sub := false } : CameraArgs),
          { camera_name := "yard".toList, rtsp_url_main := "rtsp://yard/main".toList,
            rtsp_url_sub := "rtsp://yard/sub".toList, is_h265_main := false,
            is_h265_sub := false } ]).Nodup
    ∧ ∃ m : RecordingManager,
        add_cameras
            [ ({ camera_name := "gate".toList, rtsp_url_main := "rtsp://gate/main".toList,
                 rtsp_url_sub := "rtsp://gate/sub".toList, is_h265_main := true,
                 is_h265_sub := false } : CameraArgs),
              { camera_name := "yard".toList, rtsp_url_main := "rtsp://yard/main".toList,
                rtsp_url_sub := "rtsp://yard/sub".toList, is_h265_main := false,
                is_h265_sub := false } ]
            recording_manager_new = some (m, [true, true])
        ∧ (recording_manager_start_all
            (fun _ =>
              { build := { pipeline := some 10, source := some 11, depay := some 12,
                           parser := some 13, queue := some 14, muxer := some 15,
                           filesink := some 16, link_ok := true },
                start := GstStateChangeReturn.GST_STATE_CHANGE_ASYNC,
                start_wait := GstStateChangeReturn.GST_STATE_CHANGE_SUCCESS,
                loop := 7 })
            (fun i => i + 1) m).count = 4 :=
  ⟨by decide, by decide,
   (one_session_per_pair_of_distinct_names
      [ { camera_name := "gate".toList, rtsp_url_main := "rtsp://gate/main".toList,
          rtsp_url_sub := "rtsp://gate/sub".toList, is_h265_main := true,
          is_h265_sub := false },
        { camera_name := "yard".toList, rtsp_url_main := "rtsp://yard/main".toList,
          rtsp_url_sub := "rtsp://yard/sub".toList, is_h265_main := false,
          is_h265_sub := false } ]
      (fun _ =>
        { build := { pipeline := some 10, source := some 11, depay := some 12,
                     parser := some 13, queue := some 14, muxer := some 15,
                     filesink := some 16, link_ok := true },
          start := GstStateChangeReturn.GST_STATE_CHANGE_ASYNC,
          start_wait := GstStateChangeReturn.GST_STATE_CHANGE_SUCCESS,
          loop := 7 })
      (fun i => i + 1) (by decide) (by decide)).imp (fun _ h => ⟨h.1, h.2.1⟩)⟩

end RtspServer
